import Mathlib

/-!
# Gool project generator: configuration validation, directory planning and
# generation orchestration

A shallow embedding of the Go sources `cmd/init.go`, `internal/config/types.go`,
`internal/templates/engine.go` and `internal/generator/*.go`.

Modelling conventions:

* Go strings are Lean `String`s; ranging over a Go string yields its runes, which
  are the characters of the Lean string.
* A `*config.ProjectConfig` that a function mutates is passed in and returned.
* File-system effects are recorded as a trace of `Event`s. Whether an operation
  fails is decided by a `World`, an arbitrary function of the history and of the
  operation attempted, so every statement quantified over worlds covers every
  pattern of file-system and template failures.
* Template texts are opaque: a template is identified by the Go variable that
  holds it, qualified by the function that declares it.
-/

namespace Gool

/-! ## internal/config/types.go -/

/-- MiddlewareConfig represents middleware options. -/
structure MiddlewareConfig where
  CORS : Bool
  RateLimit : Bool
  Logging : Bool
  Auth : Bool
  ErrorHandler : Bool
  deriving DecidableEq, Repr

/-- FeaturesConfig represents additional features. -/
structure FeaturesConfig where
  WebSocket : Bool
  Caching : Bool
  MessageQueue : Bool
  HealthCheck : Bool
  Swagger : Bool
  StaticFiles : Bool
  I18n : Bool
  Metrics : Bool
  CloudConfig : Bool
  deriving DecidableEq, Repr

/-- ProjectConfig represents the configuration for generating a new project. -/
structure ProjectConfig where
  ProjectName : String
  ModulePath : String
  Framework : String
  ORM : String
  Database : String
  Architecture : String
  Config : String
  Auth : String
  Logging : String
  Testing : Bool
  Docker : Bool
  CICD : String
  Middleware : MiddlewareConfig
  Features : FeaturesConfig
  deriving DecidableEq, Repr

/-- The zero value of `MiddlewareConfig`. -/
def MiddlewareConfig.zero : MiddlewareConfig :=
  ⟨false, false, false, false, false⟩

/-- The zero value of `FeaturesConfig`. -/
def FeaturesConfig.zero : FeaturesConfig :=
  ⟨false, false, false, false, false, false, false, false, false⟩

/-- The zero value of `ProjectConfig` (what `&config.ProjectConfig{}` holds). -/
def ProjectConfig.zero : ProjectConfig :=
  ⟨"", "", "", "", "", "", "", "", "", false, false, "", MiddlewareConfig.zero, FeaturesConfig.zero⟩

def FrameworkGin : String := "gin"
def FrameworkEcho : String := "echo"
def FrameworkFiber : String := "fiber"
def FrameworkRevel : String := "revel"

def ORMGorm : String := "gorm"
def ORMSqlx : String := "sqlx"
def ORMRaw : String := "raw"
def ORMNone : String := "none"

def DBPostgreSQL : String := "postgresql"
def DBMySQL : String := "mysql"
def DBSQLite : String := "sqlite"
def DBMongoDB : String := "mongodb"
def DBRedis : String := "redis"
def DBMemory : String := "memory"

def ArchSimple : String := "simple"
def ArchClean : String := "clean"
def ArchHexagonal : String := "hexagonal"
def ArchMVC : String := "mvc"
def ArchCustom : String := "custom"

def ConfigYAML : String := "yaml"
def ConfigJSON : String := "json"
def ConfigTOML : String := "toml"

def AuthJWT : String := "jwt"
def AuthOAuth2 : String := "oauth2"
def AuthBasic : String := "basic"
def AuthNone : String := "none"

def LogStandard : String := "standard"
def LogLogrus : String := "logrus"
def LogZap : String := "zap"
def LogCharm : String := "charm"

def CICDGitHub : String := "github"
def CICDGitLab : String := "gitlab"
def CICDNone : String := "none"

/-! ## cmd/init.go: validation -/

/-- The condition tested on each rune by the loop of `isValidProjectName`. -/
def isValidProjectName.okChar (char : Char) : Bool :=
  (decide ('a' ≤ char) && decide (char ≤ 'z')) || (decide ('A' ≤ char) && decide (char ≤ 'Z')) ||
    (decide ('0' ≤ char) && decide (char ≤ '9')) || char == '-' || char == '_'

/-- isValidProjectName: false for the empty name and as soon as a rune fails the
test, true otherwise. -/
def isValidProjectName (name : String) : Bool :=
  if name = "" then false
  else name.data.all isValidProjectName.okChar

def isValidFramework (framework : String) : Bool :=
  [FrameworkGin, FrameworkEcho, FrameworkFiber, FrameworkRevel].any fun valid =>
    decide (framework = valid)

def isValidORM (orm : String) : Bool :=
  [ORMGorm, ORMSqlx, ORMRaw, ORMNone].any fun valid => decide (orm = valid)

def isValidDatabase (database : String) : Bool :=
  [DBPostgreSQL, DBMySQL, DBSQLite, DBMongoDB, DBRedis, DBMemory].any fun valid =>
    decide (database = valid)

def isValidArchitecture (arch : String) : Bool :=
  [ArchSimple, ArchClean, ArchHexagonal, ArchMVC, ArchCustom].any fun valid =>
    decide (arch = valid)

/-- The result of a validation step: the error (`none` for nil) and the
configuration as the step leaves it. -/
abbrev Checked := Option String × ProjectConfig

/-- Continue with the next step unless an error was returned. -/
def Checked.andThen (r : Checked) (next : ProjectConfig → Checked) : Checked :=
  match r with
  | (some err, cfg) => (some err, cfg)
  | (none, cfg) => next cfg

/-- The project-name block of validateAndSetDefaults: default the empty name,
then validate the name. -/
def validateAndSetDefaults.name (cfg : ProjectConfig) : Checked :=
  let cfg := if cfg.ProjectName = "" then { cfg with ProjectName := "my-go-app" } else cfg
  if !isValidProjectName cfg.ProjectName then
    (some ("invalid project name '" ++ cfg.ProjectName ++
      "'. Use only letters, numbers, hyphens, and underscores"), cfg)
  else (none, cfg)

/-- The framework block of validateAndSetDefaults. -/
def validateAndSetDefaults.framework (cfg : ProjectConfig) : Checked :=
  if cfg.Framework = "" then (none, { cfg with Framework := FrameworkGin })
  else if !isValidFramework cfg.Framework then
    (some ("invalid framework '" ++ cfg.Framework ++
      "'. Valid options: gin, echo, fiber, revel"), cfg)
  else (none, cfg)

/-- The ORM block of validateAndSetDefaults. -/
def validateAndSetDefaults.orm (cfg : ProjectConfig) : Checked :=
  if cfg.ORM = "" then (none, { cfg with ORM := ORMGorm })
  else if !isValidORM cfg.ORM then
    (some ("invalid ORM '" ++ cfg.ORM ++ "'. Valid options: gorm, sqlx, raw, none"), cfg)
  else (none, cfg)

/-- The database block of validateAndSetDefaults. -/
def validateAndSetDefaults.database (cfg : ProjectConfig) : Checked :=
  if cfg.Database = "" ∧ cfg.ORM ≠ ORMNone then (none, { cfg with Database := DBPostgreSQL })
  else if cfg.Database ≠ "" ∧ !isValidDatabase cfg.Database then
    (some ("invalid database '" ++ cfg.Database ++
      "'. Valid options: postgresql, mysql, sqlite, mongodb, redis, memory"), cfg)
  else (none, cfg)

/-- The architecture block of validateAndSetDefaults. -/
def validateAndSetDefaults.architecture (cfg : ProjectConfig) : Checked :=
  if cfg.Architecture = "" then (none, { cfg with Architecture := ArchSimple })
  else if !isValidArchitecture cfg.Architecture then
    (some ("invalid architecture '" ++ cfg.Architecture ++
      "'. Valid options: simple, clean, hexagonal, mvc, custom"), cfg)
  else (none, cfg)

/-- The unconditional assignments that end validateAndSetDefaults. -/
def validateAndSetDefaults.rest (cfg : ProjectConfig) : ProjectConfig :=
  { cfg with
    ModulePath := "github.com/username/" ++ cfg.ProjectName
    Config := ConfigYAML
    Auth := AuthJWT
    Logging := LogZap
    Testing := true
    Docker := true
    CICD := CICDGitHub
    Middleware := { cfg.Middleware with CORS := true, Logging := true, ErrorHandler := true }
    Features := { cfg.Features with HealthCheck := true, Swagger := true } }

/-- validateAndSetDefaults validates configuration and sets defaults: the blocks
run in the order of the source and the first error returns. -/
def validateAndSetDefaults (cfg : ProjectConfig) : Checked :=
  (((((validateAndSetDefaults.name cfg).andThen validateAndSetDefaults.framework).andThen
    validateAndSetDefaults.orm).andThen validateAndSetDefaults.database).andThen
    validateAndSetDefaults.architecture).andThen fun cfg =>
      (none, validateAndSetDefaults.rest cfg)

/-- The four enumerated fields that validateAndSetDefaults checks are each unset
or inside their enumeration. -/
def enumsAcceptable (cfg : ProjectConfig) : Prop :=
  (cfg.Framework = "" ∨ isValidFramework cfg.Framework = true) ∧
  (cfg.ORM = "" ∨ isValidORM cfg.ORM = true) ∧
  (cfg.Database = "" ∨ isValidDatabase cfg.Database = true) ∧
  (cfg.Architecture = "" ∨ isValidArchitecture cfg.Architecture = true)

/-- validateProjectConfig validates the entire project configuration. The result
is the error, the configuration as left, and the warnings printed. -/
def validateProjectConfig (cfg : ProjectConfig) :
    Option String × ProjectConfig × List String :=
  if cfg.ProjectName = "" then (some "project name is required", cfg, [])
  else if cfg.ModulePath = "" then (some "module path is required", cfg, [])
  else if cfg.ORM = ORMNone ∧ cfg.Database ≠ "" then
    (none, { cfg with Database := "" },
      ["⚠️  Warning: Database '" ++ cfg.Database ++
        "' specified but ORM is 'none'. Database will be ignored."])
  else (none, cfg, [])

/-- The package-level variables of `cmd/init.go` bound to the command-line flags. -/
structure Flags where
  interactive : Bool
  framework : String
  orm : String
  database : String
  arch : String
  deriving DecidableEq, Repr

/-- The part of `runInit` that builds and validates the configuration: `args` are
the positional arguments, `collected` is what `prompts.CollectProjectConfig`
returns when it is called. The result is the error returned, or the configuration
handed on to generation. -/
def runInit.prepare (flags : Flags) (args : List String)
    (collected : Except String ProjectConfig) : Except String ProjectConfig :=
  let projectName := match args with
    | [] => ""
    | a :: _ => a
  let isNonInteractive := !flags.interactive ||
    (flags.framework != "" || flags.orm != "" || flags.database != "" || flags.arch != "")
  let built : Except String ProjectConfig :=
    if !isNonInteractive then
      match collected with
      | .error err => .error err
      | .ok cfg => .ok (if projectName ≠ "" then { cfg with ProjectName := projectName } else cfg)
    else
      let cfg := { ProjectConfig.zero with
        ProjectName := projectName, Framework := flags.framework, ORM := flags.orm,
        Database := flags.database, Architecture := flags.arch }
      match validateAndSetDefaults cfg with
      | (some err, _) => .error err
      | (none, cfg) => .ok cfg
  match built with
  | .error err => .error err
  | .ok cfg =>
    match validateProjectConfig cfg with
    | (some err, _, _) => .error err
    | (none, cfg, _) => .ok cfg

/-! ## internal/generator/generator.go: the directory planner -/

/-- The slice `dirs` that `generateDirectoryStructure` has built when it reaches
its `MkdirAll` loop: the base layout selected by the `switch` on the architecture
(with `docs` and `test` appended inside each case), then the static-file and
locale directories. An architecture matched by no case leaves `dirs` nil. -/
def generateDirectoryStructure.dirs (cfg : ProjectConfig) : List String :=
  let dirs : List String :=
    if cfg.Architecture = ArchSimple then
      let dirs := ["cmd", "internal/handlers", "internal/models", "internal/services",
        "internal/middleware", "pkg/config", "pkg/database", "pkg/logger", "api/routes",
        "scripts", "deployments"]
      let dirs := if cfg.Features.Swagger then dirs ++ ["docs"] else dirs
      let dirs := if cfg.Testing then dirs ++ ["test"] else dirs
      dirs
    else if cfg.Architecture = ArchClean then
      let dirs := ["cmd", "internal/controller", "internal/usecase", "internal/repository",
        "internal/entity", "internal/delivery/http", "pkg/config", "pkg/database",
        "pkg/logger", "api/routes", "scripts", "deployments"]
      let dirs := if cfg.Features.Swagger then dirs ++ ["docs"] else dirs
      let dirs := if cfg.Testing then dirs ++ ["test"] else dirs
      dirs
    else if cfg.Architecture = ArchHexagonal then
      let dirs := ["cmd", "internal/adapters/primary/http",
        "internal/adapters/secondary/database", "internal/domain/entities",
        "internal/domain/services", "internal/ports", "pkg/config", "pkg/database",
        "pkg/logger", "api/routes", "scripts", "deployments"]
      let dirs := if cfg.Features.Swagger then dirs ++ ["docs"] else dirs
      let dirs := if cfg.Testing then dirs ++ ["test"] else dirs
      dirs
    else if cfg.Architecture = ArchMVC then
      let dirs := ["cmd", "internal/controllers", "internal/models", "internal/views",
        "internal/middleware", "pkg/config", "pkg/database", "pkg/logger", "api/routes",
        "scripts", "deployments"]
      let dirs := if cfg.Features.Swagger then dirs ++ ["docs"] else dirs
      let dirs := if cfg.Testing then dirs ++ ["test"] else dirs
      dirs
    else if cfg.Architecture = ArchCustom then
      let dirs := ["cmd", "internal", "pkg/config", "pkg/database", "pkg/logger", "api",
        "scripts", "deployments"]
      let dirs := if cfg.Features.Swagger then dirs ++ ["docs"] else dirs
      let dirs := if cfg.Testing then dirs ++ ["test"] else dirs
      dirs
    else []
  let dirs := if cfg.Features.StaticFiles then
    dirs ++ ["static/css", "static/js", "static/images"] else dirs
  let dirs := if cfg.Features.I18n then dirs ++ ["locales"] else dirs
  dirs

/-- The five architecture constants of `config/types.go`. -/
def validArchs : List String :=
  [ArchSimple, ArchClean, ArchHexagonal, ArchMVC, ArchCustom]

/-- The literal slice assigned to `dirs` at the head of each `case` of the
architecture switch in `generateDirectoryStructure`. -/
def baseLayout (arch : String) : List String :=
  if arch = ArchSimple then
    ["cmd", "internal/handlers", "internal/models", "internal/services",
      "internal/middleware", "pkg/config", "pkg/database", "pkg/logger", "api/routes",
      "scripts", "deployments"]
  else if arch = ArchClean then
    ["cmd", "internal/controller", "internal/usecase", "internal/repository",
      "internal/entity", "internal/delivery/http", "pkg/config", "pkg/database",
      "pkg/logger", "api/routes", "scripts", "deployments"]
  else if arch = ArchHexagonal then
    ["cmd", "internal/adapters/primary/http", "internal/adapters/secondary/database",
      "internal/domain/entities", "internal/domain/services", "internal/ports",
      "pkg/config", "pkg/database", "pkg/logger", "api/routes", "scripts", "deployments"]
  else if arch = ArchMVC then
    ["cmd", "internal/controllers", "internal/models", "internal/views",
      "internal/middleware", "pkg/config", "pkg/database", "pkg/logger", "api/routes",
      "scripts", "deployments"]
  else if arch = ArchCustom then
    ["cmd", "internal", "pkg/config", "pkg/database", "pkg/logger", "api", "scripts",
      "deployments"]
  else []

/-- The feature-conditional directories in the order the planner appends them. -/
def featureDirs (swagger testing staticFiles i18n : Bool) : List String :=
  (if swagger then ["docs"] else []) ++ (if testing then ["test"] else []) ++
    (if staticFiles then ["static/css", "static/js", "static/images"] else []) ++
    (if i18n then ["locales"] else [])

/-! ## Effects: errors, events, worlds -/

/-- A Go `error` value: an error reported by the operating system or the template
library, or `fmt.Errorf(ctx + ": %w", inner)`. -/
inductive GoError where
  | base (msg : String)
  | wrap (ctx : String) (inner : GoError)
  deriving DecidableEq, Repr

/-- TemplateData holds common template data. -/
structure TemplateData where
  Config : ProjectConfig
  ProjectName : String
  ModulePath : String
  Framework : String
  ORM : String
  Database : String
  deriving DecidableEq, Repr

/-- NewTemplateData creates template data from config. -/
def NewTemplateData (cfg : ProjectConfig) : TemplateData :=
  { Config := cfg, ProjectName := cfg.ProjectName, ModulePath := cfg.ModulePath,
    Framework := cfg.Framework, ORM := cfg.ORM, Database := cfg.Database }

/-- The observable steps of a run. `call fn` records entry into the generator
method `fn` (bookkeeping, it cannot fail); the others are the library calls made:
`os.MkdirAll`, `template.Parse`, `os.Create`, `Template.Execute` into the created
file, `os.WriteFile`, `os.Stat`, `os.RemoveAll`. -/
inductive Event where
  | call (fn : String)
  | mkdirAll (path : String)
  | parse (tmpl : String)
  | create (path : String)
  | execute (tmpl : String) (path : String) (data : TemplateData)
  | writeFile (path : String) (content : String)
  | stat (path : String)
  | removeAll (path : String)
  deriving DecidableEq, Repr

/-- The environment of a run: for a history of events and an attempted operation,
`none` when the operation succeeds and `some msg` when it fails with message
`msg`. -/
structure World where
  outcome : List Event → Event → Option String

/-- The world in which every operation succeeds. -/
def World.allOk : World := ⟨fun _ _ => none⟩

/-- The outcome of attempting `ev` after history `tr`; entering a method never
fails. -/
def World.result (w : World) (tr : List Event) (ev : Event) : Option String :=
  match ev with
  | .call _ => none
  | _ => w.outcome tr ev

/-- A computation that appends to the event trace and returns a value or an
error. The trace is kept on failure: what was done before the error stays done. -/
def Gen (α : Type) : Type := List Event → Except GoError α × List Event

/-- Run a computation from a given history. -/
def Gen.run {α : Type} (m : Gen α) (tr : List Event) : Except GoError α × List Event := m tr

/-- Build a computation from its run function. -/
def Gen.mk {α : Type} (f : List Event → Except GoError α × List Event) : Gen α := f

instance : Monad Gen where
  pure a := Gen.mk fun tr => (.ok a, tr)
  bind m f := Gen.mk fun tr =>
    match m.run tr with
    | (.ok a, tr1) => (f a).run tr1
    | (.error e, tr1) => (.error e, tr1)

/-- Attempt one operation: it is appended to the trace, and fails when the world
says so. -/
def perform (w : World) (ev : Event) : Gen Unit := Gen.mk fun tr =>
  match w.result tr ev with
  | none => (.ok (), tr ++ [ev])
  | some msg => (.error (.base msg), tr ++ [ev])

/-- The Go idiom `if err := m; err != nil { return fmt.Errorf("ctx: %w", err) }`. -/
def wrapErr {α : Type} (ctx : String) (m : Gen α) : Gen α := Gen.mk fun tr =>
  match m.run tr with
  | (.error e, tr1) => (.error (.wrap ctx e), tr1)
  | (.ok a, tr1) => (.ok a, tr1)

/-- The events a run added to the history it started from. -/
def newEvents (before after : List Event) : List Event := after.drop before.length

/-- The methods entered, in order. -/
def callsOf (tr : List Event) : List String :=
  tr.filterMap fun ev => match ev with
    | .call fn => some fn
    | _ => none

/-- The paths of the files opened for writing (`os.Create`, `os.WriteFile`), in
order. -/
def filesOf (tr : List Event) : List String :=
  tr.filterMap fun ev => match ev with
    | .create path => some path
    | .writeFile path _ => some path
    | _ => none

/-- The paths handed to `os.RemoveAll`, in order. -/
def removalsOf (tr : List Event) : List String :=
  tr.filterMap fun ev => match ev with
    | .removeAll path => some path
    | _ => none

/-! ## Paths (path/filepath) -/

/-- The value of `filepath.Join(a, b)` for non-empty clean elements, `b` relative
without `.` or `..` segments: the two joined by a separator. -/
def filepathJoin (a b : String) : String := a ++ "/" ++ b

/-- The value of `filepath.Join(".", name)` for a clean `name` (every valid
project name is clean): `name` itself, and `.` for the empty name. -/
def joinDot (name : String) : String := if name = "" then "." else name

/-- The value of `filepath.Dir(path)` for a clean path: everything before the last
separator, `.` when there is none, `/` when the only separator leads. -/
def filepathDir (path : String) : String :=
  if '/' ∈ path.data then
    let d := ((path.data.reverse.dropWhile fun c => c != '/').drop 1).reverse
    if d = [] then "/" else String.mk d
  else "."

/-! ## internal/templates/engine.go -/

/-- RenderToFile renders a template to a file: create the directory, parse the
template, create the file, execute the template into it. -/
def RenderToFile (w : World) (templateContent filePath : String) (data : TemplateData) :
    Gen Unit := do
  let dir := filepathDir filePath
  wrapErr ("failed to create directory " ++ dir) (perform w (.mkdirAll dir))
  wrapErr "failed to parse template" (perform w (.parse templateContent))
  wrapErr ("failed to create file " ++ filePath) (perform w (.create filePath))
  wrapErr "failed to execute template" (perform w (.execute templateContent filePath data))

/-- WriteFile writes content directly to a file. -/
def WriteFile (w : World) (filePath content : String) : Gen Unit := do
  let dir := filepathDir filePath
  wrapErr ("failed to create directory " ++ dir) (perform w (.mkdirAll dir))
  wrapErr ("failed to write file " ++ filePath) (perform w (.writeFile filePath content))

/-! ## internal/generator/core.go -/

/-- generateCoreFiles generates the main files for the project. -/
def generateCoreFiles (w : World) (cfg : ProjectConfig) (projectPath : String) : Gen Unit := do
  perform w (.call "generateCoreFiles")
  let data := NewTemplateData cfg
  RenderToFile w "generateCoreFiles.goModTemplate" (filepathJoin projectPath "go.mod") data
  RenderToFile w "generateCoreFiles.mainTemplate" (filepathJoin projectPath "main.go") data
  RenderToFile w "generateCoreFiles.envTemplate" (filepathJoin projectPath ".env") data
  RenderToFile w "generateCoreFiles.envTemplate" (filepathJoin projectPath ".env.example") data
  WriteFile w (filepathJoin projectPath ".gitignore") "generateCoreFiles.gitignoreContent"

/-- generateGinFiles generates Gin-specific files. -/
def generateGinFiles (w : World) (_cfg : ProjectConfig) (projectPath : String)
    (data : TemplateData) : Gen Unit := do
  perform w (.call "generateGinFiles")
  RenderToFile w "generateGinFiles.appTemplate"
    (filepathJoin projectPath "internal/app/app.go") data

/-- generateEchoFiles generates Echo-specific files. -/
def generateEchoFiles (w : World) (_cfg : ProjectConfig) (projectPath : String)
    (data : TemplateData) : Gen Unit := do
  perform w (.call "generateEchoFiles")
  RenderToFile w "generateEchoFiles.appTemplate"
    (filepathJoin projectPath "internal/app/app.go") data

/-- generateFiberFiles generates Fiber-specific files. -/
def generateFiberFiles (w : World) (_cfg : ProjectConfig) (projectPath : String)
    (data : TemplateData) : Gen Unit := do
  perform w (.call "generateFiberFiles")
  RenderToFile w "generateFiberFiles.appTemplate"
    (filepathJoin projectPath "internal/app/app.go") data

/-- generateFrameworkFiles generates framework-specific files; the `default` case
of its switch falls back to Gin. -/
def generateFrameworkFiles (w : World) (cfg : ProjectConfig) (projectPath : String) :
    Gen Unit := do
  perform w (.call "generateFrameworkFiles")
  let data := NewTemplateData cfg
  if cfg.Framework = FrameworkGin then generateGinFiles w cfg projectPath data
  else if cfg.Framework = FrameworkEcho then generateEchoFiles w cfg projectPath data
  else if cfg.Framework = FrameworkFiber then generateFiberFiles w cfg projectPath data
  else generateGinFiles w cfg projectPath data

/-- generateMiddlewareFiles: the JWT auth middleware, the CORS middleware and the
request logging middleware, each behind its own condition. -/
def generateMiddlewareFiles (w : World) (cfg : ProjectConfig) (projectPath : String) :
    Gen Unit := do
  perform w (.call "generateMiddlewareFiles")
  let data := NewTemplateData cfg
  if cfg.Auth = AuthJWT then
    RenderToFile w "generateMiddlewareFiles.authMiddlewareTemplate"
      (filepathJoin projectPath "internal/middleware/auth.go") data
  if cfg.Middleware.CORS then
    RenderToFile w "generateMiddlewareFiles.corsMiddlewareTemplate"
      (filepathJoin projectPath "internal/middleware/cors.go") data
  if cfg.Middleware.Logging then
    RenderToFile w "generateMiddlewareFiles.loggingMiddlewareTemplate"
      (filepathJoin projectPath "internal/middleware/logging.go") data

/-- generateTestFiles: the main test, the test utilities, and the user handler
tests when an ORM is configured. -/
def generateTestFiles (w : World) (cfg : ProjectConfig) (projectPath : String) : Gen Unit := do
  perform w (.call "generateTestFiles")
  let data := NewTemplateData cfg
  RenderToFile w "generateTestFiles.mainTestTemplate"
    (filepathJoin projectPath "main_test.go") data
  RenderToFile w "generateTestFiles.testUtilsTemplate"
    (filepathJoin projectPath "test/testutils/utils.go") data
  if cfg.ORM ≠ ORMNone then
    RenderToFile w "generateTestFiles.userHandlerTestTemplate"
      (filepathJoin projectPath "test/handlers/user_test.go") data

/-- generateDocsPackage generates the Swagger docs package, and returns at once
when Swagger is not enabled. -/
def generateDocsPackage (w : World) (cfg : ProjectConfig) (projectPath : String) :
    Gen Unit := do
  perform w (.call "generateDocsPackage")
  if !cfg.Features.Swagger then pure ()
  else
    let data := NewTemplateData cfg
    RenderToFile w "generateDocsPackage.docsTemplate"
      (filepathJoin projectPath "docs/docs.go") data

/-! ## internal/generator/basic_files.go -/

/-- generateConfigFiles generates configuration files. -/
def generateConfigFiles (w : World) (cfg : ProjectConfig) (projectPath : String) :
    Gen Unit := do
  perform w (.call "generateConfigFiles")
  let data := NewTemplateData cfg
  RenderToFile w "generateConfigFiles.configTemplate"
    (filepathJoin projectPath "pkg/config/config.go") data

/-- generateDatabaseFiles generates database-related files: it returns at once
for ORM none, and has a template for GORM only. -/
def generateDatabaseFiles (w : World) (cfg : ProjectConfig) (projectPath : String) :
    Gen Unit := do
  perform w (.call "generateDatabaseFiles")
  if cfg.ORM = ORMNone then pure ()
  else
    let data := NewTemplateData cfg
    if cfg.ORM = ORMGorm then
      RenderToFile w "generateDatabaseFiles.dbTemplate"
        (filepathJoin projectPath "pkg/database/database.go") data

/-- generateRoutes generates API routes. -/
def generateRoutes (w : World) (cfg : ProjectConfig) (projectPath : String) : Gen Unit := do
  perform w (.call "generateRoutes")
  let data := NewTemplateData cfg
  RenderToFile w "generateRoutes.routesTemplate"
    (filepathJoin projectPath "api/routes/routes.go") data

/-- generateHandlers generates basic handlers. -/
def generateHandlers (w : World) (cfg : ProjectConfig) (projectPath : String) : Gen Unit := do
  perform w (.call "generateHandlers")
  let data := NewTemplateData cfg
  RenderToFile w "generateHandlers.handlersTemplate"
    (filepathJoin projectPath "internal/handlers/handlers.go") data

/-- generateLogger generates logger configuration. -/
def generateLogger (w : World) (cfg : ProjectConfig) (projectPath : String) : Gen Unit := do
  perform w (.call "generateLogger")
  let data := NewTemplateData cfg
  RenderToFile w "generateLogger.loggerTemplate"
    (filepathJoin projectPath "pkg/logger/logger.go") data

/-- generateFeatureFiles calls the routes, handlers and logger generators. -/
def generateFeatureFiles (w : World) (cfg : ProjectConfig) (projectPath : String) :
    Gen Unit := do
  perform w (.call "generateFeatureFiles")
  generateRoutes w cfg projectPath
  generateHandlers w cfg projectPath
  generateLogger w cfg projectPath

/-- generateBeautifulStartup generates the startup package. -/
def generateBeautifulStartup (w : World) (cfg : ProjectConfig) (projectPath : String) :
    Gen Unit := do
  perform w (.call "generateBeautifulStartup")
  let data := NewTemplateData cfg
  RenderToFile w "generateBeautifulStartup.startupMainTemplate"
    (filepathJoin projectPath "pkg/startup/startup.go") data

/-! ## internal/generator/docker.go -/

/-- generateDockerFiles generates Docker-related files. -/
def generateDockerFiles (w : World) (cfg : ProjectConfig) (projectPath : String) :
    Gen Unit := do
  perform w (.call "generateDockerFiles")
  let data := NewTemplateData cfg
  WriteFile w (filepathJoin projectPath "Dockerfile") "generateDockerFiles.dockerfileTemplate"
  RenderToFile w "generateDockerFiles.dockerComposeTemplate"
    (filepathJoin projectPath "docker-compose.yml") data
  WriteFile w (filepathJoin projectPath ".dockerignore")
    "generateDockerFiles.dockerignoreContent"

/-- generateCICDFiles generates CI/CD pipeline files: the GitHub workflow or the
GitLab configuration, then the Makefile. The workflow text is built from the
project name. -/
def generateCICDFiles (w : World) (cfg : ProjectConfig) (projectPath : String) : Gen Unit := do
  perform w (.call "generateCICDFiles")
  let data := NewTemplateData cfg
  if cfg.CICD = CICDGitHub then
    let workflowDir := filepathJoin projectPath ".github/workflows"
    WriteFile w (filepathJoin workflowDir "ci-cd.yml")
      ("generateCICDFiles.githubWorkflowContent:" ++ cfg.ProjectName)
  else if cfg.CICD = CICDGitLab then
    RenderToFile w "generateCICDFiles.gitlabCITemplate"
      (filepathJoin projectPath ".gitlab-ci.yml") data
  RenderToFile w "generateCICDFiles.makefileTemplate"
    (filepathJoin projectPath "Makefile") data

/-! ## internal/generator/readme.go -/

/-- generateREADME generates a comprehensive README for the project. -/
def generateREADME (w : World) (cfg : ProjectConfig) (projectPath : String) : Gen Unit := do
  perform w (.call "generateREADME")
  let data := NewTemplateData cfg
  RenderToFile w "generateREADME.readmeTemplate" (filepathJoin projectPath "README.md") data

/-! ## internal/generator/models.go -/

/-- The `modelPath` selected by the architecture switch of `generateModels`. -/
def generateModels.modelPath (cfg : ProjectConfig) : String :=
  if cfg.Architecture = ArchSimple then "internal/models"
  else if cfg.Architecture = ArchClean then "internal/entity"
  else if cfg.Architecture = ArchHexagonal then "internal/core/domain"
  else if cfg.Architecture = ArchMVC then "internal/models"
  else "internal/models"

/-- generateModels generates example models: `user.go`, then `response.go`, both
under `modelPath`. -/
def generateModels (w : World) (cfg : ProjectConfig) (projectPath : String) : Gen Unit := do
  perform w (.call "generateModels")
  let data := NewTemplateData cfg
  let modelPath := generateModels.modelPath cfg
  RenderToFile w "generateModels.userModelTemplate"
    (filepathJoin (filepathJoin projectPath modelPath) "user.go") data
  RenderToFile w "generateModels.responseTemplate"
    (filepathJoin (filepathJoin projectPath modelPath) "response.go") data

/-! ## internal/generator/generator.go: the orchestrator -/

/-- The `MkdirAll` loop of `generateDirectoryStructure`. -/
def generateDirectoryStructure.loop (w : World) (projectPath : String) :
    List String → Gen Unit
  | [] => pure ()
  | dir :: rest => do
    let dirPath := filepathJoin projectPath dir
    wrapErr ("failed to create directory " ++ dir) (perform w (.mkdirAll dirPath))
    generateDirectoryStructure.loop w projectPath rest

/-- generateDirectoryStructure creates the folder structure based on
architecture. -/
def generateDirectoryStructure (w : World) (cfg : ProjectConfig) (projectPath : String) :
    Gen Unit := do
  perform w (.call "generateDirectoryStructure")
  generateDirectoryStructure.loop w projectPath (generateDirectoryStructure.dirs cfg)

/-- Generate creates a new project based on the provided configuration. -/
def Generate (w : World) (cfg : ProjectConfig) : Gen Unit := do
  perform w (.call "Generate")
  let projectPath := joinDot cfg.ProjectName
  wrapErr "failed to create project directory" (perform w (.mkdirAll projectPath))
  wrapErr "failed to generate directory structure"
    (generateDirectoryStructure w cfg projectPath)
  wrapErr "failed to generate core files" (generateCoreFiles w cfg projectPath)
  wrapErr "failed to generate framework files" (generateFrameworkFiles w cfg projectPath)
  wrapErr "failed to generate database files" (generateDatabaseFiles w cfg projectPath)
  wrapErr "failed to generate middleware files" (generateMiddlewareFiles w cfg projectPath)
  wrapErr "failed to generate feature files" (generateFeatureFiles w cfg projectPath)
  wrapErr "failed to generate beautiful startup" (generateBeautifulStartup w cfg projectPath)
  wrapErr "failed to generate docs package" (generateDocsPackage w cfg projectPath)
  wrapErr "failed to generate models" (generateModels w cfg projectPath)
  wrapErr "failed to generate config files" (generateConfigFiles w cfg projectPath)
  if cfg.Testing then
    wrapErr "failed to generate test files" (generateTestFiles w cfg projectPath)
  if cfg.Docker then
    wrapErr "failed to generate Docker files" (generateDockerFiles w cfg projectPath)
  if cfg.CICD ≠ CICDNone then
    wrapErr "failed to generate CI/CD files" (generateCICDFiles w cfg projectPath)
  wrapErr "failed to generate README" (generateREADME w cfg projectPath)

/-- The generation step of `runInit`: when `Generate` fails and `os.Stat` finds the
project directory, the directory is removed recursively (a failure of the removal
is only printed), and the error of `Generate` is returned wrapped. -/
def runInit.generate (w : World) (cfg : ProjectConfig) : Gen Unit := Gen.mk fun tr =>
  let projectPath := joinDot cfg.ProjectName
  match (Generate w cfg).run tr with
  | (.ok (), tr1) => (.ok (), tr1)
  | (.error err, tr1) =>
    match w.result tr1 (.stat projectPath) with
    | none =>
      (.error (.wrap "failed to generate project" err),
        tr1 ++ [.stat projectPath, .removeAll projectPath])
    | some _ => (.error (.wrap "failed to generate project" err), tr1 ++ [.stat projectPath])

/-! ## Straight-line plans

Every generator is a fixed sequence of operations that stops at the first
failure. `runOps` runs such a sequence; the lemmas below bring each generator
into that form. -/

/-- An operation together with the contexts wrapped around its error, innermost
first. -/
structure PlannedOp where
  ev : Event
  ctx : List String
  deriving DecidableEq, Repr

/-- Add an outer error context. -/
def PlannedOp.within (c : String) (p : PlannedOp) : PlannedOp :=
  { p with ctx := p.ctx ++ [c] }

/-- Wrap an error in the given contexts, innermost first. -/
def wrapAll (ctx : List String) (e : GoError) : GoError :=
  ctx.foldl (fun e c => GoError.wrap c e) e

/-- Run the operations in order and stop at the first one that fails. -/
def runOps (w : World) : List PlannedOp → Gen Unit
  | [] => pure ()
  | p :: ps => Gen.mk fun tr =>
      match w.result tr p.ev with
      | none => (runOps w ps).run (tr ++ [p.ev])
      | some msg => (.error (wrapAll p.ctx (.base msg)), tr ++ [p.ev])

/-- The plan of `RenderToFile`. -/
def RenderToFile.plan (templateContent filePath : String) (data : TemplateData) :
    List PlannedOp :=
  [⟨.mkdirAll (filepathDir filePath), ["failed to create directory " ++ filepathDir filePath]⟩,
   ⟨.parse templateContent, ["failed to parse template"]⟩,
   ⟨.create filePath, ["failed to create file " ++ filePath]⟩,
   ⟨.execute templateContent filePath data, ["failed to execute template"]⟩]

/-- The plan of `WriteFile`. -/
def WriteFile.plan (filePath content : String) : List PlannedOp :=
  [⟨.mkdirAll (filepathDir filePath), ["failed to create directory " ++ filepathDir filePath]⟩,
   ⟨.writeFile filePath content, ["failed to write file " ++ filePath]⟩]

/-- The plan entry of entering a method. -/
def callOp (fn : String) : PlannedOp := ⟨.call fn, []⟩

/-- The events of a plan, in order. -/
def planEvents (ops : List PlannedOp) : List Event := ops.map PlannedOp.ev

/-- The plan of `generateCoreFiles`. -/
def generateCoreFiles.plan (cfg : ProjectConfig) (projectPath : String) : List PlannedOp :=
  [callOp "generateCoreFiles"] ++
  (RenderToFile.plan "generateCoreFiles.goModTemplate" (filepathJoin projectPath "go.mod")
    (NewTemplateData cfg) ++
  (RenderToFile.plan "generateCoreFiles.mainTemplate" (filepathJoin projectPath "main.go")
    (NewTemplateData cfg) ++
  (RenderToFile.plan "generateCoreFiles.envTemplate" (filepathJoin projectPath ".env")
    (NewTemplateData cfg) ++
  (RenderToFile.plan "generateCoreFiles.envTemplate" (filepathJoin projectPath ".env.example")
    (NewTemplateData cfg) ++
  WriteFile.plan (filepathJoin projectPath ".gitignore") "generateCoreFiles.gitignoreContent"))))

/-- The framework branch taken by the switch of `generateFrameworkFiles`. -/
def generateFrameworkFiles.branch (cfg : ProjectConfig) : String :=
  if cfg.Framework = FrameworkGin then "generateGinFiles"
  else if cfg.Framework = FrameworkEcho then "generateEchoFiles"
  else if cfg.Framework = FrameworkFiber then "generateFiberFiles"
  else "generateGinFiles"

/-- The plan of `generateFrameworkFiles`. -/
def generateFrameworkFiles.plan (cfg : ProjectConfig) (projectPath : String) :
    List PlannedOp :=
  [callOp "generateFrameworkFiles"] ++
  ([callOp (generateFrameworkFiles.branch cfg)] ++
  RenderToFile.plan (generateFrameworkFiles.branch cfg ++ ".appTemplate")
    (filepathJoin projectPath "internal/app/app.go") (NewTemplateData cfg))

/-- The plan of `generateMiddlewareFiles`. -/
def generateMiddlewareFiles.plan (cfg : ProjectConfig) (projectPath : String) :
    List PlannedOp :=
  [callOp "generateMiddlewareFiles"] ++
  ((if cfg.Auth = AuthJWT then
      RenderToFile.plan "generateMiddlewareFiles.authMiddlewareTemplate"
        (filepathJoin projectPath "internal/middleware/auth.go") (NewTemplateData cfg)
    else []) ++
  ((if cfg.Middleware.CORS then
      RenderToFile.plan "generateMiddlewareFiles.corsMiddlewareTemplate"
        (filepathJoin projectPath "internal/middleware/cors.go") (NewTemplateData cfg)
    else []) ++
  (if cfg.Middleware.Logging then
      RenderToFile.plan "generateMiddlewareFiles.loggingMiddlewareTemplate"
        (filepathJoin projectPath "internal/middleware/logging.go") (NewTemplateData cfg)
    else [])))

/-- The plan of `generateTestFiles`. -/
def generateTestFiles.plan (cfg : ProjectConfig) (projectPath : String) : List PlannedOp :=
  [callOp "generateTestFiles"] ++
  (RenderToFile.plan "generateTestFiles.mainTestTemplate"
    (filepathJoin projectPath "main_test.go") (NewTemplateData cfg) ++
  (RenderToFile.plan "generateTestFiles.testUtilsTemplate"
    (filepathJoin projectPath "test/testutils/utils.go") (NewTemplateData cfg) ++
  (if cfg.ORM ≠ ORMNone then
      RenderToFile.plan "generateTestFiles.userHandlerTestTemplate"
        (filepathJoin projectPath "test/handlers/user_test.go") (NewTemplateData cfg)
    else [])))

/-- The plan of `generateDocsPackage`. -/
def generateDocsPackage.plan (cfg : ProjectConfig) (projectPath : String) : List PlannedOp :=
  [callOp "generateDocsPackage"] ++
  (if cfg.Features.Swagger then
      RenderToFile.plan "generateDocsPackage.docsTemplate"
        (filepathJoin projectPath "docs/docs.go") (NewTemplateData cfg)
    else [])

/-- The plan of `generateConfigFiles`. -/
def generateConfigFiles.plan (cfg : ProjectConfig) (projectPath : String) : List PlannedOp :=
  [callOp "generateConfigFiles"] ++
  RenderToFile.plan "generateConfigFiles.configTemplate"
    (filepathJoin projectPath "pkg/config/config.go") (NewTemplateData cfg)

/-- The plan of `generateDatabaseFiles`. -/
def generateDatabaseFiles.plan (cfg : ProjectConfig) (projectPath : String) :
    List PlannedOp :=
  [callOp "generateDatabaseFiles"] ++
  (if cfg.ORM = ORMGorm then
      RenderToFile.plan "generateDatabaseFiles.dbTemplate"
        (filepathJoin projectPath "pkg/database/database.go") (NewTemplateData cfg)
    else [])

/-- The plan of `generateFeatureFiles`. -/
def generateFeatureFiles.plan (cfg : ProjectConfig) (projectPath : String) : List PlannedOp :=
  [callOp "generateFeatureFiles"] ++
  (([callOp "generateRoutes"] ++
    RenderToFile.plan "generateRoutes.routesTemplate"
      (filepathJoin projectPath "api/routes/routes.go") (NewTemplateData cfg)) ++
  (([callOp "generateHandlers"] ++
    RenderToFile.plan "generateHandlers.handlersTemplate"
      (filepathJoin projectPath "internal/handlers/handlers.go") (NewTemplateData cfg)) ++
  ([callOp "generateLogger"] ++
    RenderToFile.plan "generateLogger.loggerTemplate"
      (filepathJoin projectPath "pkg/logger/logger.go") (NewTemplateData cfg))))

/-- The plan of `generateBeautifulStartup`. -/
def generateBeautifulStartup.plan (cfg : ProjectConfig) (projectPath : String) :
    List PlannedOp :=
  [callOp "generateBeautifulStartup"] ++
  RenderToFile.plan "generateBeautifulStartup.startupMainTemplate"
    (filepathJoin projectPath "pkg/startup/startup.go") (NewTemplateData cfg)

/-- The plan of `generateDockerFiles`. -/
def generateDockerFiles.plan (cfg : ProjectConfig) (projectPath : String) : List PlannedOp :=
  [callOp "generateDockerFiles"] ++
  (WriteFile.plan (filepathJoin projectPath "Dockerfile")
    "generateDockerFiles.dockerfileTemplate" ++
  (RenderToFile.plan "generateDockerFiles.dockerComposeTemplate"
    (filepathJoin projectPath "docker-compose.yml") (NewTemplateData cfg) ++
  WriteFile.plan (filepathJoin projectPath ".dockerignore")
    "generateDockerFiles.dockerignoreContent"))

/-- The plan of `generateCICDFiles`. -/
def generateCICDFiles.plan (cfg : ProjectConfig) (projectPath : String) : List PlannedOp :=
  [callOp "generateCICDFiles"] ++
  ((if cfg.CICD = CICDGitHub then
      WriteFile.plan (filepathJoin (filepathJoin projectPath ".github/workflows") "ci-cd.yml")
        ("generateCICDFiles.githubWorkflowContent:" ++ cfg.ProjectName)
    else if cfg.CICD = CICDGitLab then
      RenderToFile.plan "generateCICDFiles.gitlabCITemplate"
        (filepathJoin projectPath ".gitlab-ci.yml") (NewTemplateData cfg)
    else []) ++
  RenderToFile.plan "generateCICDFiles.makefileTemplate"
    (filepathJoin projectPath "Makefile") (NewTemplateData cfg))

/-- The plan of `generateREADME`. -/
def generateREADME.plan (cfg : ProjectConfig) (projectPath : String) : List PlannedOp :=
  [callOp "generateREADME"] ++
  RenderToFile.plan "generateREADME.readmeTemplate" (filepathJoin projectPath "README.md")
    (NewTemplateData cfg)

/-- The plan of `generateModels`. -/
def generateModels.plan (cfg : ProjectConfig) (projectPath : String) : List PlannedOp :=
  [callOp "generateModels"] ++
  (RenderToFile.plan "generateModels.userModelTemplate"
    (filepathJoin (filepathJoin projectPath (generateModels.modelPath cfg)) "user.go")
    (NewTemplateData cfg) ++
  RenderToFile.plan "generateModels.responseTemplate"
    (filepathJoin (filepathJoin projectPath (generateModels.modelPath cfg)) "response.go")
    (NewTemplateData cfg))

/-- The plan of the `MkdirAll` loop. -/
def generateDirectoryStructure.loopPlan (projectPath : String) (dirs : List String) :
    List PlannedOp :=
  dirs.map fun dir =>
    ⟨.mkdirAll (filepathJoin projectPath dir), ["failed to create directory " ++ dir]⟩

/-- The plan of `generateDirectoryStructure`. -/
def generateDirectoryStructure.plan (cfg : ProjectConfig) (projectPath : String) :
    List PlannedOp :=
  [callOp "generateDirectoryStructure"] ++
  generateDirectoryStructure.loopPlan projectPath (generateDirectoryStructure.dirs cfg)

/-- The plan of `Generate`. -/
def Generate.plan (cfg : ProjectConfig) : List PlannedOp :=
  [callOp "Generate"] ++
  ([⟨.mkdirAll (joinDot cfg.ProjectName), ["failed to create project directory"]⟩] ++
  ((generateDirectoryStructure.plan cfg (joinDot cfg.ProjectName)).map
    (PlannedOp.within "failed to generate directory structure") ++
  ((generateCoreFiles.plan cfg (joinDot cfg.ProjectName)).map
    (PlannedOp.within "failed to generate core files") ++
  ((generateFrameworkFiles.plan cfg (joinDot cfg.ProjectName)).map
    (PlannedOp.within "failed to generate framework files") ++
  ((generateDatabaseFiles.plan cfg (joinDot cfg.ProjectName)).map
    (PlannedOp.within "failed to generate database files") ++
  ((generateMiddlewareFiles.plan cfg (joinDot cfg.ProjectName)).map
    (PlannedOp.within "failed to generate middleware files") ++
  ((generateFeatureFiles.plan cfg (joinDot cfg.ProjectName)).map
    (PlannedOp.within "failed to generate feature files") ++
  ((generateBeautifulStartup.plan cfg (joinDot cfg.ProjectName)).map
    (PlannedOp.within "failed to generate beautiful startup") ++
  ((generateDocsPackage.plan cfg (joinDot cfg.ProjectName)).map
    (PlannedOp.within "failed to generate docs package") ++
  ((generateModels.plan cfg (joinDot cfg.ProjectName)).map
    (PlannedOp.within "failed to generate models") ++
  ((generateConfigFiles.plan cfg (joinDot cfg.ProjectName)).map
    (PlannedOp.within "failed to generate config files") ++
  ((if cfg.Testing then
      (generateTestFiles.plan cfg (joinDot cfg.ProjectName)).map
        (PlannedOp.within "failed to generate test files")
    else []) ++
  ((if cfg.Docker then
      (generateDockerFiles.plan cfg (joinDot cfg.ProjectName)).map
        (PlannedOp.within "failed to generate Docker files")
    else []) ++
  ((if cfg.CICD ≠ CICDNone then
      (generateCICDFiles.plan cfg (joinDot cfg.ProjectName)).map
        (PlannedOp.within "failed to generate CI/CD files")
    else []) ++
  (generateREADME.plan cfg (joinDot cfg.ProjectName)).map
    (PlannedOp.within "failed to generate README")))))))))))))))

/-- The steps of `Generate` in the order of the source, each with the context its
error is wrapped in: the creation of the project directory, then the generators. -/
def Generate.steps (w : World) (cfg : ProjectConfig) : List (String × Gen Unit) :=
  [("failed to create project directory", perform w (.mkdirAll (joinDot cfg.ProjectName))),
   ("failed to generate directory structure",
      generateDirectoryStructure w cfg (joinDot cfg.ProjectName)),
   ("failed to generate core files", generateCoreFiles w cfg (joinDot cfg.ProjectName)),
   ("failed to generate framework files",
      generateFrameworkFiles w cfg (joinDot cfg.ProjectName)),
   ("failed to generate database files",
      generateDatabaseFiles w cfg (joinDot cfg.ProjectName)),
   ("failed to generate middleware files",
      generateMiddlewareFiles w cfg (joinDot cfg.ProjectName)),
   ("failed to generate feature files", generateFeatureFiles w cfg (joinDot cfg.ProjectName)),
   ("failed to generate beautiful startup",
      generateBeautifulStartup w cfg (joinDot cfg.ProjectName)),
   ("failed to generate docs package", generateDocsPackage w cfg (joinDot cfg.ProjectName)),
   ("failed to generate models", generateModels w cfg (joinDot cfg.ProjectName)),
   ("failed to generate config files", generateConfigFiles w cfg (joinDot cfg.ProjectName))] ++
  ((if cfg.Testing then
      [("failed to generate test files", generateTestFiles w cfg (joinDot cfg.ProjectName))]
    else []) ++
  ((if cfg.Docker then
      [("failed to generate Docker files",
        generateDockerFiles w cfg (joinDot cfg.ProjectName))]
    else []) ++
  ((if cfg.CICD ≠ CICDNone then
      [("failed to generate CI/CD files", generateCICDFiles w cfg (joinDot cfg.ProjectName))]
    else []) ++
  [("failed to generate README", generateREADME w cfg (joinDot cfg.ProjectName))])))

/-- Run steps in order; the first error is wrapped in its step's context and
returned at once. -/
def runSteps : List (String × Gen Unit) → Gen Unit
  | [] => pure ()
  | s :: rest => do
    wrapErr s.1 s.2
    runSteps rest

/-- The destination paths, relative to the project directory, of the files that
the generators called by `Generate` open for writing, in the order of the calls. -/
def Generate.relFiles (cfg : ProjectConfig) : List String :=
  ["go.mod", "main.go", ".env", ".env.example", ".gitignore", "internal/app/app.go"] ++
  ((if cfg.ORM = ORMGorm then ["pkg/database/database.go"] else []) ++
  ((if cfg.Auth = AuthJWT then ["internal/middleware/auth.go"] else []) ++
  ((if cfg.Middleware.CORS then ["internal/middleware/cors.go"] else []) ++
  ((if cfg.Middleware.Logging then ["internal/middleware/logging.go"] else []) ++
  (["api/routes/routes.go", "internal/handlers/handlers.go", "pkg/logger/logger.go",
    "pkg/startup/startup.go"] ++
  ((if cfg.Features.Swagger then ["docs/docs.go"] else []) ++
  ([generateModels.modelPath cfg ++ "/" ++ "user.go",
    generateModels.modelPath cfg ++ "/" ++ "response.go", "pkg/config/config.go"] ++
  ((if cfg.Testing then ["main_test.go", "test/testutils/utils.go"] else []) ++
  ((if cfg.Testing ∧ cfg.ORM ≠ ORMNone then ["test/handlers/user_test.go"] else []) ++
  ((if cfg.Docker then ["Dockerfile", "docker-compose.yml", ".dockerignore"] else []) ++
  ((if cfg.CICD = CICDGitHub then [".github/workflows" ++ "/" ++ "ci-cd.yml"] else []) ++
  ((if cfg.CICD = CICDGitLab then [".gitlab-ci.yml"] else []) ++
  ((if cfg.CICD ≠ CICDNone then ["Makefile"] else []) ++
  ["README.md"])))))))))))))

/-- Every path `Generate.relFiles` can contain, for a given model directory. -/
def Generate.allRelFiles (modelPath : String) : List String :=
  ["go.mod", "main.go", ".env", ".env.example", ".gitignore", "internal/app/app.go"] ++
  (["pkg/database/database.go"] ++
  (["internal/middleware/auth.go"] ++
  (["internal/middleware/cors.go"] ++
  (["internal/middleware/logging.go"] ++
  (["api/routes/routes.go", "internal/handlers/handlers.go", "pkg/logger/logger.go",
    "pkg/startup/startup.go"] ++
  (["docs/docs.go"] ++
  ([modelPath ++ "/" ++ "user.go", modelPath ++ "/" ++ "response.go",
    "pkg/config/config.go"] ++
  (["main_test.go", "test/testutils/utils.go"] ++
  (["test/handlers/user_test.go"] ++
  (["Dockerfile", "docker-compose.yml", ".dockerignore"] ++
  ([".github/workflows" ++ "/" ++ "ci-cd.yml"] ++
  ([".gitlab-ci.yml"] ++
  (["Makefile"] ++
  ["README.md"])))))))))))))

/-- The configuration of the end-to-end scenario: project `svc1` with Gin, GORM,
PostgreSQL, the simple architecture, testing and Docker, and the other fields as
the quick setup sets them. -/
def exampleConfig : ProjectConfig :=
  { ProjectName := "svc1", ModulePath := "github.com/username/svc1", Framework := "gin",
    ORM := "gorm", Database := "postgresql", Architecture := "simple", Config := "yaml",
    Auth := "jwt", Logging := "zap", Testing := true, Docker := true, CICD := "github",
    Middleware := ⟨true, false, true, false, true⟩,
    Features := ⟨false, false, false, true, true, false, false, false, false⟩ }

/-- A world in which parsing the template `tmpl` fails with message `msg` and
every other operation succeeds. -/
def World.failingParse (tmpl msg : String) : World :=
  ⟨fun _ ev => match ev with
    | .parse t => if t = tmpl then some msg else none
    | _ => none⟩

/-! ## The file at a path

What a trace says about one file, following the documentation of the `os` and
`text/template` packages: `os.Create` creates the file or truncates it;
`Template.Execute` writes the output into the open file and, when it fails, may
already have written part of it; `os.RemoveAll` removes a path and everything
below it. -/

/-- What is known of the contents of a file: what it held before the run; nothing
(created or truncated); an initial part, possibly empty, of the output of a
template; the whole output of a template; a text written by `os.WriteFile`. -/
inductive Contents where
  | initial
  | empty
  | partialOutput (tmpl : String) (data : TemplateData)
  | output (tmpl : String) (data : TemplateData)
  | text (content : String)
  deriving DecidableEq, Repr

/-- What is known of the file at a path: it does not exist, it exists with some
contents, or the trace does not determine it (a failed `os.WriteFile` or
`os.RemoveAll` may have stopped anywhere). -/
inductive FileStatus where
  | absent
  | holds (c : Contents)
  | unknown
  deriving DecidableEq, Repr

/-- Whether `path` is `dir` itself or lies below it. -/
def isUnder (dir path : String) : Bool :=
  path == dir || (dir ++ "/").isPrefixOf path

/-- The effect of one attempted operation, successful or not, on the file at
`path`. -/
def Event.apply (path : String) (ok : Bool) (ev : Event) (st : FileStatus) : FileStatus :=
  match ev with
  | .create p => if p = path ∧ ok = true then .holds .empty else st
  | .execute t p d =>
    if p = path then (if ok = true then .holds (.output t d) else .holds (.partialOutput t d))
    else st
  | .writeFile p c =>
    if p = path then (if ok = true then .holds (.text c) else .unknown) else st
  | .removeAll p =>
    if isUnder p path = true then (if ok = true then .absent else .unknown) else st
  | _ => st

/-- The status of the file at `path` after the events `evs` attempted from
history `hist`, when it was `st` before; each event succeeds or fails as the world
decides. -/
def fileAfter (w : World) (path : String) : List Event → List Event → FileStatus → FileStatus
  | _, [], st => st
  | hist, ev :: rest, st =>
    fileAfter w path (hist ++ [ev]) rest (ev.apply path (w.result hist ev).isNone st)

/-- A world in which executing the template `tmpl` fails with message `msg` and
every other operation succeeds. -/
def World.failingExecute (tmpl msg : String) : World :=
  ⟨fun _ ev => match ev with
    | .execute t _ _ => if t = tmpl then some msg else none
    | _ => none⟩

/-! ## internal/templates/engine.go: the template function `capitalize` -/

/-- Go `strings.ToUpper` on an ASCII string: each of the letters `a` to `z` is
replaced by its capital and every other character is kept. (On a string with a
character outside ASCII Go maps through the Unicode tables, which this does not
follow.) -/
def stringsToUpper (s : String) : String := String.mk (s.data.map Char.toUpper)

/-- Go `strings.ToLower` on an ASCII string: each of the letters `A` to `Z` is
replaced by its small letter and every other character is kept. -/
def stringsToLower (s : String) : String := String.mk (s.data.map Char.toLower)

/-- The `capitalize` entry of the map returned by `getFuncMap`. The slices `s[:1]`
and `s[1:]` cut after the first byte, which is after the first character when
that character is ASCII. -/
def capitalize (s : String) : String :=
  if s.length = 0 then s
  else stringsToUpper (String.mk (s.data.take 1)) ++ stringsToLower (String.mk (s.data.drop 1))

/-- Whether every character of `s` is ASCII (below `utf8.RuneSelf`). -/
def isASCII (s : String) : Bool := s.data.all fun c => decide (c.toNat < 128)

/-! ## internal/prompts/survey.go: the select prompts and the option extractors -/

/-- Go `strings.Contains(s, substr)`: whether `substr` occurs in `s` as a contiguous
run. Go compares bytes; both strings here are valid UTF-8, on which an occurrence
as bytes is an occurrence as characters, so the characters are compared. -/
def stringsContains (s substr : String) : Bool :=
  s.data.tails.any fun t => substr.data.isPrefixOf t

/-- The `Options` of `frameworkPrompt` in `CollectProjectConfig`: one
`fmt.Sprintf` per web framework constant, in the order of the source. -/
def CollectProjectConfig.frameworkPrompt.Options : List String :=
  ["🔥 " ++ FrameworkGin ++ " - Fast and minimalist",
   "⚡ " ++ FrameworkEcho ++ " - High performance and extensible",
   "🚀 " ++ FrameworkFiber ++ " - Express inspired framework",
   "🎯 " ++ FrameworkRevel ++ " - Full-stack web framework"]

/-- The `Options` of `ormPrompt` in `CollectProjectConfig`: one
`fmt.Sprintf` per database access layer constant, in the order of the source. -/
def CollectProjectConfig.ormPrompt.Options : List String :=
  ["🏗️  " ++ ORMGorm ++ " - Feature-rich ORM",
   "⚙️  " ++ ORMSqlx ++ " - Extensions on database/sql",
   "🔧 " ++ ORMRaw ++ " - Direct SQL queries",
   "🚫 " ++ ORMNone ++ " - No database"]

/-- The `Options` of `dbPrompt` in `CollectProjectConfig`: one
`fmt.Sprintf` per database constant, in the order of the source. -/
def CollectProjectConfig.dbPrompt.Options : List String :=
  ["🐘 " ++ DBPostgreSQL ++ " - Advanced open source database",
   "🐬 " ++ DBMySQL ++ " - Popular relational database",
   "📁 " ++ DBSQLite ++ " - Lightweight file-based database",
   "🍃 " ++ DBMongoDB ++ " - NoSQL document database",
   "⚡ " ++ DBRedis ++ " - In-memory data store",
   "💾 " ++ DBMemory ++ " - In-memory storage"]

/-- The `Options` of `archPrompt` in `CollectProjectConfig`: one
`fmt.Sprintf` per architecture constant, in the order of the source. -/
def CollectProjectConfig.archPrompt.Options : List String :=
  ["🎯 " ++ ArchSimple ++ " - Straightforward and easy to understand",
   "🧹 " ++ ArchClean ++ " - Clean Architecture with clear separation",
   "⬡ " ++ ArchHexagonal ++ " - Ports and Adapters pattern",
   "🎨 " ++ ArchMVC ++ " - Model-View-Controller pattern",
   "🔧 " ++ ArchCustom ++ " - Define your own structure"]

/-- The `Options` of `configPrompt` in `CollectProjectConfig`: one
`fmt.Sprintf` per configuration format constant, in the order of the source. -/
def CollectProjectConfig.configPrompt.Options : List String :=
  ["📄 " ++ ConfigYAML ++ " - Human-readable data serialization",
   "📋 " ++ ConfigJSON ++ " - JavaScript Object Notation",
   "📜 " ++ ConfigTOML ++ " - Tom's Obvious, Minimal Language"]

/-- The `Options` of `authPrompt` in `CollectProjectConfig`: one
`fmt.Sprintf` per authentication method constant, in the order of the source. -/
def CollectProjectConfig.authPrompt.Options : List String :=
  ["🎫 " ++ AuthJWT ++ " - JSON Web Tokens",
   "🌐 " ++ AuthOAuth2 ++ " - OAuth2 protocol",
   "🔑 " ++ AuthBasic ++ " - Username and password",
   "🚫 " ++ AuthNone ++ " - No authentication"]

/-- The `Options` of `loggingPrompt` in `CollectProjectConfig`: one
`fmt.Sprintf` per logging library constant, in the order of the source. -/
def CollectProjectConfig.loggingPrompt.Options : List String :=
  ["✨ " ++ LogCharm ++ " - Beautiful, colorful logging with Lip Gloss",
   "⚡ " ++ LogZap ++ " - Blazing fast, structured logging",
   "📋 " ++ LogLogrus ++ " - Structured logging with levels",
   "📄 " ++ LogStandard ++ " - Standard Go logging"]

/-- The `Options` of `cicdPrompt` in `CollectProjectConfig`: one
`fmt.Sprintf` per CI/CD platform constant, in the order of the source. -/
def CollectProjectConfig.cicdPrompt.Options : List String :=
  ["🐙 " ++ CICDGitHub ++ " - GitHub Actions workflow",
   "🦊 " ++ CICDGitLab ++ " - GitLab CI pipeline",
   "🚫 " ++ CICDNone ++ " - No CI/CD setup"]

/-- extractFrameworkName: the `switch` tests `strings.Contains` case by case, in
this order, and the `default` case returns `FrameworkGin`. -/
def extractFrameworkName (option : String) : String :=
  if stringsContains option FrameworkGin then FrameworkGin
  else if stringsContains option FrameworkEcho then FrameworkEcho
  else if stringsContains option FrameworkFiber then FrameworkFiber
  else if stringsContains option FrameworkRevel then FrameworkRevel
  else FrameworkGin

/-- extractORMName: the `switch` tests `strings.Contains` case by case, in
this order, and the `default` case returns `ORMGorm`. -/
def extractORMName (option : String) : String :=
  if stringsContains option ORMGorm then ORMGorm
  else if stringsContains option ORMSqlx then ORMSqlx
  else if stringsContains option ORMRaw then ORMRaw
  else if stringsContains option ORMNone then ORMNone
  else ORMGorm

/-- extractDBName: the `switch` tests `strings.Contains` case by case, in
this order, and the `default` case returns `DBPostgreSQL`. -/
def extractDBName (option : String) : String :=
  if stringsContains option DBPostgreSQL then DBPostgreSQL
  else if stringsContains option DBMySQL then DBMySQL
  else if stringsContains option DBSQLite then DBSQLite
  else if stringsContains option DBMongoDB then DBMongoDB
  else if stringsContains option DBRedis then DBRedis
  else if stringsContains option DBMemory then DBMemory
  else DBPostgreSQL

/-- extractArchName: the `switch` tests `strings.Contains` case by case, in
this order, and the `default` case returns `ArchSimple`. -/
def extractArchName (option : String) : String :=
  if stringsContains option ArchSimple then ArchSimple
  else if stringsContains option ArchClean then ArchClean
  else if stringsContains option ArchHexagonal then ArchHexagonal
  else if stringsContains option ArchMVC then ArchMVC
  else if stringsContains option ArchCustom then ArchCustom
  else ArchSimple

/-- extractConfigName: the `switch` tests `strings.Contains` case by case, in
this order, and the `default` case returns `ConfigYAML`. -/
def extractConfigName (option : String) : String :=
  if stringsContains option ConfigYAML then ConfigYAML
  else if stringsContains option ConfigJSON then ConfigJSON
  else if stringsContains option ConfigTOML then ConfigTOML
  else ConfigYAML

/-- extractAuthName: the `switch` tests `strings.Contains` case by case, in
this order, and the `default` case returns `AuthJWT`. -/
def extractAuthName (option : String) : String :=
  if stringsContains option AuthJWT then AuthJWT
  else if stringsContains option AuthOAuth2 then AuthOAuth2
  else if stringsContains option AuthBasic then AuthBasic
  else if stringsContains option AuthNone then AuthNone
  else AuthJWT

/-- extractLoggingName: the `switch` tests `strings.Contains` case by case, in
this order, and the `default` case returns `LogCharm`. -/
def extractLoggingName (option : String) : String :=
  if stringsContains option LogCharm then LogCharm
  else if stringsContains option LogZap then LogZap
  else if stringsContains option LogLogrus then LogLogrus
  else if stringsContains option LogStandard then LogStandard
  else LogCharm

/-- extractCICDName: the `switch` tests `strings.Contains` case by case, in
this order, and the `default` case returns `CICDGitHub`. -/
def extractCICDName (option : String) : String :=
  if stringsContains option CICDGitHub then CICDGitHub
  else if stringsContains option CICDGitLab then CICDGitLab
  else if stringsContains option CICDNone then CICDNone
  else CICDGitHub

/-! ## Theorems -/

/-- The planner's list depends on the configuration through five fields only, and
is the base layout of the architecture followed by the feature directories. -/
theorem dirs_eq_base_append (cfg : ProjectConfig) (h : cfg.Architecture ∈ validArchs) :
    generateDirectoryStructure.dirs cfg =
      baseLayout cfg.Architecture ++
        featureDirs cfg.Features.Swagger cfg.Testing cfg.Features.StaticFiles
          cfg.Features.I18n := by
  rcases cfg with ⟨pn, mp, fw, orm, db, arch, conf, auth, log, testing, docker, cicd, mw,
    ⟨ws, ca, mq, hc, sw, sf, i18n, me, cc⟩⟩
  simp only [validArchs, List.mem_cons, List.mem_singleton, List.not_mem_nil, or_false] at h
  rcases h with rfl | rfl | rfl | rfl | rfl <;>
    cases testing <;> cases sw <;> cases sf <;> cases i18n <;> rfl

/-- Every base layout extended by any selection of feature directories is free of
repetitions. -/
theorem base_append_nodup (arch : String) (h : arch ∈ validArchs) (sw te sf i : Bool) :
    (baseLayout arch ++ featureDirs sw te sf i).Nodup := by
  simp only [validArchs, List.mem_cons, List.mem_singleton, List.not_mem_nil, or_false] at h
  rcases h with rfl | rfl | rfl | rfl | rfl <;>
    cases sw <;> cases te <;> cases sf <;> cases i <;> decide

/-- C1: for each of the five architecture values and every combination of the
Swagger, Testing, StaticFiles and I18n flags, the directory list built by
generateDirectoryStructure has no repeated path. -/
theorem dirs_nodup (cfg : ProjectConfig) (h : cfg.Architecture ∈ validArchs) :
    (generateDirectoryStructure.dirs cfg).Nodup := by
  rw [dirs_eq_base_append cfg h]
  exact base_append_nodup _ h _ _ _ _


theorem dirs_nodup_witness :
    exampleConfig.Architecture ∈ validArchs ∧
      (generateDirectoryStructure.dirs exampleConfig).Nodup :=
  ⟨by decide, dirs_nodup exampleConfig (by decide)⟩

/-- C2: for each of the five architecture values, the planned list contains `docs`
exactly when Swagger is enabled, `test` exactly when Testing is enabled, each of
`static/css`, `static/js`, `static/images` exactly when StaticFiles is enabled and
`locales` exactly when I18n is enabled; the list is the base layout of the
architecture followed by these feature directories, and no feature directory
occurs in a base layout. -/
theorem dirs_feature_directories (cfg : ProjectConfig) (h : cfg.Architecture ∈ validArchs) :
    ("docs" ∈ generateDirectoryStructure.dirs cfg ↔ cfg.Features.Swagger = true) ∧
    ("test" ∈ generateDirectoryStructure.dirs cfg ↔ cfg.Testing = true) ∧
    ("static/css" ∈ generateDirectoryStructure.dirs cfg ↔ cfg.Features.StaticFiles = true) ∧
    ("static/js" ∈ generateDirectoryStructure.dirs cfg ↔ cfg.Features.StaticFiles = true) ∧
    ("static/images" ∈ generateDirectoryStructure.dirs cfg ↔
      cfg.Features.StaticFiles = true) ∧
    ("locales" ∈ generateDirectoryStructure.dirs cfg ↔ cfg.Features.I18n = true) ∧
    generateDirectoryStructure.dirs cfg =
      baseLayout cfg.Architecture ++
        featureDirs cfg.Features.Swagger cfg.Testing cfg.Features.StaticFiles
          cfg.Features.I18n ∧
    ∀ d ∈ ["docs", "test", "static/css", "static/js", "static/images", "locales"],
      d ∉ baseLayout cfg.Architecture := by
  rw [dirs_eq_base_append cfg h]
  generalize cfg.Features.Swagger = sw
  generalize cfg.Testing = te
  generalize cfg.Features.StaticFiles = sf
  generalize cfg.Features.I18n = i
  generalize cfg.Architecture = arch at h
  simp only [validArchs, List.mem_cons, List.mem_singleton, List.not_mem_nil, or_false] at h
  rcases h with rfl | rfl | rfl | rfl | rfl <;>
    cases sw <;> cases te <;> cases sf <;> cases i <;> decide

theorem dirs_feature_directories_witness :
    exampleConfig.Architecture ∈ validArchs ∧
      ("docs" ∈ generateDirectoryStructure.dirs exampleConfig ↔
        exampleConfig.Features.Swagger = true) :=
  ⟨by decide, (dirs_feature_directories exampleConfig (by decide)).1⟩

/-! ### Validation of the configuration -/

theorem isValidProjectName_false_of_bad_char (name : String)
    (h : ∃ c ∈ name.data, isValidProjectName.okChar c = false) :
    isValidProjectName name = false := by
  unfold isValidProjectName
  split
  · rfl
  · obtain ⟨c, hc, hbad⟩ := h
    rw [Bool.eq_false_iff]
    intro hall
    rw [List.all_eq_true] at hall
    have := hall c hc
    rw [hbad] at this
    exact Bool.false_ne_true this

theorem Checked.andThen_fst (r : Checked) (f : ProjectConfig → Checked) :
    (r.andThen f).1 = none ↔ r.1 = none ∧ (f r.2).1 = none := by
  rcases r with ⟨_ | e, c⟩ <;> simp [Checked.andThen]

theorem Checked.andThen_snd (r : Checked) (f : ProjectConfig → Checked) :
    (r.andThen f).2 = if r.1 = none then (f r.2).2 else r.2 := by
  rcases r with ⟨_ | e, c⟩ <;> simp [Checked.andThen]

theorem validateAndSetDefaults.name_fst (cfg : ProjectConfig) :
    (validateAndSetDefaults.name cfg).1 = none ↔
      (cfg.ProjectName = "" ∨ isValidProjectName cfg.ProjectName = true) := by
  have hv : isValidProjectName "my-go-app" = true := by decide
  unfold validateAndSetDefaults.name
  by_cases h : cfg.ProjectName = ""
  · simp [h, hv]
  · cases hb : isValidProjectName cfg.ProjectName <;> simp [h, hb]

theorem validateAndSetDefaults.name_snd (cfg : ProjectConfig) :
    (validateAndSetDefaults.name cfg).2 =
      if cfg.ProjectName = "" then { cfg with ProjectName := "my-go-app" } else cfg := by
  simp only [validateAndSetDefaults.name]
  split_ifs <;> rfl

theorem validateAndSetDefaults.framework_fst (cfg : ProjectConfig) :
    (validateAndSetDefaults.framework cfg).1 = none ↔
      (cfg.Framework = "" ∨ isValidFramework cfg.Framework = true) := by
  unfold validateAndSetDefaults.framework
  by_cases h : cfg.Framework = ""
  · simp [h]
  · cases hb : isValidFramework cfg.Framework <;> simp [h, hb]

theorem validateAndSetDefaults.framework_snd (cfg : ProjectConfig) :
    (validateAndSetDefaults.framework cfg).2 =
      if cfg.Framework = "" then { cfg with Framework := FrameworkGin } else cfg := by
  unfold validateAndSetDefaults.framework
  split_ifs <;> rfl

theorem validateAndSetDefaults.orm_fst (cfg : ProjectConfig) :
    (validateAndSetDefaults.orm cfg).1 = none ↔
      (cfg.ORM = "" ∨ isValidORM cfg.ORM = true) := by
  unfold validateAndSetDefaults.orm
  by_cases h : cfg.ORM = ""
  · simp [h]
  · cases hb : isValidORM cfg.ORM <;> simp [h, hb]

theorem validateAndSetDefaults.orm_snd (cfg : ProjectConfig) :
    (validateAndSetDefaults.orm cfg).2 =
      if cfg.ORM = "" then { cfg with ORM := ORMGorm } else cfg := by
  unfold validateAndSetDefaults.orm
  split_ifs <;> rfl

theorem validateAndSetDefaults.database_fst (cfg : ProjectConfig) :
    (validateAndSetDefaults.database cfg).1 = none ↔
      (cfg.Database = "" ∨ isValidDatabase cfg.Database = true) := by
  unfold validateAndSetDefaults.database
  by_cases h : cfg.Database = ""
  · by_cases h2 : cfg.ORM = ORMNone <;> simp [h, h2]
  · cases hb : isValidDatabase cfg.Database <;> simp [h, hb]

theorem validateAndSetDefaults.database_snd (cfg : ProjectConfig) :
    (validateAndSetDefaults.database cfg).2 =
      if cfg.Database = "" ∧ cfg.ORM ≠ ORMNone then { cfg with Database := DBPostgreSQL }
      else cfg := by
  unfold validateAndSetDefaults.database
  split_ifs <;> rfl

theorem validateAndSetDefaults.architecture_fst (cfg : ProjectConfig) :
    (validateAndSetDefaults.architecture cfg).1 = none ↔
      (cfg.Architecture = "" ∨ isValidArchitecture cfg.Architecture = true) := by
  unfold validateAndSetDefaults.architecture
  by_cases h : cfg.Architecture = ""
  · simp [h]
  · cases hb : isValidArchitecture cfg.Architecture <;> simp [h, hb]

theorem validateAndSetDefaults.architecture_snd (cfg : ProjectConfig) :
    (validateAndSetDefaults.architecture cfg).2 =
      if cfg.Architecture = "" then { cfg with Architecture := ArchSimple } else cfg := by
  unfold validateAndSetDefaults.architecture
  split_ifs <;> rfl

/-- validateAndSetDefaults succeeds exactly when the name is unset or valid and
each enumerated field it checks is unset or inside its enumeration. -/
theorem validateAndSetDefaults_fst (cfg : ProjectConfig) :
    (validateAndSetDefaults cfg).1 = none ↔
      (cfg.ProjectName = "" ∨ isValidProjectName cfg.ProjectName = true) ∧
        enumsAcceptable cfg := by
  unfold validateAndSetDefaults enumsAcceptable
  simp only [Checked.andThen_fst, Checked.andThen_snd, validateAndSetDefaults.name_fst,
    validateAndSetDefaults.framework_fst, validateAndSetDefaults.orm_fst,
    validateAndSetDefaults.database_fst, validateAndSetDefaults.architecture_fst,
    validateAndSetDefaults.name_snd, validateAndSetDefaults.framework_snd,
    validateAndSetDefaults.orm_snd, validateAndSetDefaults.database_snd]
  simp only [apply_ite ProjectConfig.Framework, apply_ite ProjectConfig.ORM,
    apply_ite ProjectConfig.Database, apply_ite ProjectConfig.Architecture, ite_self,
    if_true, and_true, and_assoc]

/-- The project name that validateAndSetDefaults leaves, whether it fails or not. -/
theorem validateAndSetDefaults_snd_name (cfg : ProjectConfig) :
    (validateAndSetDefaults cfg).2.ProjectName =
      if cfg.ProjectName = "" then "my-go-app" else cfg.ProjectName := by
  unfold validateAndSetDefaults
  simp only [Checked.andThen_snd, validateAndSetDefaults.name_snd,
    validateAndSetDefaults.framework_snd, validateAndSetDefaults.orm_snd,
    validateAndSetDefaults.database_snd, validateAndSetDefaults.architecture_snd,
    validateAndSetDefaults.rest, apply_ite ProjectConfig.ProjectName, ite_self]

/-- C8: a configuration whose project name is non-empty and has a character
outside ASCII letters, digits, hyphen and underscore is rejected by
validateAndSetDefaults with the invalid-project-name error, and the configuration
is left exactly as it was. -/
theorem validateAndSetDefaults_rejects_bad_name (cfg : ProjectConfig)
    (hne : cfg.ProjectName ≠ "")
    (hbad : ∃ c ∈ cfg.ProjectName.data, isValidProjectName.okChar c = false) :
    validateAndSetDefaults cfg =
      (some ("invalid project name '" ++ cfg.ProjectName ++
        "'. Use only letters, numbers, hyphens, and underscores"), cfg) := by
  have hv := isValidProjectName_false_of_bad_char cfg.ProjectName hbad
  simp only [validateAndSetDefaults, validateAndSetDefaults.name, hne, if_false, hv,
    Bool.not_false, if_true, Checked.andThen]

theorem validateAndSetDefaults_rejects_bad_name_witness :
    ({ ProjectConfig.zero with ProjectName := "my app" } : ProjectConfig).ProjectName ≠ "" ∧
      (validateAndSetDefaults { ProjectConfig.zero with ProjectName := "my app" }).1 =
        some "invalid project name 'my app'. Use only letters, numbers, hyphens, and underscores" ∧
      (validateAndSetDefaults { ProjectConfig.zero with ProjectName := "my app" }).2 =
        { ProjectConfig.zero with ProjectName := "my app" } :=
  ⟨by decide,
    congrArg Prod.fst (validateAndSetDefaults_rejects_bad_name
      { ProjectConfig.zero with ProjectName := "my app" } (by decide) ⟨' ', by decide⟩),
    congrArg Prod.snd (validateAndSetDefaults_rejects_bad_name
      { ProjectConfig.zero with ProjectName := "my app" } (by decide) ⟨' ', by decide⟩)⟩

/-- C9, counterexample: the configuration with every field unset has an empty
project name, and validateAndSetDefaults accepts it. -/
theorem validateAndSetDefaults_accepts_empty_name :
    ProjectConfig.zero.ProjectName = "" ∧
      (validateAndSetDefaults ProjectConfig.zero).1 = none ∧
      (validateAndSetDefaults ProjectConfig.zero).2.ProjectName = "my-go-app" := by
  decide

/-- C9, amended: for a configuration whose project name is empty,
validateAndSetDefaults replaces the name by the default `my-go-app` instead of
rejecting it, and fails exactly when a supplied framework, ORM, database or
architecture value is outside its enumeration. -/
theorem validateAndSetDefaults_defaults_empty_name (cfg : ProjectConfig)
    (h : cfg.ProjectName = "") :
    (validateAndSetDefaults cfg).2.ProjectName = "my-go-app" ∧
      ((validateAndSetDefaults cfg).1 = none ↔ enumsAcceptable cfg) := by
  refine ⟨by rw [validateAndSetDefaults_snd_name, if_pos h], ?_⟩
  rw [validateAndSetDefaults_fst]
  exact ⟨fun hx => hx.2, fun hx => ⟨Or.inl h, hx⟩⟩

theorem validateAndSetDefaults_defaults_empty_name_witness :
    (validateAndSetDefaults { ProjectConfig.zero with Framework := "echo" }).2.ProjectName =
        "my-go-app" ∧
      ((validateAndSetDefaults { ProjectConfig.zero with Framework := "echo" }).1 = none ↔
        enumsAcceptable { ProjectConfig.zero with Framework := "echo" }) :=
  validateAndSetDefaults_defaults_empty_name
    { ProjectConfig.zero with Framework := "echo" } rfl

/-- C10, failing input: validateProjectConfig accepts the configuration named
`my app`, whose name isValidProjectName rejects; on the interactive path
`gool init "my app"` reaches generation with that name. -/
theorem validateProjectConfig_accepts_invalid_name :
    isValidProjectName "my app" = false ∧
      validateProjectConfig
          { ProjectConfig.zero with
            ProjectName := "my app", ModulePath := "github.com/username/my-go-app" } =
        (none, { ProjectConfig.zero with
          ProjectName := "my app", ModulePath := "github.com/username/my-go-app" }, []) ∧
      runInit.prepare ⟨true, "", "", "", ""⟩ ["my app"]
          (.ok { ProjectConfig.zero with
            ProjectName := "my-go-app", ModulePath := "github.com/username/my-go-app" }) =
        .ok { ProjectConfig.zero with
          ProjectName := "my app", ModulePath := "github.com/username/my-go-app" } ∧
      runInit.prepare ⟨false, "", "", "", ""⟩ ["my app"] (.error "not called") =
        .error
          "invalid project name 'my app'. Use only letters, numbers, hyphens, and underscores" := by
  refine ⟨by decide, by decide, ?_, ?_⟩ <;> rfl

/-! ### The monad and straight-line plans -/

theorem Gen.ext {α : Type} {m n : Gen α} (h : ∀ tr, m.run tr = n.run tr) : m = n :=
  funext h

@[simp] theorem Gen.run_mk {α : Type} (f : List Event → Except GoError α × List Event)
    (tr : List Event) : (Gen.mk f).run tr = f tr := rfl

@[simp] theorem Gen.run_pure {α : Type} (a : α) (tr : List Event) :
    (pure a : Gen α).run tr = (.ok a, tr) := rfl

theorem Gen.run_bind {α β : Type} (m : Gen α) (f : α → Gen β) (tr : List Event) :
    (m >>= f).run tr =
      match m.run tr with
      | (.ok a, tr1) => (f a).run tr1
      | (.error e, tr1) => (.error e, tr1) := rfl

@[simp] theorem runOps_nil (w : World) : runOps w [] = pure () := rfl

theorem runOps_cons_run (w : World) (p : PlannedOp) (ps : List PlannedOp) (tr : List Event) :
    (runOps w (p :: ps)).run tr =
      match w.result tr p.ev with
      | none => (runOps w ps).run (tr ++ [p.ev])
      | some msg => (.error (wrapAll p.ctx (.base msg)), tr ++ [p.ev]) := rfl

theorem perform_eq_runOps (w : World) (ev : Event) : perform w ev = runOps w [⟨ev, []⟩] := by
  apply Gen.ext
  intro tr
  simp only [perform, Gen.run_mk, runOps_cons_run, runOps_nil, Gen.run_pure, wrapAll,
    List.foldl_nil]

theorem wrapAll_append (ctx : List String) (c : String) (e : GoError) :
    wrapAll (ctx ++ [c]) e = GoError.wrap c (wrapAll ctx e) := by
  simp [wrapAll, List.foldl_append]

theorem wrapErr_runOps (w : World) (c : String) (ops : List PlannedOp) :
    wrapErr c (runOps w ops) = runOps w (ops.map (PlannedOp.within c)) := by
  apply Gen.ext
  intro tr
  induction ops generalizing tr with
  | nil => rfl
  | cons p ps ih =>
    simp only [wrapErr, Gen.run_mk, List.map_cons, runOps_cons_run, PlannedOp.within]
    cases h : w.result tr p.ev with
    | none =>
      simp only []
      have := ih (tr ++ [p.ev])
      simp only [wrapErr, Gen.run_mk] at this
      exact this
    | some msg => simp only [wrapAll_append]

theorem runOps_append (w : World) (a b : List PlannedOp) :
    runOps w (a ++ b) = (runOps w a >>= fun _ => runOps w b) := by
  apply Gen.ext
  intro tr
  induction a generalizing tr with
  | nil => rfl
  | cons p ps ih =>
    simp only [List.cons_append, runOps_cons_run, Gen.run_bind]
    cases h : w.result tr p.ev with
    | none =>
      simp only []
      rw [ih, Gen.run_bind]
    | some msg => rfl

theorem bind_runOps (w : World) (a b : List PlannedOp) :
    (runOps w a >>= fun _ => runOps w b) = runOps w (a ++ b) :=
  (runOps_append w a b).symm

theorem ite_runOps (w : World) (c : Prop) [Decidable c] (a : List PlannedOp) :
    (if c then runOps w a else pure PUnit.unit) = runOps w (if c then a else []) := by
  split <;> rfl

theorem RenderToFile_eq (w : World) (t p : String) (d : TemplateData) :
    RenderToFile w t p d = runOps w (RenderToFile.plan t p d) := by
  simp only [RenderToFile, perform_eq_runOps, wrapErr_runOps, bind_runOps, bind_pure_comp]
  rfl

theorem WriteFile_eq (w : World) (p c : String) :
    WriteFile w p c = runOps w (WriteFile.plan p c) := by
  simp only [WriteFile, perform_eq_runOps, wrapErr_runOps, bind_runOps]
  rfl


theorem Gen.pure_bind {α β : Type} (a : α) (f : α → Gen β) : (pure a >>= f) = f a := rfl

theorem ite_runOps_else (w : World) (c : Prop) [Decidable c] (a b : List PlannedOp) :
    (if c then runOps w a else runOps w b) = runOps w (if c then a else b) := by
  split <;> rfl

theorem ite_pure_runOps (w : World) (c : Prop) [Decidable c] (b : List PlannedOp) :
    (if c then pure PUnit.unit else runOps w b) = runOps w (if c then [] else b) := by
  split <;> rfl

theorem generateCoreFiles_eq (w : World) (cfg : ProjectConfig) (pp : String) :
    generateCoreFiles w cfg pp = runOps w (generateCoreFiles.plan cfg pp) := by
  simp only [generateCoreFiles, generateCoreFiles.plan, callOp, RenderToFile_eq, WriteFile_eq,
    perform_eq_runOps, bind_runOps]


theorem generateFrameworkFiles_eq (w : World) (cfg : ProjectConfig) (pp : String) :
    generateFrameworkFiles w cfg pp = runOps w (generateFrameworkFiles.plan cfg pp) := by
  simp only [generateFrameworkFiles, generateGinFiles, generateEchoFiles, generateFiberFiles,
    RenderToFile_eq, perform_eq_runOps, bind_runOps, ite_runOps_else]
  simp only [generateFrameworkFiles.plan, generateFrameworkFiles.branch, callOp]
  split_ifs <;> rfl

theorem generateMiddlewareFiles_eq (w : World) (cfg : ProjectConfig) (pp : String) :
    generateMiddlewareFiles w cfg pp = runOps w (generateMiddlewareFiles.plan cfg pp) := by
  simp only [generateMiddlewareFiles, generateMiddlewareFiles.plan, callOp, RenderToFile_eq,
    perform_eq_runOps, ite_runOps, ite_runOps_else, Gen.pure_bind, bind_runOps]
  split_ifs <;> simp

theorem generateTestFiles_eq (w : World) (cfg : ProjectConfig) (pp : String) :
    generateTestFiles w cfg pp = runOps w (generateTestFiles.plan cfg pp) := by
  simp only [generateTestFiles, generateTestFiles.plan, callOp, RenderToFile_eq,
    perform_eq_runOps, ite_runOps, ite_runOps_else, Gen.pure_bind, bind_runOps]

theorem generateDocsPackage_eq (w : World) (cfg : ProjectConfig) (pp : String) :
    generateDocsPackage w cfg pp = runOps w (generateDocsPackage.plan cfg pp) := by
  simp only [generateDocsPackage, generateDocsPackage.plan, callOp, RenderToFile_eq,
    perform_eq_runOps, ite_pure_runOps, bind_runOps]
  cases cfg.Features.Swagger <;> rfl

theorem generateConfigFiles_eq (w : World) (cfg : ProjectConfig) (pp : String) :
    generateConfigFiles w cfg pp = runOps w (generateConfigFiles.plan cfg pp) := by
  simp only [generateConfigFiles, generateConfigFiles.plan, callOp, RenderToFile_eq,
    perform_eq_runOps, bind_runOps]

theorem generateDatabaseFiles_eq (w : World) (cfg : ProjectConfig) (pp : String) :
    generateDatabaseFiles w cfg pp = runOps w (generateDatabaseFiles.plan cfg pp) := by
  simp only [generateDatabaseFiles, generateDatabaseFiles.plan, callOp, RenderToFile_eq,
    perform_eq_runOps, ite_runOps, ite_pure_runOps, bind_runOps]
  by_cases h : cfg.ORM = ORMNone
  · have h2 : cfg.ORM ≠ ORMGorm := by rw [h]; decide
    simp only [h, if_true, h2, if_false]
    rw [if_neg (by decide)]
  · simp only [h, if_false]

theorem generateFeatureFiles_eq (w : World) (cfg : ProjectConfig) (pp : String) :
    generateFeatureFiles w cfg pp = runOps w (generateFeatureFiles.plan cfg pp) := by
  simp only [generateFeatureFiles, generateRoutes, generateHandlers, generateLogger,
    generateFeatureFiles.plan, callOp, RenderToFile_eq, perform_eq_runOps, bind_runOps]

theorem generateBeautifulStartup_eq (w : World) (cfg : ProjectConfig) (pp : String) :
    generateBeautifulStartup w cfg pp = runOps w (generateBeautifulStartup.plan cfg pp) := by
  simp only [generateBeautifulStartup, generateBeautifulStartup.plan, callOp, RenderToFile_eq,
    perform_eq_runOps, bind_runOps]

theorem generateDockerFiles_eq (w : World) (cfg : ProjectConfig) (pp : String) :
    generateDockerFiles w cfg pp = runOps w (generateDockerFiles.plan cfg pp) := by
  simp only [generateDockerFiles, generateDockerFiles.plan, callOp, RenderToFile_eq,
    WriteFile_eq, perform_eq_runOps, bind_runOps]

theorem generateCICDFiles_eq (w : World) (cfg : ProjectConfig) (pp : String) :
    generateCICDFiles w cfg pp = runOps w (generateCICDFiles.plan cfg pp) := by
  simp only [generateCICDFiles, generateCICDFiles.plan, callOp, RenderToFile_eq,
    WriteFile_eq, perform_eq_runOps, ite_runOps, ite_runOps_else, Gen.pure_bind, bind_runOps]
  split_ifs <;> simp

theorem generateREADME_eq (w : World) (cfg : ProjectConfig) (pp : String) :
    generateREADME w cfg pp = runOps w (generateREADME.plan cfg pp) := by
  simp only [generateREADME, generateREADME.plan, callOp, RenderToFile_eq,
    perform_eq_runOps, bind_runOps]

theorem generateModels_eq (w : World) (cfg : ProjectConfig) (pp : String) :
    generateModels w cfg pp = runOps w (generateModels.plan cfg pp) := by
  simp only [generateModels, generateModels.plan, callOp, RenderToFile_eq,
    perform_eq_runOps, bind_runOps]

theorem generateDirectoryStructure_loop_eq (w : World) (pp : String) (dirs : List String) :
    generateDirectoryStructure.loop w pp dirs =
      runOps w (generateDirectoryStructure.loopPlan pp dirs) := by
  induction dirs with
  | nil => rfl
  | cons d ds ih =>
    simp only [generateDirectoryStructure.loop, ih, perform_eq_runOps, wrapErr_runOps,
      bind_runOps, generateDirectoryStructure.loopPlan, List.map_cons]
    rfl

theorem generateDirectoryStructure_eq (w : World) (cfg : ProjectConfig) (pp : String) :
    generateDirectoryStructure w cfg pp =
      runOps w (generateDirectoryStructure.plan cfg pp) := by
  simp only [generateDirectoryStructure, generateDirectoryStructure.plan, callOp,
    generateDirectoryStructure_loop_eq, perform_eq_runOps, bind_runOps]

theorem Generate_eq (w : World) (cfg : ProjectConfig) :
    Generate w cfg = runOps w (Generate.plan cfg) := by
  simp only [Generate, generateDirectoryStructure_eq, generateCoreFiles_eq,
    generateFrameworkFiles_eq, generateDatabaseFiles_eq, generateMiddlewareFiles_eq,
    generateFeatureFiles_eq, generateBeautifulStartup_eq, generateDocsPackage_eq,
    generateModels_eq, generateConfigFiles_eq, generateTestFiles_eq, generateDockerFiles_eq,
    generateCICDFiles_eq, generateREADME_eq, perform_eq_runOps, wrapErr_runOps, ite_runOps,
    ite_runOps_else, Gen.pure_bind, bind_runOps]
  simp only [Generate.plan, callOp, List.map_cons, List.map_nil, PlannedOp.within]
  cases cfg.Testing <;> cases cfg.Docker <;> by_cases h : cfg.CICD = CICDNone <;>
    simp [h, PlannedOp.within]

theorem Gen.bind_pure_unit (m : Gen Unit) : (m >>= fun _ => pure ()) = m := by
  apply Gen.ext
  intro tr
  rw [Gen.run_bind]
  rcases h : m.run tr with ⟨r, t⟩
  cases r <;> rfl

theorem runSteps_cons (s : String × Gen Unit) (rest : List (String × Gen Unit)) :
    runSteps (s :: rest) = (wrapErr s.1 s.2 >>= fun _ => runSteps rest) := rfl

theorem runSteps_nil : runSteps [] = pure () := rfl

theorem Generate_eq_runSteps (w : World) (cfg : ProjectConfig) :
    Generate w cfg =
      (perform w (.call "Generate") >>= fun _ => runSteps (Generate.steps w cfg)) := by
  simp only [Generate, Generate.steps]
  cases cfg.Testing <;> cases cfg.Docker <;> by_cases h : cfg.CICD = CICDNone <;>
    simp only [h, ne_eq, not_true_eq_false, not_false_eq_true, if_true, if_false,
      Bool.false_eq_true, List.cons_append, List.nil_append, List.append_nil, runSteps_cons,
      runSteps_nil, Gen.bind_pure_unit, Gen.pure_bind]

/-! ### What a run of a plan leaves in the trace -/

theorem newEvents_append (tr d : List Event) : newEvents tr (tr ++ d) = d := by
  simp [newEvents]

theorem runOps_trace (w : World) (ops : List PlannedOp) (tr : List Event) :
    ∃ k, ((runOps w ops).run tr).2 = tr ++ (planEvents ops).take k := by
  induction ops generalizing tr with
  | nil => exact ⟨0, by simp [planEvents]⟩
  | cons p ps ih =>
    rw [runOps_cons_run]
    cases h : w.result tr p.ev with
    | none =>
      obtain ⟨k, hk⟩ := ih (tr ++ [p.ev])
      refine ⟨k + 1, ?_⟩
      simp only [hk, planEvents, List.map_cons, List.take_succ_cons, List.append_assoc,
        List.singleton_append]
    | some msg =>
      refine ⟨1, ?_⟩
      simp [planEvents]

theorem runOps_ok_trace (w : World) (ops : List PlannedOp) (tr : List Event)
    (h : ((runOps w ops).run tr).1 = .ok ()) :
    ((runOps w ops).run tr).2 = tr ++ planEvents ops := by
  induction ops generalizing tr with
  | nil => simp [planEvents]
  | cons p ps ih =>
    rw [runOps_cons_run] at h ⊢
    cases hr : w.result tr p.ev with
    | none =>
      rw [hr] at h
      simp only [] at h ⊢
      rw [ih _ h]
      simp [planEvents]
    | some msg =>
      rw [hr] at h
      simp at h

theorem runOps_allOk (ops : List PlannedOp) (tr : List Event) :
    (runOps World.allOk ops).run tr = (.ok (), tr ++ planEvents ops) := by
  induction ops generalizing tr with
  | nil => simp [planEvents]
  | cons p ps ih =>
    rw [runOps_cons_run]
    have hr : World.allOk.result tr p.ev = none := by
      cases hp : p.ev <;> rfl
    rw [hr]
    simp only []
    rw [ih]
    simp [planEvents]


theorem planEvents_append (a b : List PlannedOp) :
    planEvents (a ++ b) = planEvents a ++ planEvents b := by
  simp [planEvents]

theorem planEvents_within (c : String) (a : List PlannedOp) :
    planEvents (a.map (PlannedOp.within c)) = planEvents a := by
  simp [planEvents, PlannedOp.within, Function.comp_def]

theorem planEvents_ite (c : Prop) [Decidable c] (a b : List PlannedOp) :
    planEvents (if c then a else b) = if c then planEvents a else planEvents b := by
  split <;> rfl

theorem planEvents_loopPlan (pp : String) (dirs : List String) :
    planEvents (generateDirectoryStructure.loopPlan pp dirs) =
      dirs.map fun d => Event.mkdirAll (filepathJoin pp d) := by
  simp [planEvents, generateDirectoryStructure.loopPlan, Function.comp_def]

theorem filesOf_append (a b : List Event) : filesOf (a ++ b) = filesOf a ++ filesOf b := by
  simp [filesOf]

theorem filesOf_ite (c : Prop) [Decidable c] (a b : List Event) :
    filesOf (if c then a else b) = if c then filesOf a else filesOf b := by
  split <;> rfl

theorem filesOf_mkdirs (f : String → String) (dirs : List String) :
    filesOf (dirs.map fun d => Event.mkdirAll (f d)) = [] := by
  induction dirs with
  | nil => rfl
  | cons d ds ih => simp [filesOf]

theorem filesOf_RenderToFile (t p : String) (d : TemplateData) :
    filesOf (planEvents (RenderToFile.plan t p d)) = [p] := rfl

theorem filesOf_WriteFile (p c : String) :
    filesOf (planEvents (WriteFile.plan p c)) = [p] := rfl

theorem filesOf_callOp (fn : String) : filesOf (planEvents [callOp fn]) = [] := rfl

theorem filesOf_nil : filesOf [] = [] := rfl

theorem planEvents_nil : planEvents [] = [] := rfl

theorem filepathJoin_assoc (a b c : String) :
    filepathJoin (filepathJoin a b) c = filepathJoin a (b ++ "/" ++ c) := by
  simp [filepathJoin, String.append_assoc]

theorem filesOf_Generate_plan (cfg : ProjectConfig) :
    filesOf (planEvents (Generate.plan cfg)) =
      (Generate.relFiles cfg).map (filepathJoin (joinDot cfg.ProjectName)) := by
  simp only [Generate.plan, planEvents_append, planEvents_within, planEvents_ite]
  simp only [planEvents_append, planEvents_ite, planEvents_loopPlan, filesOf_append,
    filesOf_ite, generateDirectoryStructure.plan, generateCoreFiles.plan,
    generateFrameworkFiles.plan, generateDatabaseFiles.plan, generateMiddlewareFiles.plan,
    generateFeatureFiles.plan, generateBeautifulStartup.plan, generateDocsPackage.plan,
    generateModels.plan, generateConfigFiles.plan, generateTestFiles.plan,
    generateDockerFiles.plan, generateCICDFiles.plan, generateREADME.plan,
    filesOf_RenderToFile, filesOf_WriteFile, filesOf_mkdirs, filesOf_callOp, filesOf_nil,
    planEvents_nil, filepathJoin_assoc]
  simp only [Generate.relFiles, List.map_append, apply_ite (List.map _), List.map_cons,
    List.map_nil]
  have e : filesOf (planEvents [(⟨Event.mkdirAll (joinDot cfg.ProjectName),
      ["failed to create project directory"]⟩ : PlannedOp)]) = [] := rfl
  simp only [e, List.nil_append, List.append_nil, List.append_assoc, List.cons_append]
  cases cfg.Testing <;> by_cases h1 : cfg.ORM = ORMNone <;>
    by_cases h2 : cfg.CICD = CICDNone <;> by_cases h3 : cfg.CICD = CICDGitHub <;>
    simp [h1, h2, h3, CICDNone, CICDGitHub, CICDGitLab] <;> simp_all [CICDNone, CICDGitHub, CICDGitLab]


theorem callsOf_append (a b : List Event) : callsOf (a ++ b) = callsOf a ++ callsOf b := by
  simp [callsOf]

theorem callsOf_ite (c : Prop) [Decidable c] (a b : List Event) :
    callsOf (if c then a else b) = if c then callsOf a else callsOf b := by
  split <;> rfl

theorem callsOf_mkdirs (f : String → String) (dirs : List String) :
    callsOf (dirs.map fun d => Event.mkdirAll (f d)) = [] := by
  induction dirs with
  | nil => rfl
  | cons d ds ih => simp [callsOf]

theorem callsOf_RenderToFile (t p : String) (d : TemplateData) :
    callsOf (planEvents (RenderToFile.plan t p d)) = [] := rfl

theorem callsOf_WriteFile (p c : String) :
    callsOf (planEvents (WriteFile.plan p c)) = [] := rfl

theorem callsOf_callOp (fn : String) : callsOf (planEvents [callOp fn]) = [fn] := rfl

theorem callsOf_nil : callsOf [] = [] := rfl

/-- The methods entered by a complete run of `Generate`, in order. -/
theorem callsOf_Generate_plan (cfg : ProjectConfig) :
    callsOf (planEvents (Generate.plan cfg)) =
      ["Generate", "generateDirectoryStructure", "generateCoreFiles", "generateFrameworkFiles",
        generateFrameworkFiles.branch cfg, "generateDatabaseFiles", "generateMiddlewareFiles",
        "generateFeatureFiles", "generateRoutes", "generateHandlers", "generateLogger",
        "generateBeautifulStartup", "generateDocsPackage", "generateModels",
        "generateConfigFiles"] ++
      ((if cfg.Testing then ["generateTestFiles"] else []) ++
      ((if cfg.Docker then ["generateDockerFiles"] else []) ++
      ((if cfg.CICD ≠ CICDNone then ["generateCICDFiles"] else []) ++
      ["generateREADME"]))) := by
  simp only [Generate.plan, planEvents_append, planEvents_within, planEvents_ite]
  simp only [planEvents_append, planEvents_ite, planEvents_loopPlan, callsOf_append,
    callsOf_ite, generateDirectoryStructure.plan, generateCoreFiles.plan,
    generateFrameworkFiles.plan, generateDatabaseFiles.plan, generateMiddlewareFiles.plan,
    generateFeatureFiles.plan, generateBeautifulStartup.plan, generateDocsPackage.plan,
    generateModels.plan, generateConfigFiles.plan, generateTestFiles.plan,
    generateDockerFiles.plan, generateCICDFiles.plan, generateREADME.plan,
    callsOf_RenderToFile, callsOf_WriteFile, callsOf_mkdirs, callsOf_callOp, callsOf_nil,
    planEvents_nil]
  have e : callsOf (planEvents [(⟨Event.mkdirAll (joinDot cfg.ProjectName),
      ["failed to create project directory"]⟩ : PlannedOp)]) = [] := rfl
  simp only [e, List.nil_append, List.append_nil, List.append_assoc, List.cons_append,
    ite_self]

theorem removalsOf_append (a b : List Event) :
    removalsOf (a ++ b) = removalsOf a ++ removalsOf b := by
  simp [removalsOf]

theorem removalsOf_ite (c : Prop) [Decidable c] (a b : List Event) :
    removalsOf (if c then a else b) = if c then removalsOf a else removalsOf b := by
  split <;> rfl

theorem removalsOf_mkdirs (f : String → String) (dirs : List String) :
    removalsOf (dirs.map fun d => Event.mkdirAll (f d)) = [] := by
  induction dirs with
  | nil => rfl
  | cons d ds ih => simp [removalsOf]

theorem removalsOf_RenderToFile (t p : String) (d : TemplateData) :
    removalsOf (planEvents (RenderToFile.plan t p d)) = [] := rfl

theorem removalsOf_WriteFile (p c : String) :
    removalsOf (planEvents (WriteFile.plan p c)) = [] := rfl

theorem removalsOf_callOp (fn : String) : removalsOf (planEvents [callOp fn]) = [] := rfl

theorem removalsOf_nil : removalsOf [] = [] := rfl

/-- No step planned by `Generate` is an `os.RemoveAll`. -/
theorem removalsOf_Generate_plan (cfg : ProjectConfig) :
    removalsOf (planEvents (Generate.plan cfg)) = [] := by
  simp only [Generate.plan, planEvents_append, planEvents_within, planEvents_ite]
  simp only [planEvents_append, planEvents_ite, planEvents_loopPlan, removalsOf_append,
    removalsOf_ite, generateDirectoryStructure.plan, generateCoreFiles.plan,
    generateFrameworkFiles.plan, generateDatabaseFiles.plan, generateMiddlewareFiles.plan,
    generateFeatureFiles.plan, generateBeautifulStartup.plan, generateDocsPackage.plan,
    generateModels.plan, generateConfigFiles.plan, generateTestFiles.plan,
    generateDockerFiles.plan, generateCICDFiles.plan, generateREADME.plan,
    removalsOf_RenderToFile, removalsOf_WriteFile, removalsOf_mkdirs, removalsOf_callOp,
    removalsOf_nil, planEvents_nil]
  have e : removalsOf (planEvents [(⟨Event.mkdirAll (joinDot cfg.ProjectName),
      ["failed to create project directory"]⟩ : PlannedOp)]) = [] := rfl
  simp only [e, List.nil_append, List.append_nil, ite_self]


/-! ### Runs of generators -/

theorem run_new_initial (w : World) (ops : List PlannedOp) (tr : List Event) :
    newEvents tr ((runOps w ops).run tr).2 <+: planEvents ops := by
  obtain ⟨k, hk⟩ := runOps_trace w ops tr
  rw [hk, newEvents_append]
  exact List.take_prefix _ _

theorem run_extends (w : World) (ops : List PlannedOp) (tr : List Event) :
    tr <+: ((runOps w ops).run tr).2 := by
  obtain ⟨k, hk⟩ := runOps_trace w ops tr
  rw [hk]
  exact List.prefix_append _ _

theorem run_ok_new (w : World) (ops : List PlannedOp) (tr : List Event)
    (h : ((runOps w ops).run tr).1 = .ok ()) :
    newEvents tr ((runOps w ops).run tr).2 = planEvents ops := by
  rw [runOps_ok_trace w ops tr h, newEvents_append]

theorem filepathJoin_injective (a : String) : Function.Injective (filepathJoin a) := by
  intro b c h
  have hd := congrArg String.data h
  simp only [filepathJoin, String.data_append, List.append_assoc,
    List.append_cancel_left_eq] at hd
  exact String.ext hd

theorem dropWhile_append_of_all {α : Type} (p : α → Bool) (l₁ l₂ : List α)
    (h : ∀ x ∈ l₁, p x = true) : (l₁ ++ l₂).dropWhile p = l₂.dropWhile p := by
  induction l₁ with
  | nil => rfl
  | cons x xs ih =>
    have hx : p x = true := h x (List.mem_cons_self _ _)
    simp only [List.cons_append, List.dropWhile_cons, hx, if_true]
    exact ih fun y hy => h y (List.mem_cons_of_mem _ hy)

/-- The directory of a file joined to a non-empty directory path is that
directory. -/
theorem filepathDir_filepathJoin (a b : String) (ha : a ≠ "") (hb : '/' ∉ b.data) :
    filepathDir (filepathJoin a b) = a := by
  have hmem : '/' ∈ (filepathJoin a b).data := by
    simp [filepathJoin, String.data_append]
  have hall : ∀ x ∈ b.data.reverse, (x != '/') = true := by
    intro x hx
    rw [List.mem_reverse] at hx
    simp only [bne_iff_ne, ne_eq]
    rintro rfl
    exact hb hx
  have hrev : (filepathJoin a b).data.reverse = b.data.reverse ++ ('/' :: a.data.reverse) := by
    simp [filepathJoin, String.data_append]
  have hdata : a.data ≠ [] := by
    intro h0
    apply ha
    exact String.ext h0
  unfold filepathDir
  rw [if_pos hmem]
  simp only [hrev, dropWhile_append_of_all _ _ _ hall, List.dropWhile_cons, bne_self_eq_false,
    Bool.false_eq_true, if_false, List.drop_succ_cons, List.drop_zero, List.reverse_reverse,
    hdata]

theorem filepathJoin_ne_empty (a b : String) : filepathJoin a b ≠ "" := by
  intro h
  have hd := congrArg String.data h
  simp [filepathJoin, String.data_append] at hd


theorem generateModels_modelPath_of (cfg : ProjectConfig) (dir : String)
    (h : (cfg.Architecture = ArchSimple ∧ dir = "internal/models") ∨
      (cfg.Architecture = ArchClean ∧ dir = "internal/entity") ∨
      (cfg.Architecture = ArchHexagonal ∧ dir = "internal/core/domain")) :
    generateModels.modelPath cfg = dir := by
  rcases h with ⟨ha, rfl⟩ | ⟨ha, rfl⟩ | ⟨ha, rfl⟩ <;>
    simp [generateModels.modelPath, ha, ArchSimple, ArchClean, ArchHexagonal]

/-- C3: for architecture simple, clean and hexagonal the model directory `dir` is
`internal/models`, `internal/entity` and `internal/core/domain`, whatever the
other fields are. A run of generateModels that succeeds consists of rendering the
user model template to `dir/user.go` and then the response template to
`dir/response.go` under the project path; in every run the files opened are an
initial part of these two; both files have `dir` under the project path as their
directory; and when no operation fails the run succeeds. -/
theorem generateModels_destinations (w : World) (cfg : ProjectConfig) (pp : String)
    (tr : List Event) (dir : String)
    (h : (cfg.Architecture = ArchSimple ∧ dir = "internal/models") ∨
      (cfg.Architecture = ArchClean ∧ dir = "internal/entity") ∨
      (cfg.Architecture = ArchHexagonal ∧ dir = "internal/core/domain")) :
    (((generateModels w cfg pp).run tr).1 = .ok () →
      newEvents tr ((generateModels w cfg pp).run tr).2 =
        [.call "generateModels",
          .mkdirAll (filepathJoin pp dir),
          .parse "generateModels.userModelTemplate",
          .create (filepathJoin (filepathJoin pp dir) "user.go"),
          .execute "generateModels.userModelTemplate"
            (filepathJoin (filepathJoin pp dir) "user.go") (NewTemplateData cfg),
          .mkdirAll (filepathJoin pp dir),
          .parse "generateModels.responseTemplate",
          .create (filepathJoin (filepathJoin pp dir) "response.go"),
          .execute "generateModels.responseTemplate"
            (filepathJoin (filepathJoin pp dir) "response.go") (NewTemplateData cfg)]) ∧
    filesOf (newEvents tr ((generateModels w cfg pp).run tr).2) <+:
      [filepathJoin (filepathJoin pp dir) "user.go",
        filepathJoin (filepathJoin pp dir) "response.go"] ∧
    filepathDir (filepathJoin (filepathJoin pp dir) "user.go") =
      filepathDir (filepathJoin (filepathJoin pp dir) "response.go") ∧
    ((generateModels World.allOk cfg pp).run tr).1 = .ok () := by
  have hmp := generateModels_modelPath_of cfg dir h
  have hu : filepathDir (filepathJoin (filepathJoin pp dir) "user.go") = filepathJoin pp dir :=
    filepathDir_filepathJoin _ _ (filepathJoin_ne_empty _ _) (by decide)
  have hr : filepathDir (filepathJoin (filepathJoin pp dir) "response.go") =
      filepathJoin pp dir :=
    filepathDir_filepathJoin _ _ (filepathJoin_ne_empty _ _) (by decide)
  have hplan : planEvents (generateModels.plan cfg pp) =
      [.call "generateModels",
        .mkdirAll (filepathJoin pp dir),
        .parse "generateModels.userModelTemplate",
        .create (filepathJoin (filepathJoin pp dir) "user.go"),
        .execute "generateModels.userModelTemplate"
          (filepathJoin (filepathJoin pp dir) "user.go") (NewTemplateData cfg),
        .mkdirAll (filepathJoin pp dir),
        .parse "generateModels.responseTemplate",
        .create (filepathJoin (filepathJoin pp dir) "response.go"),
        .execute "generateModels.responseTemplate"
          (filepathJoin (filepathJoin pp dir) "response.go") (NewTemplateData cfg)] := by
    simp only [generateModels.plan, hmp, planEvents, RenderToFile.plan, callOp, hu, hr,
      List.map_cons, List.map_nil, List.cons_append, List.nil_append]
  refine ⟨?_, ?_, by rw [hu, hr], ?_⟩
  · intro hok
    rw [generateModels_eq] at hok ⊢
    rw [run_ok_new w _ tr hok, hplan]
  · rw [generateModels_eq]
    have hp := (run_new_initial w (generateModels.plan cfg pp) tr).filterMap
      (fun ev => match ev with
        | .create path => some path
        | .writeFile path _ => some path
        | _ => none)
    rw [hplan] at hp
    exact hp
  · rw [generateModels_eq, runOps_allOk]

theorem generateModels_destinations_witness :
    ((exampleConfig.Architecture = ArchSimple ∧ "internal/models" = "internal/models") ∨
      (exampleConfig.Architecture = ArchClean ∧ "internal/models" = "internal/entity") ∨
      (exampleConfig.Architecture = ArchHexagonal ∧
        "internal/models" = "internal/core/domain")) ∧
    filesOf (newEvents [] ((generateModels World.allOk exampleConfig "svc1").run []).2) =
      ["svc1/internal/models/user.go", "svc1/internal/models/response.go"] := by
  refine ⟨Or.inl ⟨rfl, rfl⟩, ?_⟩
  have h := (generateModels_destinations World.allOk exampleConfig "svc1" [] "internal/models"
    (Or.inl ⟨rfl, rfl⟩)).1
    (generateModels_destinations World.allOk exampleConfig "svc1" [] "internal/models"
      (Or.inl ⟨rfl, rfl⟩)).2.2.2
  rw [h]
  decide


/-! ### The files written by Generate -/

theorem Generate_files_initial (w : World) (cfg : ProjectConfig) (tr : List Event) :
    filesOf (newEvents tr ((Generate w cfg).run tr).2) <+:
      (Generate.relFiles cfg).map (filepathJoin (joinDot cfg.ProjectName)) := by
  rw [Generate_eq, ← filesOf_Generate_plan]
  exact (run_new_initial w (Generate.plan cfg) tr).filterMap _

theorem ite_sublist {α : Type} (c : Prop) [Decidable c] (l : List α) :
    List.Sublist (if c then l else []) l := by
  split
  · exact List.Sublist.refl l
  · exact List.nil_sublist l

theorem mem_ite_nil {α : Type} (c : Prop) [Decidable c] (x : α) (l : List α) :
    x ∈ (if c then l else []) ↔ c ∧ x ∈ l := by
  split <;> simp [*]

theorem relFiles_sublist (cfg : ProjectConfig) :
    List.Sublist (Generate.relFiles cfg)
      (Generate.allRelFiles (generateModels.modelPath cfg)) := by
  unfold Generate.relFiles Generate.allRelFiles
  repeat' first
    | exact ite_sublist _ _
    | exact List.Sublist.refl _
    | apply List.Sublist.append

theorem modelPath_cases (cfg : ProjectConfig) :
    generateModels.modelPath cfg = "internal/models" ∨
      generateModels.modelPath cfg = "internal/entity" ∨
      generateModels.modelPath cfg = "internal/core/domain" := by
  unfold generateModels.modelPath
  split_ifs <;> simp

theorem relFiles_nodup (cfg : ProjectConfig) : (Generate.relFiles cfg).Nodup := by
  apply (relFiles_sublist cfg).nodup
  rcases modelPath_cases cfg with h | h | h <;> rw [h] <;> decide

/-- C4: with ORM none, whatever the Database field holds, generateDatabaseFiles
succeeds having done nothing but be entered, and no run of Generate opens
`pkg/database/database.go` under the project directory for writing. -/
theorem generateDatabaseFiles_none_emits_nothing (cfg : ProjectConfig)
    (h : cfg.ORM = ORMNone) (w : World) (pp : String) (tr : List Event) :
    (generateDatabaseFiles w cfg pp).run tr =
        (.ok (), tr ++ [.call "generateDatabaseFiles"]) ∧
      filepathJoin (joinDot cfg.ProjectName) "pkg/database/database.go" ∉
        filesOf (newEvents tr ((Generate w cfg).run tr).2) := by
  constructor
  · have hg : cfg.ORM ≠ ORMGorm := by rw [h]; decide
    rw [generateDatabaseFiles_eq]
    simp only [generateDatabaseFiles.plan, hg, if_false, List.append_nil, callOp]
    rw [runOps_cons_run]
    rfl
  · intro hmem
    have hmem2 := (Generate_files_initial w cfg tr).subset hmem
    rw [List.mem_map] at hmem2
    obtain ⟨rel, hrel, heq⟩ := hmem2
    have hrel2 : rel = "pkg/database/database.go" := filepathJoin_injective _ heq
    subst hrel2
    have hg : cfg.ORM ≠ ORMGorm := by rw [h]; decide
    unfold Generate.relFiles at hrel
    rcases modelPath_cases cfg with hm | hm | hm <;> rw [hm] at hrel <;>
      simp [hg, mem_ite_nil] at hrel


theorem generateDatabaseFiles_none_emits_nothing_witness :
    ({ exampleConfig with ORM := "none", Database := "mysql" } : ProjectConfig).ORM = ORMNone ∧
      (generateDatabaseFiles World.allOk { exampleConfig with ORM := "none", Database := "mysql" }
          "svc1").run [] = (.ok (), [] ++ [.call "generateDatabaseFiles"]) :=
  ⟨rfl, (generateDatabaseFiles_none_emits_nothing
    { exampleConfig with ORM := "none", Database := "mysql" } rfl World.allOk "svc1" []).1⟩

/-- C5: in every run of Generate, whatever the configuration and whichever
operations fail, the destination paths of the files opened for writing by the
generators are pairwise distinct. -/
theorem Generate_destinations_distinct (w : World) (cfg : ProjectConfig) (tr : List Event) :
    (filesOf (newEvents tr ((Generate w cfg).run tr).2)).Nodup := by
  apply (Generate_files_initial w cfg tr).sublist.nodup
  exact (relFiles_nodup cfg).map (filepathJoin_injective _)

theorem relFiles_head (cfg : ProjectConfig) :
    (Generate.relFiles cfg).head? = some "go.mod" := by
  simp [Generate.relFiles]

theorem getLast?_append_singleton {α : Type} (l : List α) (a : α) :
    (l ++ [a]).getLast? = some a := by
  simp

theorem relFiles_last (cfg : ProjectConfig) :
    (Generate.relFiles cfg).getLast? = some "README.md" := by
  unfold Generate.relFiles
  simp only [← List.append_assoc]
  exact getLast?_append_singleton _ _

set_option maxRecDepth 8192 in
set_option maxHeartbeats 1000000 in
/-- C6, counterexample: in the run of Generate on the example configuration in
which nothing fails, the project manifest `go.mod` is written by
generateCoreFiles and is the first file of the run, while the generator entered
last is generateREADME, which writes `README.md` and no manifest. -/
theorem Generate_manifest_not_last :
    ((Generate World.allOk exampleConfig).run []).1 = .ok () ∧
      filesOf ((generateCoreFiles World.allOk exampleConfig "svc1").run []).2 =
        ["svc1/go.mod", "svc1/main.go", "svc1/.env", "svc1/.env.example", "svc1/.gitignore"] ∧
      filesOf ((generateREADME World.allOk exampleConfig "svc1").run []).2 =
        ["svc1/README.md"] ∧
      (callsOf ((Generate World.allOk exampleConfig).run []).2).getLast? =
        some "generateREADME" ∧
      (filesOf ((Generate World.allOk exampleConfig).run []).2).head? = some "svc1/go.mod" ∧
      (filesOf ((Generate World.allOk exampleConfig).run []).2).getLast? =
        some "svc1/README.md" := by
  refine ⟨by rfl, by decide, by decide, by decide, by decide, by decide⟩

/-- C6, amended: a run of Generate in which no step fails enters the generators in
the order of the source: directory structure, core files, framework files (and
the branch of its switch), database files, middleware, feature files (routes,
handlers, logger), startup, docs, models, config files, then test files exactly
when Testing is set, Docker files exactly when Docker is set, CI/CD files exactly
when CICD is not `none`, and generateREADME last. The first file of the run is the
manifest `go.mod`, written by the core files generator, and the last file is
`README.md`. -/
theorem Generate_call_order (w : World) (cfg : ProjectConfig) (tr : List Event)
    (h : ((Generate w cfg).run tr).1 = .ok ()) :
    callsOf (newEvents tr ((Generate w cfg).run tr).2) =
        ["Generate", "generateDirectoryStructure", "generateCoreFiles",
          "generateFrameworkFiles", generateFrameworkFiles.branch cfg, "generateDatabaseFiles",
          "generateMiddlewareFiles", "generateFeatureFiles", "generateRoutes",
          "generateHandlers", "generateLogger", "generateBeautifulStartup",
          "generateDocsPackage", "generateModels", "generateConfigFiles"] ++
        ((if cfg.Testing then ["generateTestFiles"] else []) ++
        ((if cfg.Docker then ["generateDockerFiles"] else []) ++
        ((if cfg.CICD ≠ CICDNone then ["generateCICDFiles"] else []) ++
        ["generateREADME"]))) ∧
      (filesOf (newEvents tr ((Generate w cfg).run tr).2)).head? =
        some (filepathJoin (joinDot cfg.ProjectName) "go.mod") ∧
      (filesOf (newEvents tr ((Generate w cfg).run tr).2)).getLast? =
        some (filepathJoin (joinDot cfg.ProjectName) "README.md") := by
  rw [Generate_eq] at h ⊢
  rw [run_ok_new w _ tr h, callsOf_Generate_plan, filesOf_Generate_plan]
  refine ⟨rfl, ?_, ?_⟩
  · rw [List.head?_map, relFiles_head]
    rfl
  · rw [List.getLast?_map, relFiles_last]
    rfl

theorem Generate_call_order_witness :
    ((Generate World.allOk exampleConfig).run []).1 = .ok () ∧
      callsOf (newEvents [] ((Generate World.allOk exampleConfig).run []).2) =
        ["Generate", "generateDirectoryStructure", "generateCoreFiles",
          "generateFrameworkFiles", "generateGinFiles", "generateDatabaseFiles",
          "generateMiddlewareFiles", "generateFeatureFiles", "generateRoutes",
          "generateHandlers", "generateLogger", "generateBeautifulStartup",
          "generateDocsPackage", "generateModels", "generateConfigFiles", "generateTestFiles",
          "generateDockerFiles", "generateCICDFiles", "generateREADME"] :=
  ⟨by rw [Generate_eq, runOps_allOk],
    (Generate_call_order World.allOk exampleConfig []
      (by rw [Generate_eq, runOps_allOk])).1⟩

/-! ### Failure of a step -/

theorem wrapErr_run_error {α : Type} (c : String) (m : Gen α) (tr : List Event) (e : GoError)
    (h : (m.run tr).1 = .error e) :
    (wrapErr c m).run tr = (.error (.wrap c e), (m.run tr).2) := by
  rcases hm : m.run tr with ⟨r, t⟩
  rw [hm] at h
  simp only at h
  subst h
  simp only [wrapErr, Gen.run_mk, hm]

/-- Running steps: when the steps before one succeed and that step fails, the
run returns that step's error in that step's context, with the trace as the step
left it. -/
theorem runSteps_fail_fast (pre post : List (String × Gen Unit)) (ctx : String)
    (step : Gen Unit) (e : GoError) (tr : List Event)
    (hpre : ((runSteps pre).run tr).1 = .ok ())
    (hfail : (step.run ((runSteps pre).run tr).2).1 = .error e) :
    (runSteps (pre ++ (ctx, step) :: post)).run tr =
      (.error (.wrap ctx e), (step.run ((runSteps pre).run tr).2).2) := by
  induction pre generalizing tr with
  | nil =>
    simp only [runSteps_nil, Gen.run_pure] at hfail ⊢
    simp only [List.nil_append, runSteps_cons, Gen.run_bind, wrapErr_run_error ctx step tr e hfail]
  | cons s rest ih =>
    simp only [runSteps_cons, Gen.run_bind] at hpre hfail
    simp only [List.cons_append, runSteps_cons, Gen.run_bind]
    rcases hs : (wrapErr s.1 s.2).run tr with ⟨r, t⟩
    rw [hs] at hpre hfail
    cases r with
    | ok u =>
      simp only at hpre hfail ⊢
      exact ih t hpre hfail
    | error e2 => simp at hpre


theorem Generate_removes_nothing (w : World) (cfg : ProjectConfig) (tr : List Event) :
    removalsOf (newEvents tr ((Generate w cfg).run tr).2) = [] := by
  have hp := (run_new_initial w (Generate.plan cfg) tr).filterMap
    (fun ev => match ev with
      | .removeAll path => some path
      | _ => none)
  rw [Generate_eq]
  have hnil : removalsOf (planEvents (Generate.plan cfg)) = [] := removalsOf_Generate_plan cfg
  unfold removalsOf at hnil ⊢
  rw [hnil] at hp
  exact List.prefix_nil.mp hp

/-- C7: Generate is the run, in order, of its steps: the creation of the project
directory followed by the generators, each with the context of its error wrapper.
If the steps before some step succeed and that step returns an error, then Generate
returns that error wrapped in the step's context, and the trace of Generate is
the trace at the moment the failing step returned: no later step is entered and
no later file is written. Generate performs no removal, and everything that
happened before stays in the trace. -/
theorem Generate_halts_at_first_failure (w : World) (cfg : ProjectConfig) (tr : List Event)
    (pre post : List (String × Gen Unit)) (ctx : String) (step : Gen Unit) (e : GoError)
    (hsteps : Generate.steps w cfg = pre ++ (ctx, step) :: post)
    (hpre : ((runSteps pre).run (tr ++ [.call "Generate"])).1 = .ok ())
    (hfail : (step.run ((runSteps pre).run (tr ++ [.call "Generate"])).2).1 = .error e) :
    Generate w cfg =
        (perform w (.call "Generate") >>= fun _ => runSteps (Generate.steps w cfg)) ∧
      (Generate w cfg).run tr =
        (.error (.wrap ctx e),
          (step.run ((runSteps pre).run (tr ++ [.call "Generate"])).2).2) ∧
      removalsOf (newEvents tr ((Generate w cfg).run tr).2) = [] ∧
      tr <+: ((Generate w cfg).run tr).2 := by
  refine ⟨Generate_eq_runSteps w cfg, ?_, Generate_removes_nothing w cfg tr, ?_⟩
  · rw [Generate_eq_runSteps, Gen.run_bind, hsteps]
    have hcall : (perform w (.call "Generate")).run tr = (.ok (), tr ++ [.call "Generate"]) :=
      rfl
    rw [hcall]
    exact runSteps_fail_fast pre post ctx step e _ hpre hfail
  · rw [Generate_eq]
    exact run_extends w _ tr

set_option maxRecDepth 4096 in
theorem Generate_halts_at_first_failure_witness :
    (Generate (World.failingParse "generateCoreFiles.mainTemplate" "unexpected EOF")
        exampleConfig).run [] =
      (.error (.wrap "failed to generate core files"
          (.wrap "failed to parse template" (.base "unexpected EOF"))),
        ((generateCoreFiles (World.failingParse "generateCoreFiles.mainTemplate"
            "unexpected EOF") exampleConfig "svc1").run
          ((runSteps ((Generate.steps (World.failingParse "generateCoreFiles.mainTemplate"
            "unexpected EOF") exampleConfig).take 2)).run [.call "Generate"]).2).2) ∧
      callsOf ((Generate (World.failingParse "generateCoreFiles.mainTemplate" "unexpected EOF")
        exampleConfig).run []).2 =
        ["Generate", "generateDirectoryStructure", "generateCoreFiles"] ∧
      filesOf ((Generate (World.failingParse "generateCoreFiles.mainTemplate" "unexpected EOF")
        exampleConfig).run []).2 = ["svc1/go.mod"] :=
  ⟨(Generate_halts_at_first_failure
    (World.failingParse "generateCoreFiles.mainTemplate" "unexpected EOF") exampleConfig []
    ((Generate.steps (World.failingParse "generateCoreFiles.mainTemplate" "unexpected EOF")
      exampleConfig).take 2)
    ((Generate.steps (World.failingParse "generateCoreFiles.mainTemplate" "unexpected EOF")
      exampleConfig).drop 3)
    "failed to generate core files"
    (generateCoreFiles (World.failingParse "generateCoreFiles.mainTemplate" "unexpected EOF")
      exampleConfig "svc1")
    (.wrap "failed to parse template" (.base "unexpected EOF")) rfl rfl rfl).2.1,
    by decide, by rfl⟩

/-! ### The project name test -/

theorem okChar_iff (c : Char) :
    isValidProjectName.okChar c = true ↔
      ('a' ≤ c ∧ c ≤ 'z') ∨ ('A' ≤ c ∧ c ≤ 'Z') ∨ ('0' ≤ c ∧ c ≤ '9') ∨ c = '-' ∨ c = '_' := by
  simp only [isValidProjectName.okChar, Bool.or_eq_true, Bool.and_eq_true, decide_eq_true_eq,
    beq_iff_eq, or_assoc]

/-- C11: isValidProjectName is true of a string exactly when the string is not
empty and each of its characters is an ASCII letter (`a`..`z`, `A`..`Z`), an ASCII
digit, `-` or `_`. -/
theorem isValidProjectName_iff (s : String) :
    isValidProjectName s = true ↔
      s ≠ "" ∧ ∀ c ∈ s.data,
        ('a' ≤ c ∧ c ≤ 'z') ∨ ('A' ≤ c ∧ c ≤ 'Z') ∨ ('0' ≤ c ∧ c ≤ '9') ∨ c = '-' ∨ c = '_' := by
  unfold isValidProjectName
  by_cases h : s = ""
  · simp [h]
  · simp only [h, if_false, List.all_eq_true, okChar_iff, ne_eq, not_false_eq_true, true_and]

/-! ### Validation: failures, closed domains and defaults -/

theorem mem_valid_framework (x : String) :
    isValidFramework x = true ↔ x ∈ ["gin", "echo", "fiber", "revel"] := by
  simp [isValidFramework, FrameworkGin, FrameworkEcho, FrameworkFiber, FrameworkRevel]

theorem mem_valid_orm (x : String) :
    isValidORM x = true ↔ x ∈ ["gorm", "sqlx", "raw", "none"] := by
  simp [isValidORM, ORMGorm, ORMSqlx, ORMRaw, ORMNone]

theorem mem_valid_database (x : String) :
    isValidDatabase x = true ↔
      x ∈ ["postgresql", "mysql", "sqlite", "mongodb", "redis", "memory"] := by
  simp [isValidDatabase, DBPostgreSQL, DBMySQL, DBSQLite, DBMongoDB, DBRedis, DBMemory]

theorem mem_valid_architecture (x : String) :
    isValidArchitecture x = true ↔ x ∈ ["simple", "clean", "hexagonal", "mvc", "custom"] := by
  simp [isValidArchitecture, ArchSimple, ArchClean, ArchHexagonal, ArchMVC, ArchCustom]

/-- C12: for a configuration whose project name is acceptable (unset, hence
defaulted, or valid), validateAndSetDefaults fails exactly when a supplied
(non-empty) framework, ORM, database or architecture value is outside its
enumeration. -/
theorem validateAndSetDefaults_fails_iff (cfg : ProjectConfig)
    (hname : cfg.ProjectName = "" ∨ isValidProjectName cfg.ProjectName = true) :
    (validateAndSetDefaults cfg).1 ≠ none ↔
      (cfg.Framework ≠ "" ∧ cfg.Framework ∉ ["gin", "echo", "fiber", "revel"]) ∨
      (cfg.ORM ≠ "" ∧ cfg.ORM ∉ ["gorm", "sqlx", "raw", "none"]) ∨
      (cfg.Database ≠ "" ∧
        cfg.Database ∉ ["postgresql", "mysql", "sqlite", "mongodb", "redis", "memory"]) ∨
      (cfg.Architecture ≠ "" ∧
        cfg.Architecture ∉ ["simple", "clean", "hexagonal", "mvc", "custom"]) := by
  rw [ne_eq, validateAndSetDefaults_fst, enumsAcceptable, mem_valid_framework, mem_valid_orm,
    mem_valid_database, mem_valid_architecture]
  tauto

theorem validateAndSetDefaults_fails_iff_witness :
    (({ exampleConfig with Database := "oracle" } : ProjectConfig).ProjectName = "" ∨
        isValidProjectName
          ({ exampleConfig with Database := "oracle" } : ProjectConfig).ProjectName = true) ∧
      (validateAndSetDefaults { exampleConfig with Database := "oracle" }).1 ≠ none :=
  ⟨by decide,
    (validateAndSetDefaults_fails_iff { exampleConfig with Database := "oracle" }
      (by decide)).mpr (by decide)⟩

theorem Checked.andThen_of_ok (r : Checked) (f : ProjectConfig → Checked) (h : r.1 = none) :
    r.andThen f = f r.2 := by
  rcases r with ⟨_ | e, c⟩
  · rfl
  · simp at h

/-- The configuration that validateAndSetDefaults leaves when it succeeds. -/
theorem validateAndSetDefaults_snd_of_ok (cfg : ProjectConfig)
    (h : (validateAndSetDefaults cfg).1 = none) :
    (validateAndSetDefaults cfg).2 =
      validateAndSetDefaults.rest
        (validateAndSetDefaults.architecture
          (validateAndSetDefaults.database
            (validateAndSetDefaults.orm
              (validateAndSetDefaults.framework
                (validateAndSetDefaults.name cfg).2).2).2).2).2 := by
  unfold validateAndSetDefaults at h ⊢
  simp only [Checked.andThen_fst] at h
  obtain ⟨⟨⟨⟨⟨h1, h2⟩, h3⟩, h4⟩, h5⟩, -⟩ := h
  rw [Checked.andThen_of_ok _ validateAndSetDefaults.framework h1] at h3 h4 h5 ⊢
  rw [Checked.andThen_of_ok _ validateAndSetDefaults.orm h2] at h4 h5 ⊢
  rw [Checked.andThen_of_ok _ validateAndSetDefaults.database h3] at h5 ⊢
  rw [Checked.andThen_of_ok _ validateAndSetDefaults.architecture h4]
  rw [Checked.andThen_of_ok _ _ h5]

theorem validateAndSetDefaults_ok_fields (cfg : ProjectConfig)
    (h : (validateAndSetDefaults cfg).1 = none) :
    (validateAndSetDefaults cfg).2.Framework =
        (if cfg.Framework = "" then FrameworkGin else cfg.Framework) ∧
      (validateAndSetDefaults cfg).2.ORM = (if cfg.ORM = "" then ORMGorm else cfg.ORM) ∧
      (validateAndSetDefaults cfg).2.Database =
        (if cfg.Database = "" ∧ (if cfg.ORM = "" then ORMGorm else cfg.ORM) ≠ ORMNone
          then DBPostgreSQL else cfg.Database) ∧
      (validateAndSetDefaults cfg).2.Architecture =
        (if cfg.Architecture = "" then ArchSimple else cfg.Architecture) ∧
      (validateAndSetDefaults cfg).2.Config = ConfigYAML ∧
      (validateAndSetDefaults cfg).2.Auth = AuthJWT ∧
      (validateAndSetDefaults cfg).2.Logging = LogZap ∧
      (validateAndSetDefaults cfg).2.CICD = CICDGitHub := by
  rw [validateAndSetDefaults_snd_of_ok cfg h]
  simp only [validateAndSetDefaults.rest, validateAndSetDefaults.name_snd,
    validateAndSetDefaults.framework_snd, validateAndSetDefaults.orm_snd,
    validateAndSetDefaults.database_snd, validateAndSetDefaults.architecture_snd,
    apply_ite ProjectConfig.Framework, apply_ite ProjectConfig.ORM,
    apply_ite ProjectConfig.Database, apply_ite ProjectConfig.Architecture, ite_self,
    and_self, and_true, true_and]

/-- C13: when validateAndSetDefaults succeeds, Framework, ORM, Architecture, Config,
Auth, Logging and CICD of the resulting configuration are each one of their
declared constants, and Database is one of the six database constants or is
empty with ORM none. -/
theorem validateAndSetDefaults_closed_domains (cfg : ProjectConfig)
    (h : (validateAndSetDefaults cfg).1 = none) :
    (validateAndSetDefaults cfg).2.Framework ∈
        [FrameworkGin, FrameworkEcho, FrameworkFiber, FrameworkRevel] ∧
      (validateAndSetDefaults cfg).2.ORM ∈ [ORMGorm, ORMSqlx, ORMRaw, ORMNone] ∧
      (validateAndSetDefaults cfg).2.Architecture ∈
        [ArchSimple, ArchClean, ArchHexagonal, ArchMVC, ArchCustom] ∧
      (validateAndSetDefaults cfg).2.Config ∈ [ConfigYAML, ConfigJSON, ConfigTOML] ∧
      (validateAndSetDefaults cfg).2.Auth ∈ [AuthJWT, AuthOAuth2, AuthBasic, AuthNone] ∧
      (validateAndSetDefaults cfg).2.Logging ∈ [LogStandard, LogLogrus, LogZap, LogCharm] ∧
      (validateAndSetDefaults cfg).2.CICD ∈ [CICDGitHub, CICDGitLab, CICDNone] ∧
      ((validateAndSetDefaults cfg).2.Database ∈
          [DBPostgreSQL, DBMySQL, DBSQLite, DBMongoDB, DBRedis, DBMemory] ∨
        ((validateAndSetDefaults cfg).2.Database = "" ∧
          (validateAndSetDefaults cfg).2.ORM = ORMNone)) := by
  obtain ⟨hf, ho, hd, ha, hc, hau, hl, hci⟩ := validateAndSetDefaults_ok_fields cfg h
  obtain ⟨-, ef, eo, ed, ea⟩ := (validateAndSetDefaults_fst cfg).mp h
  rw [hf, ho, hd, ha, hc, hau, hl, hci]
  have vf : ∀ x, isValidFramework x = true →
      x ∈ [FrameworkGin, FrameworkEcho, FrameworkFiber, FrameworkRevel] := by
    intro x hx
    simpa [isValidFramework] using hx
  have vo : ∀ x, isValidORM x = true → x ∈ [ORMGorm, ORMSqlx, ORMRaw, ORMNone] := by
    intro x hx
    simpa [isValidORM] using hx
  have vd : ∀ x, isValidDatabase x = true →
      x ∈ [DBPostgreSQL, DBMySQL, DBSQLite, DBMongoDB, DBRedis, DBMemory] := by
    intro x hx
    simpa [isValidDatabase] using hx
  have va : ∀ x, isValidArchitecture x = true →
      x ∈ [ArchSimple, ArchClean, ArchHexagonal, ArchMVC, ArchCustom] := by
    intro x hx
    simpa [isValidArchitecture] using hx
  refine ⟨?_, ?_, ?_, by simp, by simp, by simp, by simp, ?_⟩
  · rcases ef with e | e
    · simp [e]
    · by_cases e0 : cfg.Framework = ""
      · simp [e0]
      · simpa [e0] using vf _ e
  · rcases eo with e | e
    · simp [e]
    · by_cases e0 : cfg.ORM = ""
      · simp [e0]
      · simpa [e0] using vo _ e
  · rcases ea with e | e
    · simp [e]
    · by_cases e0 : cfg.Architecture = ""
      · simp [e0]
      · simpa [e0] using va _ e
  · by_cases d0 : cfg.Database = ""
    · by_cases o0 : (if cfg.ORM = "" then ORMGorm else cfg.ORM) = ORMNone
      · right
        simp [d0, o0]
      · left
        simp [d0, o0]
    · left
      rcases ed with e | e
      · exact absurd e d0
      · simpa [d0] using vd _ e

theorem validateAndSetDefaults_closed_domains_witness :
    (validateAndSetDefaults { ProjectConfig.zero with ORM := "none" }).1 = none ∧
      (validateAndSetDefaults { ProjectConfig.zero with ORM := "none" }).2.Framework ∈
        [FrameworkGin, FrameworkEcho, FrameworkFiber, FrameworkRevel] ∧
      (validateAndSetDefaults { ProjectConfig.zero with ORM := "none" }).2.Database = "" :=
  ⟨by decide,
    (validateAndSetDefaults_closed_domains { ProjectConfig.zero with ORM := "none" }
      (by decide)).1,
    by decide⟩

/-- C14: when validateAndSetDefaults succeeds, the resulting ORM is gorm if the
input ORM was unset and the input ORM otherwise; Database is postgresql if the
input database was unset and the resulting ORM is not none, and the input
database otherwise; Architecture is simple if unset and the input otherwise;
Framework is gin if unset and the input otherwise. -/
theorem validateAndSetDefaults_defaults (cfg : ProjectConfig)
    (h : (validateAndSetDefaults cfg).1 = none) :
    (validateAndSetDefaults cfg).2.ORM = (if cfg.ORM = "" then ORMGorm else cfg.ORM) ∧
      (validateAndSetDefaults cfg).2.Database =
        (if cfg.Database = "" ∧ (validateAndSetDefaults cfg).2.ORM ≠ ORMNone
          then DBPostgreSQL else cfg.Database) ∧
      (validateAndSetDefaults cfg).2.Architecture =
        (if cfg.Architecture = "" then ArchSimple else cfg.Architecture) ∧
      (validateAndSetDefaults cfg).2.Framework =
        (if cfg.Framework = "" then FrameworkGin else cfg.Framework) := by
  obtain ⟨hf, ho, hd, ha, -⟩ := validateAndSetDefaults_ok_fields cfg h
  refine ⟨ho, ?_, ha, hf⟩
  rw [ho]
  exact hd

theorem validateAndSetDefaults_defaults_witness :
    (validateAndSetDefaults { ProjectConfig.zero with ProjectName := "svc1" }).1 = none ∧
      (validateAndSetDefaults { ProjectConfig.zero with ProjectName := "svc1" }).2.ORM =
        "gorm" ∧
      (validateAndSetDefaults { ProjectConfig.zero with ProjectName := "svc1" }).2.Database =
        "postgresql" :=
  ⟨by decide,
    (validateAndSetDefaults_defaults { ProjectConfig.zero with ProjectName := "svc1" }
      (by decide)).1,
    by decide⟩

/-- C15: for a configuration with non-empty project name and module path,
validateProjectConfig succeeds; with ORM none the resulting Database is empty,
with another ORM the Database is unchanged, and every other field is unchanged.
A warning is printed exactly when a supplied database is cleared. -/
theorem validateProjectConfig_frame (cfg : ProjectConfig)
    (hn : cfg.ProjectName ≠ "") (hm : cfg.ModulePath ≠ "") :
    (validateProjectConfig cfg).1 = none ∧
      (cfg.ORM = ORMNone → (validateProjectConfig cfg).2.1.Database = "") ∧
      (cfg.ORM ≠ ORMNone → (validateProjectConfig cfg).2.1.Database = cfg.Database) ∧
      (validateProjectConfig cfg).2.1 =
        { cfg with Database := (validateProjectConfig cfg).2.1.Database } ∧
      ((validateProjectConfig cfg).2.2 ≠ [] ↔ cfg.ORM = ORMNone ∧ cfg.Database ≠ "") := by
  rcases cfg with ⟨pn, mp, fw, orm, db, arch, conf, auth, log, testing, docker, cicd, mw, ft⟩
  simp only at hn hm
  unfold validateProjectConfig
  simp only [hn, hm, if_false]
  by_cases ho : orm = ORMNone
  · by_cases hd : db = ""
    · simp [ho, hd]
    · simp [ho, hd]
  · simp [ho]

theorem validateProjectConfig_frame_witness :
    ({ exampleConfig with ORM := "none", Database := "mysql" } : ProjectConfig).ProjectName ≠
        "" ∧
      (validateProjectConfig { exampleConfig with ORM := "none", Database := "mysql" }).1 =
        none ∧
      (validateProjectConfig { exampleConfig with ORM := "none", Database := "mysql" }).2.1 =
        { exampleConfig with ORM := "none", Database := "" } :=
  ⟨by decide,
    (validateProjectConfig_frame { exampleConfig with ORM := "none", Database := "mysql" }
      (by decide) (by decide)).1,
    by decide⟩

/-! ### The framework and middleware generators -/

theorem filterMap_take_nil {α β : Type} (f : α → Option β) (l : List α) (k : Nat)
    (h : l.filterMap f = []) : (l.take k).filterMap f = [] := by
  have hp := (List.take_prefix k l).filterMap f
  rw [h] at hp
  exact List.prefix_nil.mp hp

/-- C16: every run of generateFrameworkFiles enters exactly one framework branch:
the Echo branch when the framework is `echo`, the Fiber branch when it is `fiber`,
and the Gin branch for every other value. The only file it opens is
`internal/app/app.go` under the project path; a run that succeeds opens exactly
that one file, and when no operation fails the run succeeds. -/
theorem generateFrameworkFiles_one_branch (w : World) (cfg : ProjectConfig) (pp : String)
    (tr : List Event) :
    callsOf (newEvents tr ((generateFrameworkFiles w cfg pp).run tr).2) =
        ["generateFrameworkFiles",
          if cfg.Framework = FrameworkEcho then "generateEchoFiles"
          else if cfg.Framework = FrameworkFiber then "generateFiberFiles"
          else "generateGinFiles"] ∧
      filesOf (newEvents tr ((generateFrameworkFiles w cfg pp).run tr).2) <+:
        [filepathJoin pp "internal/app/app.go"] ∧
      (((generateFrameworkFiles w cfg pp).run tr).1 = .ok () →
        filesOf (newEvents tr ((generateFrameworkFiles w cfg pp).run tr).2) =
          [filepathJoin pp "internal/app/app.go"]) ∧
      ((generateFrameworkFiles World.allOk cfg pp).run tr).1 = .ok () := by
  have hb : generateFrameworkFiles.branch cfg =
      (if cfg.Framework = FrameworkEcho then "generateEchoFiles"
        else if cfg.Framework = FrameworkFiber then "generateFiberFiles"
        else "generateGinFiles") := by
    unfold generateFrameworkFiles.branch
    by_cases h1 : cfg.Framework = FrameworkGin
    · rw [h1]
      decide
    · simp only [h1, if_false]
  have hfiles : filesOf (planEvents (generateFrameworkFiles.plan cfg pp)) =
      [filepathJoin pp "internal/app/app.go"] := rfl
  have hcalls : (generateFrameworkFiles w cfg pp).run tr =
      (runOps w (RenderToFile.plan (generateFrameworkFiles.branch cfg ++ ".appTemplate")
        (filepathJoin pp "internal/app/app.go") (NewTemplateData cfg))).run
        (tr ++ [.call "generateFrameworkFiles", .call (generateFrameworkFiles.branch cfg)]) := by
    rw [generateFrameworkFiles_eq]
    simp only [generateFrameworkFiles.plan, callOp, List.cons_append, List.nil_append,
      runOps_cons_run, World.result, List.append_assoc]
  refine ⟨?_, ?_, ?_, ?_⟩
  · rw [hcalls]
    obtain ⟨k, hk⟩ := runOps_trace w (RenderToFile.plan
      (generateFrameworkFiles.branch cfg ++ ".appTemplate")
      (filepathJoin pp "internal/app/app.go") (NewTemplateData cfg))
      (tr ++ [.call "generateFrameworkFiles", .call (generateFrameworkFiles.branch cfg)])
    rw [hk, List.append_assoc, newEvents_append, callsOf_append, ← hb]
    have h0 : callsOf ((planEvents (RenderToFile.plan
        (generateFrameworkFiles.branch cfg ++ ".appTemplate")
        (filepathJoin pp "internal/app/app.go") (NewTemplateData cfg))).take k) = [] :=
      filterMap_take_nil _ _ k rfl
    rw [h0]
    rfl
  · rw [generateFrameworkFiles_eq, ← hfiles]
    exact (run_new_initial w _ tr).filterMap _
  · intro hok
    rw [generateFrameworkFiles_eq] at hok ⊢
    rw [run_ok_new w _ tr hok, hfiles]
  · rw [generateFrameworkFiles_eq, runOps_allOk]

set_option maxRecDepth 4096 in
theorem generateFrameworkFiles_one_branch_witness :
    ((generateFrameworkFiles World.allOk { exampleConfig with Framework := "revel" }
        "svc1").run []).1 = .ok () ∧
      filesOf (newEvents [] ((generateFrameworkFiles World.allOk
        { exampleConfig with Framework := "revel" } "svc1").run []).2) =
        [filepathJoin "svc1" "internal/app/app.go"] ∧
      callsOf ((generateFrameworkFiles World.allOk { exampleConfig with Framework := "revel" }
        "svc1").run []).2 = ["generateFrameworkFiles", "generateGinFiles"] :=
  ⟨by rfl,
    (generateFrameworkFiles_one_branch World.allOk { exampleConfig with Framework := "revel" }
      "svc1" []).2.2.1 (by rfl),
    by decide⟩

/-- The files of the plan of generateMiddlewareFiles. -/
theorem filesOf_generateMiddlewareFiles_plan (cfg : ProjectConfig) (pp : String) :
    filesOf (planEvents (generateMiddlewareFiles.plan cfg pp)) =
      (if cfg.Auth = AuthJWT then [filepathJoin pp "internal/middleware/auth.go"] else []) ++
      ((if cfg.Middleware.CORS then [filepathJoin pp "internal/middleware/cors.go"] else []) ++
      (if cfg.Middleware.Logging then [filepathJoin pp "internal/middleware/logging.go"]
        else [])) := by
  simp only [generateMiddlewareFiles.plan, planEvents_append, planEvents_ite, filesOf_append,
    filesOf_ite, filesOf_RenderToFile, filesOf_callOp, filesOf_nil, planEvents_nil,
    List.nil_append]

theorem middleware_paths_ne (pp : String) :
    filepathJoin pp "internal/middleware/cors.go" ≠
        filepathJoin pp "internal/middleware/auth.go" ∧
      filepathJoin pp "internal/middleware/cors.go" ≠
        filepathJoin pp "internal/middleware/logging.go" ∧
      filepathJoin pp "internal/middleware/logging.go" ≠
        filepathJoin pp "internal/middleware/auth.go" := by
  refine ⟨?_, ?_, ?_⟩ <;>
    exact fun h => absurd (filepathJoin_injective pp h) (by decide)

theorem mem_middleware_files (cfg : ProjectConfig) (pp : String) :
    (filepathJoin pp "internal/middleware/auth.go" ∈
        filesOf (planEvents (generateMiddlewareFiles.plan cfg pp)) ↔ cfg.Auth = AuthJWT) ∧
      (filepathJoin pp "internal/middleware/cors.go" ∈
        filesOf (planEvents (generateMiddlewareFiles.plan cfg pp)) ↔
          cfg.Middleware.CORS = true) ∧
      (filepathJoin pp "internal/middleware/logging.go" ∈
        filesOf (planEvents (generateMiddlewareFiles.plan cfg pp)) ↔
          cfg.Middleware.Logging = true) := by
  obtain ⟨h1, h2, h3⟩ := middleware_paths_ne pp
  rw [filesOf_generateMiddlewareFiles_plan]
  simp only [List.mem_append, mem_ite_nil, List.mem_singleton]
  refine ⟨?_, ?_, ?_⟩
  · constructor
    · rintro (h | h | h)
      · exact h.1
      · exact absurd h.2.symm h1
      · exact absurd h.2.symm h3
    · exact fun h => Or.inl ⟨h, trivial⟩
  · constructor
    · rintro (h | h | h)
      · exact absurd h.2 h1
      · exact h.1
      · exact absurd h.2 h2
    · exact fun h => Or.inr (Or.inl ⟨h, trivial⟩)
  · constructor
    · rintro (h | h | h)
      · exact absurd h.2 h3
      · exact absurd h.2.symm h2
      · exact h.1
    · exact fun h => Or.inr (Or.inr ⟨h, trivial⟩)

/-- C17: in a run of generateMiddlewareFiles that succeeds, `cors.go` is opened
exactly when the CORS flag is set and `logging.go` exactly when the request
logging flag is set; in any run, either file is opened only if its flag is set.
When no operation fails the run succeeds, and for any choice of the two flags
the files opened are the auth file (when the auth method is jwt) followed by
exactly the files of the flags chosen. -/
theorem generateMiddlewareFiles_gates (w : World) (cfg : ProjectConfig) (pp : String)
    (tr : List Event) :
    (((generateMiddlewareFiles w cfg pp).run tr).1 = .ok () →
      (filepathJoin pp "internal/middleware/cors.go" ∈
          filesOf (newEvents tr ((generateMiddlewareFiles w cfg pp).run tr).2) ↔
        cfg.Middleware.CORS = true) ∧
      (filepathJoin pp "internal/middleware/logging.go" ∈
          filesOf (newEvents tr ((generateMiddlewareFiles w cfg pp).run tr).2) ↔
        cfg.Middleware.Logging = true)) ∧
    (filepathJoin pp "internal/middleware/cors.go" ∈
        filesOf (newEvents tr ((generateMiddlewareFiles w cfg pp).run tr).2) →
      cfg.Middleware.CORS = true) ∧
    (filepathJoin pp "internal/middleware/logging.go" ∈
        filesOf (newEvents tr ((generateMiddlewareFiles w cfg pp).run tr).2) →
      cfg.Middleware.Logging = true) ∧
    ((generateMiddlewareFiles World.allOk cfg pp).run tr).1 = .ok () ∧
    ∀ cors logging : Bool,
      filesOf (newEvents tr ((generateMiddlewareFiles World.allOk
          { cfg with Middleware := { cfg.Middleware with CORS := cors, Logging := logging } }
          pp).run tr).2) =
        (if cfg.Auth = AuthJWT then [filepathJoin pp "internal/middleware/auth.go"] else []) ++
        ((if cors then [filepathJoin pp "internal/middleware/cors.go"] else []) ++
        (if logging then [filepathJoin pp "internal/middleware/logging.go"] else [])) := by
  obtain ⟨-, hc, hl⟩ := mem_middleware_files cfg pp
  have hsub : filesOf (newEvents tr ((generateMiddlewareFiles w cfg pp).run tr).2) <+:
      filesOf (planEvents (generateMiddlewareFiles.plan cfg pp)) := by
    rw [generateMiddlewareFiles_eq]
    exact (run_new_initial w _ tr).filterMap _
  refine ⟨?_, fun h => hc.mp (hsub.subset h), fun h => hl.mp (hsub.subset h), ?_, ?_⟩
  · intro hok
    rw [generateMiddlewareFiles_eq] at hok ⊢
    rw [run_ok_new w _ tr hok]
    exact ⟨hc, hl⟩
  · rw [generateMiddlewareFiles_eq, runOps_allOk]
  · intro cors logging
    rw [generateMiddlewareFiles_eq, runOps_allOk, newEvents_append,
      filesOf_generateMiddlewareFiles_plan]

set_option maxRecDepth 4096 in
theorem generateMiddlewareFiles_gates_witness :
    ((generateMiddlewareFiles World.allOk exampleConfig "svc1").run []).1 = .ok () ∧
      ("svc1/internal/middleware/cors.go" ∈
          filesOf (newEvents [] ((generateMiddlewareFiles World.allOk exampleConfig
            "svc1").run []).2) ↔
        exampleConfig.Middleware.CORS = true) ∧
      filesOf ((generateMiddlewareFiles World.allOk exampleConfig "svc1").run []).2 =
        ["svc1/internal/middleware/auth.go", "svc1/internal/middleware/cors.go",
          "svc1/internal/middleware/logging.go"] :=
  ⟨by rfl,
    ((generateMiddlewareFiles_gates World.allOk exampleConfig "svc1" []).1 (by rfl)).1,
    by decide⟩

set_option maxRecDepth 4096 in
/-- C18, counterexample: the example configuration has the auth middleware flag
off and the auth method jwt, and generateMiddlewareFiles writes
`internal/middleware/auth.go`; with the flag on and the auth method `basic` it
does not. -/
theorem auth_file_ignores_middleware_flag :
    exampleConfig.Middleware.Auth = false ∧
      ((generateMiddlewareFiles World.allOk exampleConfig "svc1").run []).1 = .ok () ∧
      "svc1/internal/middleware/auth.go" ∈
        filesOf ((generateMiddlewareFiles World.allOk exampleConfig "svc1").run []).2 ∧
      ({ exampleConfig with Auth := "basic", Middleware := ⟨true, false, true, true, true⟩ } :
        ProjectConfig).Middleware.Auth = true ∧
      ((generateMiddlewareFiles World.allOk
        { exampleConfig with Auth := "basic", Middleware := ⟨true, false, true, true, true⟩ }
        "svc1").run []).1 = .ok () ∧
      "svc1/internal/middleware/auth.go" ∉
        filesOf ((generateMiddlewareFiles World.allOk
          { exampleConfig with Auth := "basic", Middleware := ⟨true, false, true, true, true⟩ }
          "svc1").run []).2 := by
  refine ⟨rfl, by rfl, by decide, rfl, by rfl, by decide⟩

/-- C18, amended: in a run of generateMiddlewareFiles that succeeds,
`internal/middleware/auth.go` is opened exactly when the auth method is `jwt`
(`cfg.Auth`); the flag `Middleware.Auth` is not consulted. -/
theorem generateMiddlewareFiles_auth_gate (w : World) (cfg : ProjectConfig) (pp : String)
    (tr : List Event) (hok : ((generateMiddlewareFiles w cfg pp).run tr).1 = .ok ()) :
    filepathJoin pp "internal/middleware/auth.go" ∈
        filesOf (newEvents tr ((generateMiddlewareFiles w cfg pp).run tr).2) ↔
      cfg.Auth = AuthJWT := by
  rw [generateMiddlewareFiles_eq] at hok ⊢
  rw [run_ok_new w _ tr hok]
  exact (mem_middleware_files cfg pp).1

set_option maxRecDepth 4096 in
theorem generateMiddlewareFiles_auth_gate_witness :
    ((generateMiddlewareFiles World.allOk exampleConfig "svc1").run []).1 = .ok () ∧
      ("svc1/internal/middleware/auth.go" ∈
          filesOf (newEvents [] ((generateMiddlewareFiles World.allOk exampleConfig
            "svc1").run []).2) ↔
        exampleConfig.Auth = AuthJWT) :=
  ⟨by rfl, generateMiddlewareFiles_auth_gate World.allOk exampleConfig "svc1" [] (by rfl)⟩

/-! ### Failures inside RenderToFile -/

/-- C19: when the template does not parse, RenderToFile returns an error having
attempted nothing but the creation of the directory and the parse: no file is
opened, and the status of every file, the destination included, is what it was
before the call. When the directory could be created the error is the parse
error, in the context `failed to parse template`. -/
theorem RenderToFile_parse_failure (w : World) (t p : String) (d : TemplateData)
    (tr : List Event) (hparse : ∀ h, w.outcome h (.parse t) ≠ none) :
    (∃ e, ((RenderToFile w t p d).run tr).1 = .error e) ∧
      (newEvents tr ((RenderToFile w t p d).run tr).2 = [.mkdirAll (filepathDir p)] ∨
        newEvents tr ((RenderToFile w t p d).run tr).2 =
          [.mkdirAll (filepathDir p), .parse t]) ∧
      filesOf (newEvents tr ((RenderToFile w t p d).run tr).2) = [] ∧
      (∀ q st, fileAfter w q tr (newEvents tr ((RenderToFile w t p d).run tr).2) st = st) ∧
      (w.outcome tr (.mkdirAll (filepathDir p)) = none →
        ∃ msg, ((RenderToFile w t p d).run tr).1 =
          .error (.wrap "failed to parse template" (.base msg))) := by
  rw [RenderToFile_eq]
  simp only [RenderToFile.plan, runOps_cons_run]
  have hm : w.result tr (.mkdirAll (filepathDir p)) = w.outcome tr (.mkdirAll (filepathDir p)) :=
    rfl
  have hp : w.result (tr ++ [.mkdirAll (filepathDir p)]) (.parse t) =
      w.outcome (tr ++ [.mkdirAll (filepathDir p)]) (.parse t) := rfl
  rw [hm, hp]
  cases h1 : w.outcome tr (.mkdirAll (filepathDir p)) with
  | some m1 =>
    simp only [newEvents_append]
    refine ⟨⟨_, rfl⟩, Or.inl trivial, rfl, ?_, ?_⟩
    · intro q st
      simp [fileAfter, Event.apply]
    · intro hx
      simp at hx
  | none =>
    cases h2 : w.outcome (tr ++ [.mkdirAll (filepathDir p)]) (.parse t) with
    | none => exact absurd h2 (hparse _)
    | some m2 =>
      simp only [List.append_assoc, List.singleton_append, newEvents_append]
      refine ⟨⟨_, rfl⟩, Or.inr trivial, rfl, ?_, ?_⟩
      · intro q st
        simp [fileAfter, Event.apply]
      · intro _
        exact ⟨m2, rfl⟩


theorem RenderToFile_parse_failure_witness :
    (∀ h, (World.failingParse "generateCoreFiles.goModTemplate" "unexpected EOF").outcome h
        (.parse "generateCoreFiles.goModTemplate") ≠ none) ∧
      fileAfter (World.failingParse "generateCoreFiles.goModTemplate" "unexpected EOF")
        "svc1/go.mod" []
        (newEvents [] ((RenderToFile
          (World.failingParse "generateCoreFiles.goModTemplate" "unexpected EOF")
          "generateCoreFiles.goModTemplate" "svc1/go.mod" (NewTemplateData exampleConfig)).run
            []).2) .absent = .absent :=
  ⟨fun _ => by simp [World.failingParse],
    (RenderToFile_parse_failure
      (World.failingParse "generateCoreFiles.goModTemplate" "unexpected EOF")
      "generateCoreFiles.goModTemplate" "svc1/go.mod" (NewTemplateData exampleConfig) []
      (fun _ => by simp [World.failingParse])).2.2.2.1 "svc1/go.mod" .absent⟩

/-- C20, counterexample: in a fresh project directory, where `svc1/go.mod` does
not exist, a template that parses and whose execution fails makes RenderToFile
return the execution error, and the destination file then exists, holding the
part of the output written before the failure. -/
theorem RenderToFile_execute_failure_leaves_file :
    ((RenderToFile (World.failingExecute "generateCoreFiles.goModTemplate" "missing field")
        "generateCoreFiles.goModTemplate" "svc1/go.mod" (NewTemplateData exampleConfig)).run
          []).1 =
        .error (.wrap "failed to execute template" (.base "missing field")) ∧
      fileAfter (World.failingExecute "generateCoreFiles.goModTemplate" "missing field")
        "svc1/go.mod" []
        ((RenderToFile (World.failingExecute "generateCoreFiles.goModTemplate" "missing field")
          "generateCoreFiles.goModTemplate" "svc1/go.mod" (NewTemplateData exampleConfig)).run
            []).2 .absent =
        .holds (.partialOutput "generateCoreFiles.goModTemplate" (NewTemplateData exampleConfig)) ∧
      FileStatus.holds
          (.partialOutput "generateCoreFiles.goModTemplate" (NewTemplateData exampleConfig)) ≠
        FileStatus.absent := by
  refine ⟨by rfl, by rfl, by decide⟩

/-- C20, amended: when the directory is created, the template parses, the file is
created and the execution of the template fails, RenderToFile returns the
execution error in the context `failed to execute template`, and nothing is
attempted after the failed execution: the destination file, created or truncated
by `os.Create`, is left holding the part of the output written before the
failure, whatever was at the path before. -/
theorem RenderToFile_execute_failure (w : World) (t p : String) (d : TemplateData)
    (tr : List Event) (msg : String) (st : FileStatus)
    (hmkdir : w.outcome tr (.mkdirAll (filepathDir p)) = none)
    (hparse : w.outcome (tr ++ [.mkdirAll (filepathDir p)]) (.parse t) = none)
    (hcreate : w.outcome (tr ++ [.mkdirAll (filepathDir p), .parse t]) (.create p) = none)
    (hexec : w.outcome (tr ++ [.mkdirAll (filepathDir p), .parse t, .create p])
      (.execute t p d) = some msg) :
    (RenderToFile w t p d).run tr =
        (.error (.wrap "failed to execute template" (.base msg)),
          tr ++ [.mkdirAll (filepathDir p), .parse t, .create p, .execute t p d]) ∧
      fileAfter w p tr (newEvents tr ((RenderToFile w t p d).run tr).2) st =
        .holds (.partialOutput t d) := by
  have hrun : (RenderToFile w t p d).run tr =
      (.error (.wrap "failed to execute template" (.base msg)),
        tr ++ [.mkdirAll (filepathDir p), .parse t, .create p, .execute t p d]) := by
    rw [RenderToFile_eq]
    simp only [RenderToFile.plan, runOps_cons_run, World.result, hmkdir, List.append_assoc,
      List.singleton_append, List.cons_append, List.nil_append, hparse, hcreate, hexec]
    rfl
  refine ⟨hrun, ?_⟩
  rw [hrun, newEvents_append]
  simp only [fileAfter, World.result, hmkdir, hparse, hcreate, hexec, List.append_assoc,
    List.singleton_append, List.cons_append, List.nil_append, Event.apply, Option.isNone_none, Option.isNone_some, and_self,
    if_true, Bool.false_eq_true, if_false]

theorem RenderToFile_execute_failure_witness :
    (RenderToFile (World.failingExecute "generateCoreFiles.goModTemplate" "missing field")
        "generateCoreFiles.goModTemplate" "svc1/go.mod" (NewTemplateData exampleConfig)).run
          [] =
      (.error (.wrap "failed to execute template" (.base "missing field")),
        [] ++ [.mkdirAll (filepathDir "svc1/go.mod"), .parse "generateCoreFiles.goModTemplate",
          .create "svc1/go.mod",
          .execute "generateCoreFiles.goModTemplate" "svc1/go.mod"
            (NewTemplateData exampleConfig)]) :=
  (RenderToFile_execute_failure
    (World.failingExecute "generateCoreFiles.goModTemplate" "missing field")
    "generateCoreFiles.goModTemplate" "svc1/go.mod" (NewTemplateData exampleConfig) []
    "missing field" .absent rfl rfl rfl rfl).1

/-! ### The end-to-end scenario -/

theorem Generate_ok_files (w : World) (cfg : ProjectConfig) (tr : List Event)
    (h : ((Generate w cfg).run tr).1 = .ok ()) :
    filesOf (newEvents tr ((Generate w cfg).run tr).2) =
      (Generate.relFiles cfg).map (filepathJoin (joinDot cfg.ProjectName)) := by
  rw [Generate_eq] at h ⊢
  rw [run_ok_new w _ tr h, filesOf_Generate_plan]

theorem Generate_ok_calls (w : World) (cfg : ProjectConfig) (tr : List Event)
    (h : ((Generate w cfg).run tr).1 = .ok ()) :
    generateFrameworkFiles.branch cfg ∈ callsOf (newEvents tr ((Generate w cfg).run tr).2) := by
  rw [Generate_eq] at h ⊢
  rw [run_ok_new w _ tr h, callsOf_Generate_plan]
  simp

/-- With GORM the plan of `Generate` executes the database template into
`pkg/database/database.go` with the template data of the configuration. -/
theorem Generate_plan_database_execute (cfg : ProjectConfig) (horm : cfg.ORM = ORMGorm) :
    Event.execute "generateDatabaseFiles.dbTemplate"
        (filepathJoin (joinDot cfg.ProjectName) "pkg/database/database.go")
        (NewTemplateData cfg) ∈ planEvents (Generate.plan cfg) := by
  simp only [Generate.plan, planEvents_append, planEvents_within, List.mem_append]
  right; right; right; right; right; left
  simp [generateDatabaseFiles.plan, horm, planEvents, RenderToFile.plan]

/-- C21: for every configuration named `svc1` with Gin, GORM, PostgreSQL, the
simple architecture, testing and Docker, whatever its remaining fields, a run of
`Generate` in which no step fails writes, among others, `go.mod`, `main.go`,
`internal/app/app.go`, `pkg/database/database.go`, `internal/models/user.go`,
`Dockerfile` and `main_test.go` under `svc1`; the framework file comes from the
Gin generator, and the database file is rendered with template data whose
database is `postgresql`. -/
theorem Generate_scenario_files (w : World) (cfg : ProjectConfig) (tr : List Event)
    (hname : cfg.ProjectName = "svc1") (hfw : cfg.Framework = "gin") (horm : cfg.ORM = "gorm")
    (hdb : cfg.Database = "postgresql") (harch : cfg.Architecture = "simple")
    (htest : cfg.Testing = true) (hdocker : cfg.Docker = true)
    (hok : ((Generate w cfg).run tr).1 = .ok ()) :
    (∀ p ∈ ["svc1/go.mod", "svc1/main.go", "svc1/internal/app/app.go",
        "svc1/pkg/database/database.go", "svc1/internal/models/user.go", "svc1/Dockerfile",
        "svc1/main_test.go"],
      p ∈ filesOf (newEvents tr ((Generate w cfg).run tr).2)) ∧
    "generateGinFiles" ∈ callsOf (newEvents tr ((Generate w cfg).run tr).2) ∧
    ∃ data : TemplateData, data.Database = "postgresql" ∧
      Event.execute "generateDatabaseFiles.dbTemplate" "svc1/pkg/database/database.go" data ∈
        newEvents tr ((Generate w cfg).run tr).2 := by
  have hmp : generateModels.modelPath cfg = "internal/models" := by
    simp [generateModels.modelPath, harch, ArchSimple]
  have hrel : ∀ r ∈ ["go.mod", "main.go", "internal/app/app.go", "pkg/database/database.go",
      "internal/models/user.go", "Dockerfile", "main_test.go"], r ∈ Generate.relFiles cfg := by
    intro r hr
    simp only [Generate.relFiles, hmp, horm, htest, hdocker, ORMGorm, if_true, List.mem_append,
      List.mem_cons]
    simp only [List.mem_cons, List.mem_singleton, List.not_mem_nil, or_false] at hr
    rcases hr with rfl | rfl | rfl | rfl | rfl | rfl | rfl <;> simp
  refine ⟨?_, ?_, ?_⟩
  · rw [Generate_ok_files w cfg tr hok, hname]
    intro p hp
    simp only [List.mem_cons, List.mem_singleton, List.not_mem_nil, or_false] at hp
    rw [List.mem_map]
    rcases hp with rfl | rfl | rfl | rfl | rfl | rfl | rfl
    · exact ⟨"go.mod", hrel _ (by decide), by decide⟩
    · exact ⟨"main.go", hrel _ (by decide), by decide⟩
    · exact ⟨"internal/app/app.go", hrel _ (by decide), by decide⟩
    · exact ⟨"pkg/database/database.go", hrel _ (by decide), by decide⟩
    · exact ⟨"internal/models/user.go", hrel _ (by decide), by decide⟩
    · exact ⟨"Dockerfile", hrel _ (by decide), by decide⟩
    · exact ⟨"main_test.go", hrel _ (by decide), by decide⟩
  · have hb : generateFrameworkFiles.branch cfg = "generateGinFiles" := by
      simp [generateFrameworkFiles.branch, hfw, FrameworkGin]
    rw [← hb]
    exact Generate_ok_calls w cfg tr hok
  · refine ⟨NewTemplateData cfg, hdb, ?_⟩
    have hp := Generate_plan_database_execute cfg horm
    rw [hname] at hp
    rw [Generate_eq] at hok ⊢
    rw [run_ok_new w _ tr hok]
    exact hp

set_option maxRecDepth 8192 in
theorem Generate_scenario_files_witness :
    ((Generate World.allOk exampleConfig).run []).1 = .ok () ∧
      "svc1/pkg/database/database.go" ∈
        filesOf (newEvents [] ((Generate World.allOk exampleConfig).run []).2) :=
  ⟨by rfl, (Generate_scenario_files World.allOk exampleConfig [] rfl rfl rfl rfl rfl rfl rfl
    (by rfl)).1 _ (by decide)⟩

/-! ### Switching the data-access layer off -/

theorem filter_ite_nil {α : Type} (p : α → Bool) (c : Prop) [Decidable c] (l : List α) :
    List.filter p (if c then l else []) = if c then List.filter p l else [] := by
  split <;> rfl

/-- The relative paths without the data-access layer are those with GORM less the
database file and the user handler test. -/
theorem relFiles_without_orm (cfg : ProjectConfig) (horm : cfg.ORM = ORMGorm) :
    Generate.relFiles { cfg with ORM := ORMNone, Database := "" } =
      (Generate.relFiles cfg).filter fun r =>
        decide (r ≠ "pkg/database/database.go") && decide (r ≠ "test/handlers/user_test.go") := by
  have hng : ¬ (ORMNone = ORMGorm) := by decide
  have hgn : ¬ (ORMGorm = ORMNone) := by decide
  have hmp : generateModels.modelPath { cfg with ORM := ORMNone, Database := "" } =
      generateModels.modelPath cfg := rfl
  simp only [Generate.relFiles, hmp, horm, hng, hgn, if_false, if_true, ne_eq,
    not_true_eq_false, and_false, not_false_eq_true, and_true, List.nil_append]
  rcases modelPath_cases cfg with hm | hm | hm <;> rw [hm] <;>
    simp [List.filter_append, filter_ite_nil, List.filter_cons] <;> split <;> simp

/-- C22 (amended): for every configuration with ORM = gorm, changing only the
data-access layer to none (with the database cleared) removes two paths from the
files written by a run in which no step fails, the database wiring file
`pkg/database/database.go` and the user handler test
`test/handlers/user_test.go`, and keeps every other: a path is written without
the data-access layer exactly when it is written with GORM and is neither of the
two. -/
theorem Generate_without_orm (cfg : ProjectConfig) (horm : cfg.ORM = ORMGorm)
    (w w' : World) (tr tr' : List Event)
    (hok : ((Generate w cfg).run tr).1 = .ok ())
    (hok' : ((Generate w' { cfg with ORM := ORMNone, Database := "" }).run tr').1 = .ok ())
    (p : String) :
    p ∈ filesOf (newEvents tr'
        ((Generate w' { cfg with ORM := ORMNone, Database := "" }).run tr').2) ↔
      p ∈ filesOf (newEvents tr ((Generate w cfg).run tr).2) ∧
        p ≠ filepathJoin (joinDot cfg.ProjectName) "pkg/database/database.go" ∧
        p ≠ filepathJoin (joinDot cfg.ProjectName) "test/handlers/user_test.go" := by
  rw [Generate_eq] at hok hok' ⊢
  rw [Generate_eq, run_ok_new _ _ _ hok, run_ok_new _ _ _ hok', filesOf_Generate_plan,
    filesOf_Generate_plan, relFiles_without_orm cfg horm]
  simp only [List.mem_map, List.mem_filter, Bool.and_eq_true, decide_eq_true_eq]
  constructor
  · rintro ⟨r, ⟨hr, h1, h2⟩, rfl⟩
    exact ⟨⟨r, hr, rfl⟩, fun h => h1 (filepathJoin_injective _ h),
      fun h => h2 (filepathJoin_injective _ h)⟩
  · rintro ⟨⟨r, hr, rfl⟩, h1, h2⟩
    exact ⟨r, ⟨hr, fun h => h1 (by rw [h]), fun h => h2 (by rw [h])⟩, rfl⟩

set_option maxRecDepth 8192 in
set_option maxHeartbeats 1000000 in
theorem Generate_without_orm_witness :
    exampleConfig.ORM = ORMGorm ∧
      ((Generate World.allOk exampleConfig).run []).1 = .ok () ∧
      ((Generate World.allOk { exampleConfig with ORM := ORMNone, Database := "" }).run []).1 =
        .ok () ∧
      "svc1/main.go" ∈ filesOf (newEvents []
        ((Generate World.allOk { exampleConfig with ORM := ORMNone, Database := "" }).run
          []).2) :=
  ⟨rfl, by rfl, by rfl,
    (Generate_without_orm exampleConfig rfl World.allOk World.allOk [] [] (by rfl) (by rfl)
      "svc1/main.go").mpr ⟨by decide, by decide, by decide⟩⟩

set_option maxRecDepth 8192 in
set_option maxHeartbeats 1000000 in
/-- C22 (counterexample): with the scenario configuration, whose ORM is gorm and
which has testing on, the user handler test `svc1/test/handlers/user_test.go` is
not the database wiring file and is written with GORM, yet it is not written once
the data-access layer is none and the database cleared; both runs succeed. -/
theorem Generate_without_orm_drops_user_test :
    exampleConfig.ORM = ORMGorm ∧
      ((Generate World.allOk exampleConfig).run []).1 = .ok () ∧
      ((Generate World.allOk { exampleConfig with ORM := ORMNone, Database := "" }).run []).1 =
        .ok () ∧
      "svc1/test/handlers/user_test.go" ≠ "svc1/pkg/database/database.go" ∧
      "svc1/test/handlers/user_test.go" ∈
        filesOf ((Generate World.allOk exampleConfig).run []).2 ∧
      "svc1/test/handlers/user_test.go" ∉
        filesOf ((Generate World.allOk
          { exampleConfig with ORM := ORMNone, Database := "" }).run []).2 := by
  refine ⟨rfl, by rfl, by rfl, by decide, by decide, by decide⟩

/-! ### The planner as a function of the configuration -/

/-- The planner's list for any architecture value, in terms of the five fields it
reads. -/
theorem dirs_eq_of_fields (cfg : ProjectConfig) :
    generateDirectoryStructure.dirs cfg =
      generateDirectoryStructure.dirs
        { ProjectConfig.zero with
          Architecture := cfg.Architecture
          Testing := cfg.Testing
          Features := { FeaturesConfig.zero with
            Swagger := cfg.Features.Swagger
            StaticFiles := cfg.Features.StaticFiles
            I18n := cfg.Features.I18n } } := rfl

theorem baseLayout_injective (a b : String) (ha : a ∈ validArchs) (hb : b ∈ validArchs)
    (h : baseLayout a = baseLayout b) : a = b := by
  simp only [validArchs, List.mem_cons, List.mem_singleton, List.not_mem_nil, or_false] at ha hb
  rcases ha with rfl | rfl | rfl | rfl | rfl <;> rcases hb with rfl | rfl | rfl | rfl | rfl <;>
    first
      | rfl
      | exact absurd h (by decide)

theorem baseLayout_ne_nil (a : String) (ha : a ∈ validArchs) : baseLayout a ≠ [] := by
  simp only [validArchs, List.mem_cons, List.mem_singleton, List.not_mem_nil, or_false] at ha
  rcases ha with rfl | rfl | rfl | rfl | rfl <;> decide

/-- C23: for each of the five architecture values the planner selects a
non-empty base layout, with which its directory list begins; and of two
configurations with architectures in the domain and the same four flags, those
with different architectures get different directory lists. -/
theorem planner_total_and_injective (c₁ c₂ : ProjectConfig)
    (h₁ : c₁.Architecture ∈ validArchs) (h₂ : c₂.Architecture ∈ validArchs)
    (hs : c₁.Features.Swagger = c₂.Features.Swagger) (ht : c₁.Testing = c₂.Testing)
    (hf : c₁.Features.StaticFiles = c₂.Features.StaticFiles)
    (hi : c₁.Features.I18n = c₂.Features.I18n) :
    baseLayout c₁.Architecture ≠ [] ∧
      baseLayout c₁.Architecture <+: generateDirectoryStructure.dirs c₁ ∧
      (c₁.Architecture ≠ c₂.Architecture →
        generateDirectoryStructure.dirs c₁ ≠ generateDirectoryStructure.dirs c₂) := by
  refine ⟨baseLayout_ne_nil _ h₁, ?_, ?_⟩
  · rw [dirs_eq_base_append c₁ h₁]
    exact List.prefix_append _ _
  · intro hne heq
    rw [dirs_eq_base_append c₁ h₁, dirs_eq_base_append c₂ h₂, hs, ht, hf, hi] at heq
    exact hne (baseLayout_injective _ _ h₁ h₂ (List.append_cancel_right heq))

set_option maxRecDepth 4096 in
theorem planner_total_and_injective_witness :
    exampleConfig.Architecture ∈ validArchs ∧
      ({ exampleConfig with Architecture := "clean" } : ProjectConfig).Architecture ∈
        validArchs ∧
      generateDirectoryStructure.dirs exampleConfig ≠
        generateDirectoryStructure.dirs { exampleConfig with Architecture := "clean" } :=
  ⟨by decide, by decide,
    (planner_total_and_injective exampleConfig { exampleConfig with Architecture := "clean" }
      (by decide) (by decide) rfl rfl rfl rfl).2.2 (by decide)⟩

/-- C24: two configurations that agree on Architecture, Features.Swagger,
Testing, Features.StaticFiles and Features.I18n get the same planned directory
list, in the same order, whatever their other fields; the list is a function of
the configuration, so planning one configuration again gives the same list. -/
theorem dirs_depends_on_five_fields (c₁ c₂ : ProjectConfig)
    (ha : c₁.Architecture = c₂.Architecture)
    (hs : c₁.Features.Swagger = c₂.Features.Swagger)
    (ht : c₁.Testing = c₂.Testing)
    (hf : c₁.Features.StaticFiles = c₂.Features.StaticFiles)
    (hi : c₁.Features.I18n = c₂.Features.I18n) :
    generateDirectoryStructure.dirs c₁ = generateDirectoryStructure.dirs c₂ := by
  rw [dirs_eq_of_fields c₁, dirs_eq_of_fields c₂, ha, hs, ht, hf, hi]

theorem dirs_depends_on_five_fields_witness :
    generateDirectoryStructure.dirs exampleConfig =
      generateDirectoryStructure.dirs
        { exampleConfig with
          ProjectName := "other", Framework := "echo", ORM := "none", Database := "",
          Docker := false, CICD := "none", Middleware := ⟨false, true, false, true, false⟩ } :=
  dirs_depends_on_five_fields exampleConfig _ rfl rfl rfl rfl rfl

/-! ### The template function capitalize -/

theorem ascii_char_cases (c : Char) (h : c.toNat < 128) :
    ∃ n, n < 128 ∧ c = Char.ofNat n :=
  ⟨c.toNat, h, (Char.ofNat_toNat c).symm⟩

set_option maxRecDepth 100000 in
theorem ascii_case_facts : ∀ n, n < 128 →
    (Char.ofNat n).toUpper.toNat < 128 ∧ (Char.ofNat n).toLower.toNat < 128 ∧
    (Char.ofNat n).toUpper.toUpper = (Char.ofNat n).toUpper ∧
    (Char.ofNat n).toLower.toLower = (Char.ofNat n).toLower := by
  decide

theorem capitalize_cons (c : Char) (cs : List Char) :
    capitalize (String.mk (c :: cs)) = String.mk (c.toUpper :: cs.map Char.toLower) := by
  apply String.ext
  simp [capitalize, stringsToUpper, stringsToLower, String.length]

theorem ascii_toUpper (c : Char) (h : c.toNat < 128) :
    c.toUpper.toNat < 128 ∧ c.toUpper.toUpper = c.toUpper := by
  obtain ⟨n, hn, rfl⟩ := ascii_char_cases c h
  exact ⟨(ascii_case_facts n hn).1, (ascii_case_facts n hn).2.2.1⟩

theorem ascii_toLower (c : Char) (h : c.toNat < 128) :
    c.toLower.toNat < 128 ∧ c.toLower.toLower = c.toLower := by
  obtain ⟨n, hn, rfl⟩ := ascii_char_cases c h
  exact ⟨(ascii_case_facts n hn).2.1, (ascii_case_facts n hn).2.2.2⟩

/-- C25: capitalize maps the empty string to itself, and for every ASCII string
`s` it returns an ASCII string of the same length whose first character is the
capital of the first character of `s` and whose remaining characters are the
small letters of the remaining characters of `s`; capitalizing the result again
changes nothing. -/
theorem capitalize_ascii (s : String) (hs : isASCII s = true) :
    capitalize "" = "" ∧
      (capitalize s).length = s.length ∧
      (capitalize s).data.head? = s.data.head?.map Char.toUpper ∧
      (capitalize s).data.tail = s.data.tail.map Char.toLower ∧
      isASCII (capitalize s) = true ∧
      capitalize (capitalize s) = capitalize s := by
  refine ⟨rfl, ?_⟩
  rcases s with ⟨l⟩
  cases l with
  | nil => exact ⟨rfl, rfl, rfl, rfl, rfl⟩
  | cons c cs =>
    simp only [isASCII, List.all_cons, Bool.and_eq_true, decide_eq_true_eq, List.all_eq_true]
      at hs
    obtain ⟨hc, hcs⟩ := hs
    rw [capitalize_cons, capitalize_cons]
    refine ⟨?_, rfl, rfl, ?_, ?_⟩
    · simp [String.length]
    · simp only [isASCII, List.all_cons, Bool.and_eq_true, decide_eq_true_eq, List.all_eq_true,
        List.mem_map]
      refine ⟨(ascii_toUpper c hc).1, ?_⟩
      rintro x ⟨y, hy, rfl⟩
      exact (ascii_toLower y (hcs y hy)).1
    · rw [(ascii_toUpper c hc).2, List.map_map]
      congr 2
      apply List.map_congr_left
      intro y hy
      exact (ascii_toLower y (hcs y hy)).2

theorem capitalize_ascii_witness :
    isASCII "hELLO wORLD" = true ∧ capitalize "hELLO wORLD" = "Hello world" ∧
      capitalize (capitalize "hELLO wORLD") = capitalize "hELLO wORLD" :=
  ⟨by decide, by decide, (capitalize_ascii "hELLO wORLD" (by decide)).2.2.2.2.2⟩

/-! ### The database file and the model directory -/

/-- C26: generateDatabaseFiles writes the database wiring file
`pkg/database/database.go` exactly when ORM = gorm. For every other ORM value
(sqlx, raw, none or anything else), whatever the database, it does nothing but
return success, in every world; with gorm a run in which no step fails writes
this file and no other; and when no operation fails the run succeeds. -/
theorem generateDatabaseFiles_gorm_only (w : World) (cfg : ProjectConfig) (pp : String)
    (tr : List Event) :
    (cfg.ORM ≠ ORMGorm →
      (generateDatabaseFiles w cfg pp).run tr =
        (.ok (), tr ++ [.call "generateDatabaseFiles"])) ∧
    (((generateDatabaseFiles w cfg pp).run tr).1 = .ok () →
      (filepathJoin pp "pkg/database/database.go" ∈
          filesOf (newEvents tr ((generateDatabaseFiles w cfg pp).run tr).2) ↔
        cfg.ORM = ORMGorm)) ∧
    (cfg.ORM = ORMGorm → ((generateDatabaseFiles w cfg pp).run tr).1 = .ok () →
      filesOf (newEvents tr ((generateDatabaseFiles w cfg pp).run tr).2) =
        [filepathJoin pp "pkg/database/database.go"]) ∧
    ((generateDatabaseFiles World.allOk cfg pp).run tr).1 = .ok () := by
  have hfiles : filesOf (planEvents (generateDatabaseFiles.plan cfg pp)) =
      if cfg.ORM = ORMGorm then [filepathJoin pp "pkg/database/database.go"] else [] := by
    simp only [generateDatabaseFiles.plan, planEvents_append, planEvents_ite, filesOf_append,
      filesOf_ite, filesOf_RenderToFile, filesOf_callOp, filesOf_nil, planEvents_nil,
      List.nil_append]
  refine ⟨?_, ?_, ?_, ?_⟩
  · intro hg
    rw [generateDatabaseFiles_eq]
    simp only [generateDatabaseFiles.plan, hg, if_false, List.append_nil, callOp]
    rw [runOps_cons_run]
    rfl
  · intro hok
    rw [generateDatabaseFiles_eq] at hok ⊢
    rw [run_ok_new w _ tr hok, hfiles, mem_ite_nil]
    simp
  · intro hg hok
    rw [generateDatabaseFiles_eq] at hok ⊢
    rw [run_ok_new w _ tr hok, hfiles, if_pos hg]
  · rw [generateDatabaseFiles_eq, runOps_allOk]

theorem generateDatabaseFiles_gorm_only_witness :
    (generateDatabaseFiles World.allOk { exampleConfig with ORM := "sqlx" } "svc1").run [] =
        (.ok (), [.call "generateDatabaseFiles"]) ∧
      (generateDatabaseFiles World.allOk { exampleConfig with ORM := "raw" } "svc1").run [] =
        (.ok (), [.call "generateDatabaseFiles"]) :=
  ⟨(generateDatabaseFiles_gorm_only World.allOk { exampleConfig with ORM := "sqlx" } "svc1"
      []).1 (by decide),
    (generateDatabaseFiles_gorm_only World.allOk { exampleConfig with ORM := "raw" } "svc1"
      []).1 (by decide)⟩

theorem modelPath_planned (cfg : ProjectConfig)
    (h : cfg.Architecture = ArchSimple ∨ cfg.Architecture = ArchClean ∨
      cfg.Architecture = ArchMVC) :
    generateModels.modelPath cfg ∈ generateDirectoryStructure.dirs cfg := by
  have hv : cfg.Architecture ∈ validArchs := by
    rcases h with h | h | h <;> rw [h] <;> decide
  rw [dirs_eq_base_append cfg hv]
  apply List.mem_append_left
  unfold generateModels.modelPath
  rcases h with h | h | h <;> rw [h] <;> decide

/-- The events of the plan of generateModels, for any architecture value. -/
theorem planEvents_generateModels (cfg : ProjectConfig) (pp : String) :
    planEvents (generateModels.plan cfg pp) =
      [.call "generateModels",
        .mkdirAll (filepathJoin pp (generateModels.modelPath cfg)),
        .parse "generateModels.userModelTemplate",
        .create (filepathJoin (filepathJoin pp (generateModels.modelPath cfg)) "user.go"),
        .execute "generateModels.userModelTemplate"
          (filepathJoin (filepathJoin pp (generateModels.modelPath cfg)) "user.go")
          (NewTemplateData cfg),
        .mkdirAll (filepathJoin pp (generateModels.modelPath cfg)),
        .parse "generateModels.responseTemplate",
        .create (filepathJoin (filepathJoin pp (generateModels.modelPath cfg)) "response.go"),
        .execute "generateModels.responseTemplate"
          (filepathJoin (filepathJoin pp (generateModels.modelPath cfg)) "response.go")
          (NewTemplateData cfg)] := by
  have hu : filepathDir
      (filepathJoin (filepathJoin pp (generateModels.modelPath cfg)) "user.go") =
      filepathJoin pp (generateModels.modelPath cfg) :=
    filepathDir_filepathJoin _ _ (filepathJoin_ne_empty _ _) (by decide)
  have hr : filepathDir
      (filepathJoin (filepathJoin pp (generateModels.modelPath cfg)) "response.go") =
      filepathJoin pp (generateModels.modelPath cfg) :=
    filepathDir_filepathJoin _ _ (filepathJoin_ne_empty _ _) (by decide)
  simp only [generateModels.plan, planEvents, RenderToFile.plan, callOp, hu, hr,
    List.map_cons, List.map_nil, List.cons_append, List.nil_append]

/-- C27 (amended): for the architectures simple, clean and mvc the directory
into which generateModels writes `user.go` and `response.go` is one of the
directories the planner returns for that architecture. For every architecture
value, planned or not, a run of generateModels in which no step fails creates
that directory itself, through the `os.MkdirAll` of `RenderToFile`, before it
creates each of the two files in it. -/
theorem generateModels_directory (w : World) (cfg : ProjectConfig) (pp : String)
    (tr : List Event) (hok : ((generateModels w cfg pp).run tr).1 = .ok ()) :
    (cfg.Architecture = ArchSimple ∨ cfg.Architecture = ArchClean ∨
        cfg.Architecture = ArchMVC →
      generateModels.modelPath cfg ∈ generateDirectoryStructure.dirs cfg) ∧
    newEvents tr ((generateModels w cfg pp).run tr).2 =
      [.call "generateModels",
        .mkdirAll (filepathJoin pp (generateModels.modelPath cfg)),
        .parse "generateModels.userModelTemplate",
        .create (filepathJoin (filepathJoin pp (generateModels.modelPath cfg)) "user.go"),
        .execute "generateModels.userModelTemplate"
          (filepathJoin (filepathJoin pp (generateModels.modelPath cfg)) "user.go")
          (NewTemplateData cfg),
        .mkdirAll (filepathJoin pp (generateModels.modelPath cfg)),
        .parse "generateModels.responseTemplate",
        .create (filepathJoin (filepathJoin pp (generateModels.modelPath cfg)) "response.go"),
        .execute "generateModels.responseTemplate"
          (filepathJoin (filepathJoin pp (generateModels.modelPath cfg)) "response.go")
          (NewTemplateData cfg)] := by
  refine ⟨modelPath_planned cfg, ?_⟩
  rw [generateModels_eq] at hok ⊢
  rw [run_ok_new w _ tr hok, planEvents_generateModels]

set_option maxRecDepth 8192 in
theorem generateModels_directory_witness :
    ((generateModels World.allOk { exampleConfig with Architecture := "mvc" } "svc1").run
        []).1 = .ok () ∧
      generateModels.modelPath { exampleConfig with Architecture := "mvc" } ∈
        generateDirectoryStructure.dirs { exampleConfig with Architecture := "mvc" } :=
  ⟨by rfl,
    (generateModels_directory World.allOk { exampleConfig with Architecture := "mvc" } "svc1" []
      (by rfl)).1 (Or.inr (Or.inr rfl))⟩

set_option maxRecDepth 4096 in
/-- C27 (counterexample): for the hexagonal architecture the model directory is
`internal/core/domain`, which is not among the planned directories, and for the
custom architecture it is `internal/models`, which is not planned either. -/
theorem modelPath_not_planned :
    generateModels.modelPath { exampleConfig with Architecture := "hexagonal" } =
        "internal/core/domain" ∧
      "internal/core/domain" ∉
        generateDirectoryStructure.dirs { exampleConfig with Architecture := "hexagonal" } ∧
      generateModels.modelPath { exampleConfig with Architecture := "custom" } =
        "internal/models" ∧
      "internal/models" ∉
        generateDirectoryStructure.dirs { exampleConfig with Architecture := "custom" } := by
  decide

/-! ### The flag path of runInit -/

theorem isValidProjectName_ne_empty (s : String) (h : isValidProjectName s = true) : s ≠ "" := by
  rintro rfl
  exact absurd h (by decide)

/-- What success of validateAndSetDefaults says of the resulting fields. -/
theorem validateAndSetDefaults_ok_valid (cfg : ProjectConfig)
    (h : (validateAndSetDefaults cfg).1 = none) :
    isValidProjectName (validateAndSetDefaults cfg).2.ProjectName = true ∧
      isValidFramework (validateAndSetDefaults cfg).2.Framework = true ∧
      isValidORM (validateAndSetDefaults cfg).2.ORM = true ∧
      (((validateAndSetDefaults cfg).2.Database = "" ∧
          (validateAndSetDefaults cfg).2.ORM = ORMNone) ∨
        isValidDatabase (validateAndSetDefaults cfg).2.Database = true) ∧
      isValidArchitecture (validateAndSetDefaults cfg).2.Architecture = true := by
  obtain ⟨hf, ho, hd, ha, -⟩ := validateAndSetDefaults_ok_fields cfg h
  obtain ⟨en, ef, eo, ed, ea⟩ := (validateAndSetDefaults_fst cfg).mp h
  rw [validateAndSetDefaults_snd_name, hf, ho, hd, ha]
  refine ⟨?_, ?_, ?_, ?_, ?_⟩
  · by_cases e0 : cfg.ProjectName = ""
    · rw [if_pos e0]; decide
    · rw [if_neg e0]; exact en.resolve_left e0
  · by_cases e0 : cfg.Framework = ""
    · rw [if_pos e0]; decide
    · rw [if_neg e0]; exact ef.resolve_left e0
  · by_cases e0 : cfg.ORM = ""
    · rw [if_pos e0]; decide
    · rw [if_neg e0]; exact eo.resolve_left e0
  · by_cases d0 : cfg.Database = ""
    · by_cases o0 : (if cfg.ORM = "" then ORMGorm else cfg.ORM) = ORMNone
      · left
        rw [if_neg (by simp [o0])]
        exact ⟨d0, o0⟩
      · right
        rw [if_pos ⟨d0, o0⟩]; decide
    · right
      rw [if_neg (by simp [d0])]
      exact ed.resolve_left d0
  · by_cases e0 : cfg.Architecture = ""
    · rw [if_pos e0]; decide
    · rw [if_neg e0]; exact ea.resolve_left e0

theorem validateAndSetDefaults_ok_modulePath (cfg : ProjectConfig)
    (h : (validateAndSetDefaults cfg).1 = none) :
    (validateAndSetDefaults cfg).2.ModulePath =
      "github.com/username/" ++ (validateAndSetDefaults cfg).2.ProjectName := by
  rw [validateAndSetDefaults_snd_of_ok cfg h]
  simp only [validateAndSetDefaults.rest]

theorem isValidDatabase_ne_empty (s : String) (h : isValidDatabase s = true) : s ≠ "" := by
  rintro rfl
  exact absurd h (by decide)

/-- After a successful validateAndSetDefaults the common validation succeeds too,
and leaves a configuration whose database is empty exactly when the ORM is none. -/
theorem validateProjectConfig_after_defaults (cfg : ProjectConfig)
    (h : (validateAndSetDefaults cfg).1 = none) :
    (validateProjectConfig (validateAndSetDefaults cfg).2).1 = none ∧
      ((validateProjectConfig (validateAndSetDefaults cfg).2).2.1.Database = "" ↔
        (validateProjectConfig (validateAndSetDefaults cfg).2).2.1.ORM = ORMNone) := by
  obtain ⟨hn, -, -, hd, -⟩ := validateAndSetDefaults_ok_valid cfg h
  have hmp := validateAndSetDefaults_ok_modulePath cfg h
  have hne := isValidProjectName_ne_empty _ hn
  have hmne : (validateAndSetDefaults cfg).2.ModulePath ≠ "" := by
    rw [hmp]
    intro h0
    have := congrArg String.length h0
    rw [String.length_append] at this
    have h20 : "github.com/username/".length = 20 := by decide
    have h00 : "".length = 0 := by decide
    omega
  generalize (validateAndSetDefaults cfg).2 = c at hne hmne hd
  rcases c with ⟨pn, mp, fw, orm, db, arch, conf, auth, log, testing, docker, cicd, mw, ft⟩
  simp only at hne hmne hd
  unfold validateProjectConfig
  simp only [hne, hmne, if_false]
  by_cases ho : orm = ORMNone
  · by_cases hdb : db = "" <;> simp [ho, hdb]
  · rcases hd with ⟨-, h2⟩ | h2
    · exact absurd h2 ho
    · have := isValidDatabase_ne_empty _ h2
      simp [ho, this]


theorem validateAndSetDefaults.name_of_valid (c : ProjectConfig)
    (h : isValidProjectName c.ProjectName = true) :
    validateAndSetDefaults.name c = (none, c) := by
  have hne := isValidProjectName_ne_empty _ h
  simp only [validateAndSetDefaults.name, hne, if_false, h, Bool.not_true, Bool.false_eq_true]

theorem validateAndSetDefaults.framework_of_valid (c : ProjectConfig)
    (h : isValidFramework c.Framework = true) :
    validateAndSetDefaults.framework c = (none, c) := by
  have hne : c.Framework ≠ "" := by
    intro h0
    rw [h0] at h
    exact absurd h (by decide)
  simp only [validateAndSetDefaults.framework, hne, if_false, h, Bool.not_true,
    Bool.false_eq_true]

theorem validateAndSetDefaults.orm_of_valid (c : ProjectConfig)
    (h : isValidORM c.ORM = true) :
    validateAndSetDefaults.orm c = (none, c) := by
  have hne : c.ORM ≠ "" := by
    intro h0
    rw [h0] at h
    exact absurd h (by decide)
  simp only [validateAndSetDefaults.orm, hne, if_false, h, Bool.not_true, Bool.false_eq_true]

theorem validateAndSetDefaults.database_of_valid (c : ProjectConfig)
    (h : (c.Database = "" ∧ c.ORM = ORMNone) ∨ isValidDatabase c.Database = true) :
    validateAndSetDefaults.database c = (none, c) := by
  rcases h with ⟨h1, h2⟩ | h
  · simp [validateAndSetDefaults.database, h1, h2]
  · have hne := isValidDatabase_ne_empty _ h
    simp [validateAndSetDefaults.database, hne, h]

theorem validateAndSetDefaults.architecture_of_valid (c : ProjectConfig)
    (h : isValidArchitecture c.Architecture = true) :
    validateAndSetDefaults.architecture c = (none, c) := by
  have hne : c.Architecture ≠ "" := by
    intro h0
    rw [h0] at h
    exact absurd h (by decide)
  simp only [validateAndSetDefaults.architecture, hne, if_false, h, Bool.not_true,
    Bool.false_eq_true]

theorem validateAndSetDefaults.rest_rest (c : ProjectConfig) :
    validateAndSetDefaults.rest (validateAndSetDefaults.rest c) =
      validateAndSetDefaults.rest c := rfl

theorem runInit_prepare_of_ok (flags : Flags) (args : List String)
    (collected : Except String ProjectConfig) (c : ProjectConfig)
    (hni : (!flags.interactive ||
      (flags.framework != "" || flags.orm != "" || flags.database != "" || flags.arch != "")) =
      true)
    (h : validateAndSetDefaults { ProjectConfig.zero with
        ProjectName := args.headD "", Framework := flags.framework, ORM := flags.orm,
        Database := flags.database, Architecture := flags.arch } = (none, c))
    (hv : (validateProjectConfig c).1 = none) :
    runInit.prepare flags args collected = .ok (validateProjectConfig c).2.1 := by
  unfold runInit.prepare
  cases args with
  | nil =>
    simp only [List.headD_nil] at h
    simp only [hni, Bool.not_true, Bool.false_eq_true, if_false, h]
    generalize validateProjectConfig c = v at hv ⊢
    rcases v with ⟨e2, c2, ws⟩
    simp only at hv
    subst hv
    rfl
  | cons a l =>
    simp only [List.headD_cons] at h
    simp only [hni, Bool.not_true, Bool.false_eq_true, if_false, h]
    generalize validateProjectConfig c = v at hv ⊢
    rcases v with ⟨e2, c2, ws⟩
    simp only at hv
    subst hv
    rfl

/-- C28: on the flag path of runInit (interactive mode off, or one of the four
flags given), whenever validateAndSetDefaults succeeds on the configuration built
from the flags, validateProjectConfig succeeds on its result, so that the
preparation returns a configuration; and in that final configuration Database is
empty if and only if ORM is none. -/
theorem runInit_flag_path (flags : Flags) (args : List String)
    (collected : Except String ProjectConfig)
    (hflag : (!flags.interactive ||
      (flags.framework != "" || flags.orm != "" || flags.database != "" || flags.arch != "")) =
      true)
    (h : (validateAndSetDefaults { ProjectConfig.zero with
        ProjectName := args.headD "", Framework := flags.framework, ORM := flags.orm,
        Database := flags.database, Architecture := flags.arch }).1 = none) :
    (validateProjectConfig (validateAndSetDefaults { ProjectConfig.zero with
        ProjectName := args.headD "", Framework := flags.framework, ORM := flags.orm,
        Database := flags.database, Architecture := flags.arch }).2).1 = none ∧
    ∃ final : ProjectConfig, runInit.prepare flags args collected = .ok final ∧
      (final.Database = "" ↔ final.ORM = ORMNone) := by
  obtain ⟨hv, hiff⟩ := validateProjectConfig_after_defaults _ h
  refine ⟨hv, _, runInit_prepare_of_ok flags args collected _ hflag ?_ hv, hiff⟩
  exact Prod.ext h rfl

set_option maxRecDepth 8192 in
theorem runInit_flag_path_witness :
    ∃ final : ProjectConfig,
      runInit.prepare ⟨false, "gin", "none", "", "simple"⟩ ["svc1"] (.error "not asked") =
        .ok final ∧
      (final.Database = "" ↔ final.ORM = ORMNone) :=
  (runInit_flag_path ⟨false, "gin", "none", "", "simple"⟩ ["svc1"] (.error "not asked")
    (by decide) (by decide)).2

/-! ### Idempotence of the defaults -/

/-- C29: validateAndSetDefaults is idempotent: when it succeeds on a configuration,
applying it to its result succeeds again and returns that result unchanged. -/
theorem validateAndSetDefaults_idempotent (cfg : ProjectConfig)
    (h : (validateAndSetDefaults cfg).1 = none) :
    validateAndSetDefaults (validateAndSetDefaults cfg).2 =
      (none, (validateAndSetDefaults cfg).2) := by
  obtain ⟨hn, hf, ho, hd, ha⟩ := validateAndSetDefaults_ok_valid cfg h
  have hrest : validateAndSetDefaults.rest (validateAndSetDefaults cfg).2 =
      (validateAndSetDefaults cfg).2 := by
    rw [validateAndSetDefaults_snd_of_ok cfg h, validateAndSetDefaults.rest_rest]
  generalize (validateAndSetDefaults cfg).2 = c at hn hf ho hd ha hrest
  unfold validateAndSetDefaults
  rw [validateAndSetDefaults.name_of_valid c hn]
  simp only [Checked.andThen]
  rw [validateAndSetDefaults.framework_of_valid c hf]
  simp only []
  rw [validateAndSetDefaults.orm_of_valid c ho]
  simp only []
  rw [validateAndSetDefaults.database_of_valid c hd]
  simp only []
  rw [validateAndSetDefaults.architecture_of_valid c ha]
  simp only [hrest]

set_option maxRecDepth 8192 in
theorem validateAndSetDefaults_idempotent_witness :
    (validateAndSetDefaults { ProjectConfig.zero with ProjectName := "svc1" }).1 = none ∧
      validateAndSetDefaults
          (validateAndSetDefaults { ProjectConfig.zero with ProjectName := "svc1" }).2 =
        (none, (validateAndSetDefaults { ProjectConfig.zero with ProjectName := "svc1" }).2) :=
  ⟨by decide,
    validateAndSetDefaults_idempotent { ProjectConfig.zero with ProjectName := "svc1" }
      (by decide)⟩

/-! ### The option extractors of the prompts -/

set_option maxRecDepth 100000 in
/-- C30: each extractor inverts the option formatting of its prompt. Applied to
the option strings that CollectProjectConfig builds for the constants of an
enumeration, in the order of the source, it returns exactly those constants, for
the frameworks, ORMs, databases, architectures, config formats, auth methods,
logging libraries and CI/CD platforms. It does so although an option text may
contain a constant tested later (the Redis option contains `memory`). -/
theorem extract_inverts_options :
    CollectProjectConfig.frameworkPrompt.Options.map extractFrameworkName =
      [FrameworkGin, FrameworkEcho, FrameworkFiber, FrameworkRevel] ∧
    CollectProjectConfig.ormPrompt.Options.map extractORMName =
      [ORMGorm, ORMSqlx, ORMRaw, ORMNone] ∧
    CollectProjectConfig.dbPrompt.Options.map extractDBName =
      [DBPostgreSQL, DBMySQL, DBSQLite, DBMongoDB, DBRedis, DBMemory] ∧
    CollectProjectConfig.archPrompt.Options.map extractArchName =
      [ArchSimple, ArchClean, ArchHexagonal, ArchMVC, ArchCustom] ∧
    CollectProjectConfig.configPrompt.Options.map extractConfigName =
      [ConfigYAML, ConfigJSON, ConfigTOML] ∧
    CollectProjectConfig.authPrompt.Options.map extractAuthName =
      [AuthJWT, AuthOAuth2, AuthBasic, AuthNone] ∧
    CollectProjectConfig.loggingPrompt.Options.map extractLoggingName =
      [LogCharm, LogZap, LogLogrus, LogStandard] ∧
    CollectProjectConfig.cicdPrompt.Options.map extractCICDName =
      [CICDGitHub, CICDGitLab, CICDNone] ∧
    stringsContains ("⚡ " ++ DBRedis ++ " - In-memory data store") DBMemory = true := by
  decide

end Gool
